import Mathlib

/-! # Balloons and Static Electricity: model and describers

A shallow embedding of the charge model (`SweaterModel.js`, `WallModel.js`,
`PointChargeModel.js`, `MovablePointChargeModel.js`), of the play-area map
(`PlayAreaMap.js`) and of the location describer (`BASEDescriber.js`), followed by the
properties proved about them.

Conventions of the embedding.

* JavaScript numbers are embedded as rationals (`ℚ`): every comparison of the source is
  exact on them, and the arithmetic of the source (`x - 5`, `x + 50`, ...) is read as exact
  arithmetic. Charges (`charge`, `chargeProperty`) only ever change by `± 1` and are
  embedded as integers.
* An AXON `Property` is embedded as the value it holds (and, where the source reads
  `initialValue`, as a pair of the value and the initial value).
* A JavaScript object used as a string-keyed table is embedded as an association list in
  the insertion order of its keys, which is the order of `Object.keys`.
* A call that throws is embedded as a result `none`, together with the state the objects
  are left in.
-/

namespace BASE

/-! ## DOT/Vector2 -/

/-- A `Vector2` of DOT: a pair of numbers. -/
structure Vector2 where
  x : ℚ
  y : ℚ
deriving DecidableEq, Repr

/-! ## PointChargeModel.js -/

/-- The node that the view layer stores in `charge.view`; the model only writes its
`visible` field. -/
structure ChargeView where
  visible : Bool
deriving DecidableEq, Repr

/-- A `PointChargeModel`: `location` is the value of `locationProperty`; `view` is the
field `charge.view`, `none` while it is `undefined`. -/
structure PointChargeModel where
  location : Vector2
  defaultLocation : Vector2
  moved : Bool
  view : Option ChargeView
deriving DecidableEq, Repr

/-- Method `PointChargeModel.prototype.reset`: the location returns to a copy of the default
location and `moved` is cleared. -/
def PointChargeModel.reset (c : PointChargeModel) : PointChargeModel :=
  { c with location := c.defaultLocation, moved := false }

/-- The constructor `PointChargeModel( x, y )`: the property starts at `(0, 0)`, the default
location is `(x, y)`, then `reset()` runs and `moved` is set to false. No view is attached. -/
def PointChargeModel.new (x y : ℚ) : PointChargeModel :=
  { (PointChargeModel.reset
      { location := ⟨0, 0⟩, defaultLocation := ⟨x, y⟩, moved := false, view := none })
    with moved := false }

/-! ## SweaterModel.js -/

/-- The balloon as `SweaterModel.findIntersection` reads and writes it:
`locationProperty`, `height` and `chargeProperty`. -/
structure BalloonModel where
  location : Vector2
  height : ℚ
  charge : Int
deriving DecidableEq, Repr

/-- A `SweaterModel`: the `PropertySet` fields `width`, `height`, `charge`, the corner
`x`, `y` and the two arrays of charges. -/
structure SweaterModel where
  width : ℚ
  height : ℚ
  charge : Int
  x : ℚ
  y : ℚ
  plusCharges : List PointChargeModel
  minusCharges : List PointChargeModel
deriving DecidableEq, Repr

/-- The table `this.positions` of the constructor, in source order. -/
def SweaterModel.positions : List (ℚ × ℚ) :=
  [ (104, 114), (94, 140), (85, 171), (80, 197), (76, 228), (74, 259), (71, 292),
    (67, 323), (67, 354), (61, 380),
    (140, 135), (142, 166), (145, 195), (145, 224), (143, 255), (140, 287), (138, 317),
    (132, 346), (128, 377),
    (170, 148), (171, 179), (171, 210), (172, 241), (171, 273), (169, 304), (167, 337),
    (163, 368), (163, 400),
    (208, 138), (208, 167), (206, 198), (205, 229), (203, 260), (202, 291), (200, 322),
    (197, 352), (196, 383),
    (239, 125), (236, 155), (234, 185), (233, 216), (232, 247), (231, 279), (230, 310),
    (227, 341), (226, 371), (224, 400),
    (266, 109), (283, 140), (292, 171), (292, 202), (292, 237), (290, 267), (295, 297),
    (296, 328), (295, 358), (290, 387) ]

/-- Method `SweaterModel.prototype.reset`: `moved` is cleared on every minus charge that has a
view (the guard `if ( entry.view )`), and the charge is set to 0. -/
def SweaterModel.reset (s : SweaterModel) : SweaterModel :=
  { s with
    minusCharges := s.minusCharges.map
      (fun entry => if entry.view.isSome then { entry with moved := false } else entry),
    charge := 0 }

/-- The constructor `SweaterModel( x, y )`: one plus and one minus charge per entry of
`positions`, both at `( entry[ 0 ], entry[ 1 ] + y )`, then `reset()`. -/
def SweaterModel.new (x y : ℚ) : SweaterModel :=
  SweaterModel.reset
    { width := 330, height := 420, charge := 0, x := x, y := y,
      plusCharges := SweaterModel.positions.map
        (fun entry => PointChargeModel.new entry.1 (entry.2 + y)),
      minusCharges := SweaterModel.positions.map
        (fun entry => PointChargeModel.new entry.1 (entry.2 + y)) }

/-- The sweater once a node has been stored in the `view` field of every minus charge.
The model never assigns this field: `moveChargeTo` writes `charge.view.visible` and `reset`
tests `entry.view`, so the field is set from outside the model, by the code that draws the
charges. -/
def SweaterModel.attachViews (s : SweaterModel) : SweaterModel :=
  { s with minusCharges := s.minusCharges.map (fun c => { c with view := some ⟨true⟩ }) }

/-- The active rectangle of the balloon in `findIntersection`: `x1`, `x2`, `y1`, `y2`. -/
structure ActiveArea where
  x1 : ℚ
  x2 : ℚ
  y1 : ℚ
  y2 : ℚ
deriving DecidableEq, Repr

/-- The four bounds computed at the top of `findIntersection`. -/
def activeArea (balloon : BalloonModel) : ActiveArea :=
  { x1 := balloon.location.x - 5
    x2 := balloon.location.x + 50
    y1 := balloon.location.y - 10
    y2 := balloon.location.y + balloon.height + 10 }

/-- The three nested tests of the callback of `findIntersection` on one entry:
not moved, `x1 < x < x2`, `y1 < y < y2`. -/
def eligible (a : ActiveArea) (entry : PointChargeModel) : Bool :=
  !entry.moved &&
    (decide (a.x1 < entry.location.x) && decide (entry.location.x < a.x2)) &&
    (decide (a.y1 < entry.location.y) && decide (entry.location.y < a.y2))

/-- The variables the callback of `findIntersection` updates besides the entries: the two
charge properties, the local `chargeMoved`, and whether a `TypeError` has been thrown. -/
structure ScanState where
  sweaterCharge : Int
  balloonCharge : Int
  chargeMoved : Bool
  threw : Bool
deriving DecidableEq, Repr

/-- Method `SweaterModel.prototype.moveChargeTo( charge, balloon )`: `charge.moved = true`,
then `charge.view.visible = false`, which throws a `TypeError` when the view is undefined,
then the balloon charge is lowered by 1 and the sweater charge raised by 1. -/
def SweaterModel.moveChargeTo (charge : PointChargeModel) (st : ScanState) :
    PointChargeModel × ScanState :=
  match charge.view with
  | none => ({ charge with moved := true }, { st with threw := true })
  | some v =>
    ({ charge with moved := true, view := some { v with visible := false } },
      { st with balloonCharge := st.balloonCharge - 1,
                sweaterCharge := st.sweaterCharge + 1 })

/-- The loop `this.minusCharges.forEach( ... )` of `findIntersection`: on an entry that
passes the three tests, `moveChargeTo` and then `chargeMoved = true`; an exception thrown
by `moveChargeTo` ends the loop and leaves the remaining entries as they are. -/
def forEachMinusCharge (a : ActiveArea) :
    List PointChargeModel → ScanState → List PointChargeModel × ScanState
  | [], st => ([], st)
  | entry :: rest, st =>
    if eligible a entry then
      let m := SweaterModel.moveChargeTo entry st
      if m.2.threw then (m.1 :: rest, m.2)
      else
        let r := forEachMinusCharge a rest { m.2 with chargeMoved := true }
        (m.1 :: r.1, r.2)
    else
      let r := forEachMinusCharge a rest st
      (entry :: r.1, r.2)

/-- What a call of `findIntersection` leaves behind: the sweater, the balloon, and the
returned boolean (`none` when the call threw). -/
structure ContactOutcome where
  sweater : SweaterModel
  balloon : BalloonModel
  result : Option Bool
deriving DecidableEq, Repr

/-- Method `SweaterModel.prototype.findIntersection( balloon )`: the active rectangle,
the loop over the minus charges, and the returned `chargeMoved`. -/
def SweaterModel.findIntersection (s : SweaterModel) (balloon : BalloonModel) :
    ContactOutcome :=
  let r := forEachMinusCharge (activeArea balloon) s.minusCharges
    { sweaterCharge := s.charge, balloonCharge := balloon.charge,
      chargeMoved := false, threw := false }
  { sweater := { s with minusCharges := r.1, charge := r.2.sweaterCharge }
    balloon := { balloon with charge := r.2.balloonCharge }
    result := if r.2.threw then none else some r.2.chargeMoved }

/-- The operations that act on the sweater during a session. -/
inductive SweaterOp where
  | contact (balloon : BalloonModel)
  | reset
deriving DecidableEq, Repr

/-- One operation applied to the sweater. -/
def SweaterModel.apply (s : SweaterModel) : SweaterOp → SweaterModel
  | .contact balloon => (s.findIntersection balloon).sweater
  | .reset => s.reset

/-- A sequence of operations applied from left to right. -/
def SweaterModel.run (s : SweaterModel) (ops : List SweaterOp) : SweaterModel :=
  ops.foldl SweaterModel.apply s

/-- The number of entries whose `moved` flag is set. -/
def movedCount (l : List PointChargeModel) : Nat :=
  l.countP (fun c => c.moved)

/-- The number of positions at which `moved` is false in `before` and true in `after`. -/
def newlyMoved (before after : List PointChargeModel) : Nat :=
  (List.zip before after).countP (fun p => !p.1.moved && p.2.moved)

/-- The entry as the callback of `findIntersection` leaves it when it does not throw. -/
def transferred (a : ActiveArea) (entry : PointChargeModel) : PointChargeModel :=
  if eligible a entry then
    { entry with
      moved := true, view := entry.view.map (fun v => { v with visible := false }) }
  else entry

/-- The spec's words for an eligible charge: a minus charge with `moved = false` strictly
inside the balloon rectangle, `balloon.x - 5 < cx < balloon.x + 50` and
`balloon.y - 10 < cy < balloon.y + balloon.height + 10`. -/
def InRange (balloon : BalloonModel) (c : PointChargeModel) : Prop :=
  c.moved = false ∧
    (balloon.location.x - 5 < c.location.x ∧ c.location.x < balloon.location.x + 50) ∧
    (balloon.location.y - 10 < c.location.y ∧
      c.location.y < balloon.location.y + balloon.height + 10)

instance (balloon : BalloonModel) (c : PointChargeModel) : Decidable (InRange balloon c) := by
  unfold InRange
  infer_instance

/-- The number of charges of the list that are in range of the balloon. -/
def inRangeCount (balloon : BalloonModel) (l : List PointChargeModel) : Nat :=
  l.countP (fun c => decide (InRange balloon c))

/-- A sweater as the simulation starts with it: constructed at `(0, 0)`, views attached. -/
def exampleSweater : SweaterModel := (SweaterModel.new 0 0).attachViews

/-- A neutral balloon of height 50 at `(80, 100)`: its active rectangle is
`75 < x < 130`, `90 < y < 160`, which holds the first two charges of the sweater at
`(104, 114)` and `(94, 140)` and no other. -/
def exampleBalloon : BalloonModel := { location := ⟨80, 100⟩, height := 50, charge := 0 }

/-- The sweater as the constructor leaves it, at `(0, 0)`: the model stores no node in the
`view` field of a charge, so every minus charge is without view. -/
def exampleBareSweater : SweaterModel := SweaterModel.new 0 0

/-- The first minus charge of the sweater constructed at `(0, 0)`: at `(104, 114)`, not
moved, without view. -/
def exampleFirstCharge : PointChargeModel :=
  { location := ⟨104, 114⟩, defaultLocation := ⟨104, 114⟩, moved := false, view := none }

/-- The invariant of the sweater during a session: the 57 minus charges are all there,
each has its view, and the charge counts the moved ones. -/
structure SweaterInv (s : SweaterModel) : Prop where
  length_eq : s.minusCharges.length = 57
  views : ∀ c ∈ s.minusCharges, c.view ≠ none
  charge_eq : s.charge = (movedCount s.minusCharges : Nat)

/-! ## MovablePointChargeModel.js and WallModel.js -/

/-- An AXON property that holds a `Vector2`: the current value and the initial value that
`reset()` restores. `MovablePointChargeModel.js` names the property of a charge
`locationProperty`, `WallModel.js` names it `positionProperty`. -/
structure Vector2Property where
  value : Vector2
  initialValue : Vector2
deriving DecidableEq, Repr

/-- Method `Property.set`. -/
def Vector2Property.set (p : Vector2Property) (v : Vector2) : Vector2Property :=
  { p with value := v }

/-- Method `Property.reset`: the value returns to the initial value. -/
def Vector2Property.reset (p : Vector2Property) : Vector2Property :=
  { p with value := p.initialValue }

/-- A `MovablePointChargeModel`: the fields inherited from `PointChargeModel`
(`defaultLocation`, `moved`) and its own `locationProperty`. -/
structure MovablePointChargeModel where
  defaultLocation : Vector2
  moved : Bool
  locationProperty : Vector2Property
deriving DecidableEq, Repr

/-- Method `MovablePointChargeModel.prototype.reset`: first `PointChargeModel.prototype.reset`
(the property is set to a copy of the default location, `moved` is cleared), then
`this.locationProperty.reset()`. -/
def MovablePointChargeModel.reset (c : MovablePointChargeModel) : MovablePointChargeModel :=
  let c1 : MovablePointChargeModel :=
    { c with locationProperty := c.locationProperty.set c.defaultLocation, moved := false }
  { c1 with locationProperty := c1.locationProperty.reset }

/-- Method `Vector2.distance` of DOT, the square root of the squared distance; `Math.sqrt` is a
parameter. -/
def Vector2.distance (sqrt : ℚ → ℚ) (p q : Vector2) : ℚ :=
  sqrt ((p.x - q.x) * (p.x - q.x) + (p.y - q.y) * (p.y - q.y))

/-- Method `MovablePointChargeModel.prototype.getDisplacement`: the distance of the current value
of the property from its initial value. -/
def MovablePointChargeModel.getDisplacement (sqrt : ℚ → ℚ)
    (c : MovablePointChargeModel) : ℚ :=
  Vector2.distance sqrt c.locationProperty.value c.locationProperty.initialValue

/-- A `WallModel`: `isVisible` is the value of `isVisibleProperty`, a `BooleanProperty`
whose initial value the constructor fixes to `true`. -/
structure WallModel where
  isVisible : Bool
  y : ℚ
  x : ℚ
  numX : Nat
  numY : Nat
  width : ℚ
  height : ℚ
  dx : ℚ
  dy : ℚ
  plusCharges : List PointChargeModel
  minusCharges : List MovablePointChargeModel
deriving DecidableEq, Repr

/-- Method `WallModel.prototype.reset`: `isVisibleProperty.reset()` restores the initial value
`true`, and every minus charge is reset. -/
def WallModel.reset (w : WallModel) : WallModel :=
  { w with
    isVisible := true,
    minusCharges := w.minusCharges.map MovablePointChargeModel.reset }

/-- A square root that is exact on squares of integers, for running the model. -/
def exampleSqrt (q : ℚ) : ℚ := (Nat.sqrt q.num.toNat : ℚ) / (Nat.sqrt q.den : ℚ)

/-- A wall state in the middle of a session: hidden, with two of its minus charges pushed
away from their initial positions by a balloon. -/
def exampleWall : WallModel :=
  { isVisible := false, y := 0, x := 688, numX := 3, numY := 18, width := 80, height := 504,
    dx := 29, dy := 28,
    plusCharges := [PointChargeModel.new 697 14, PointChargeModel.new 697 42],
    minusCharges :=
      [ { defaultLocation := ⟨689, 6⟩, moved := false,
          locationProperty := { value := ⟨692, 2⟩, initialValue := ⟨689, 6⟩ } },
        { defaultLocation := ⟨689, 34⟩, moved := false,
          locationProperty := { value := ⟨695, 42⟩, initialValue := ⟨689, 34⟩ } } ] }

/-! ## DOT/Range and PlayAreaMap.js -/

/-- A `Range` of DOT. -/
structure Range where
  min : ℚ
  max : ℚ
deriving DecidableEq, Repr

/-- Method `Range.contains` of DOT: `min <= value && value <= max`, both ends included. -/
def Range.contains (r : Range) (value : ℚ) : Bool :=
  decide (r.min ≤ value) && decide (value ≤ r.max)

namespace PlayAreaMap

def LANDMARK_WIDTH : ℚ := 20

def HALF_LANDMARK_WIDTH : ℚ := LANDMARK_WIDTH / 2

/-- The critical x locations of `X_LOCATIONS`. -/
def X_LOCATIONS.AT_NEAR_SWEATER : ℚ := 393

def X_LOCATIONS.AT_CENTER_PLAY_AREA : ℚ := 507

def X_LOCATIONS.AT_NEAR_WALL : ℚ := 596

def X_LOCATIONS.AT_WALL : ℚ := 621

def X_LOCATIONS.AT_NEAR_RIGHT_EDGE : ℚ := 676

/-- The table `X_LOCATIONS`, keys in source order. -/
def X_LOCATIONS : List (String × ℚ) :=
  [ ("AT_NEAR_SWEATER", X_LOCATIONS.AT_NEAR_SWEATER),
    ("AT_CENTER_PLAY_AREA", X_LOCATIONS.AT_CENTER_PLAY_AREA),
    ("AT_NEAR_WALL", X_LOCATIONS.AT_NEAR_WALL),
    ("AT_WALL", X_LOCATIONS.AT_WALL),
    ("AT_NEAR_RIGHT_EDGE", X_LOCATIONS.AT_NEAR_RIGHT_EDGE) ]

/-- The horizontal boundary locations of `X_BOUNDARY_LOCATIONS`. -/
def X_BOUNDARY_LOCATIONS.AT_LEFT_EDGE : ℚ := 67

def X_BOUNDARY_LOCATIONS.AT_RIGHT_EDGE : ℚ := 701

/-- Function `createNextRange( width, previousRange )`: the range starts at the max of the
previous range, or at 0 when there is none. -/
def createNextRange (width : ℚ) (previousRange : Option Range) : Range :=
  let min := match previousRange with
    | some r => r.max
    | none => 0
  { min := min, max := min + width }

/-- Function `createLandmarkRange( xLocation )`: the range of half a landmark width on
either side of the location. -/
def createLandmarkRange (xLocation : ℚ) : Range :=
  { min := xLocation - HALF_LANDMARK_WIDTH, max := xLocation + HALF_LANDMARK_WIDTH }

def atNearSweaterRange : Range := createLandmarkRange X_LOCATIONS.AT_NEAR_SWEATER

def atCenterPlayAreaRange : Range :=
  createLandmarkRange X_LOCATIONS.AT_CENTER_PLAY_AREA

def atNearWallRange : Range := createLandmarkRange X_LOCATIONS.AT_NEAR_WALL

def atNearRightEdgeRange : Range :=
  createLandmarkRange X_LOCATIONS.AT_NEAR_RIGHT_EDGE

def atVeryCloseToSweaterRange : Range :=
  { min := atNearSweaterRange.min - LANDMARK_WIDTH, max := atNearSweaterRange.min }

def atVeryCloseToWallRange : Range :=
  { min := atNearWallRange.max, max := X_LOCATIONS.AT_WALL - 1 }

def atVeryCloseToRightEdgeRange : Range :=
  { min := atNearRightEdgeRange.max, max := X_BOUNDARY_LOCATIONS.AT_RIGHT_EDGE - 1 }

/-- The table `LANDMARK_RANGES`, keys in source order. -/
def LANDMARK_RANGES : List (String × Range) :=
  [ ("AT_NEAR_SWEATER", atNearSweaterRange),
    ("AT_CENTER_PLAY_AREA", atCenterPlayAreaRange),
    ("AT_NEAR_WALL", atNearWallRange),
    ("AT_NEAR_RIGHT_EDGE", atNearRightEdgeRange),
    ("AT_VERY_CLOSE_TO_SWEATER", atVeryCloseToSweaterRange),
    ("AT_VERY_CLOSE_TO_WALL", atVeryCloseToWallRange),
    ("AT_VERY_CLOSE_TO_RIGHT_EDGE", atVeryCloseToRightEdgeRange) ]

def leftArmRange : Range := createNextRange 138 none

def leftSideOfSweaterRange : Range := createNextRange 65 (some leftArmRange)

def rightSideOfSweaterRange : Range := createNextRange 67 (some leftSideOfSweaterRange)

def rightArmRange : Range := createNextRange 65 (some rightSideOfSweaterRange)

def leftPlayAreaRange : Range := createNextRange 132 (some rightArmRange)

def centerPlayAreaRange : Range := createNextRange 77 (some leftPlayAreaRange)

def rightPlayAreaRange : Range := createNextRange 132 (some centerPlayAreaRange)

def rightEdgeRange : Range := createNextRange 500 (some rightPlayAreaRange)

/-- The table `COLUMN_RANGES`, keys in source order. -/
def COLUMN_RANGES : List (String × Range) :=
  [ ("LEFT_ARM", leftArmRange),
    ("LEFT_SIDE_OF_SWEATER", leftSideOfSweaterRange),
    ("RIGHT_SIDE_OF_SWEATER", rightSideOfSweaterRange),
    ("RIGHT_ARM", rightArmRange),
    ("LEFT_PLAY_AREA", leftPlayAreaRange),
    ("CENTER_PLAY_AREA", centerPlayAreaRange),
    ("RIGHT_PLAY_AREA", rightPlayAreaRange),
    ("RIGHT_EDGE", rightEdgeRange) ]

def upperPlayAreaRange : Range := createNextRange 172 none

def centerPlayAreaRowRange : Range := createNextRange 154 (some upperPlayAreaRange)

def lowerPlayAreaRange : Range := createNextRange 500 (some centerPlayAreaRowRange)

/-- The table `ROW_RANGES`, keys in source order. -/
def ROW_RANGES : List (String × Range) :=
  [ ("UPPER_PLAY_AREA", upperPlayAreaRange),
    ("CENTER_PLAY_AREA", centerPlayAreaRowRange),
    ("LOWER_PLAY_AREA", lowerPlayAreaRange) ]

def WIDTH : ℚ := 768

def HEIGHT : ℚ := 504

end PlayAreaMap

/-- The loop `for ( i = 0; i < keys.length; i++ ) { if ( table[ keys[ i ] ].contains( v ) )
{ found = keys[ i ]; } }` over a table of ranges: no `break`, the last key whose range
contains the value is kept; `none` is `undefined`. -/
def lastKeyContaining (table : List (String × Range)) (v : ℚ) : Option String :=
  table.foldl (fun found entry => if entry.2.contains v then some entry.1 else found) none

/-- The loop over `X_LOCATIONS` with the test `location.x === locations[ key ]`; the last
key with an equal value is kept. -/
def lastKeyEqual (table : List (String × ℚ)) (v : ℚ) : Option String :=
  table.foldl (fun found entry => if v = entry.2 then some entry.1 else found) none

/-! ## BASEA11yStrings.js: the strings of the play-area grid and of the landmarks -/

namespace BASEA11yStrings

def leftShoulderOfSweaterString : String := "left shoulder of sweater"
def leftArmOfSweaterString : String := "left arm of sweater"
def bottomLeftEdgeOfSweaterString : String := "lower-left arm of sweater"
def upperLeftSideOfSweaterString : String := "upper-left side of sweater"
def leftSideOfSweaterString : String := "left side of sweater"
def lowerLeftSideOfSweaterString : String := "lower-left side of sweater"
def upperRightSideOfSweaterString : String := "upper-right side of sweater"
def rightSideOfSweaterString : String := "right side of sweater"
def lowerRightSideOfSweater : String := "lower-right side of sweater"
def rightShoulderOfSweaterString : String := "right shoulder of sweater"
def rightArmOfSweaterString : String := "right arm of sweater"
def lowerRightArmOfSweaterString : String := "lower-right arm of sweater"
def upperLeftSideOfPlayAreaString : String := "upper-left side of Play Area"
def leftSideOfPlayAreaString : String := "left side of Play Area"
def lowerLeftSideOfPlayAreaString : String := "lower-left side of Play Area"
def upperCenterOfPlayAreaString : String := "upper-center of Play Area"
def centerOfPlayAreaString : String := "center of Play Area"
def lowerCenterOfPlayAreaString : String := "lower-center of Play Area"
def upperRightSideOfPlayAreaString : String := "upper-right side of Play Area"
def rightSideOfPlayAreaString : String := "right side of Play Area"
def lowerRightSideOfPlayAreaString : String := "lower-right side of Play Area"
def upperWallString : String := "upper wall"
def wallString : String := "wall"
def lowerWallString : String := "lower wall"
def upperRightEdgeOfPlayAreaString : String := "upper-right edge of Play Area"
def rightEdgeOfPlayAreaString : String := "right edge of Play Area"
def lowerRightEdgeOfPlayAreaString : String := "lower-right edge of Play Area"
def landmarkNearSweaterString : String := "sweater"
def landmarkLeftEdgeString : String := "left edge"
def landmarkNearUpperWallString : String := "upper wall"
def landmarkNearWallString : String := "wall"
def landmarkNearLowerWallString : String := "lower wall"
def landmarkNearUpperRightEdgeString : String := "upper right edge"
def landmarkNearRightEdgeString : String := "right edge"
def landmarkNearLowerRightEdgeString : String := "lower-right edge"
def landmarkAtCenterPlayAreaString : String := "center of Play Area"
def landmarkAtUpperCenterPlayAreaString : String := "upper-center of Play Area"
def landmarkAtLowerCenterPlayAreaString : String := "lower-center of Play Area"
def landmarkVeryCloseToSweaterString : String := "sweater"
def landmarkVeryCloseToWallString : String := "wall"
def landmarkVeryCloseToUpperWallString : String := "upper wall"
def landmarkVeryCloseToLowerWallString : String := "lower wall"
def landmarkVeryCloseToRightEdgeString : String := "right edge"
def landmarkVeryCloseToUpperRightEdgeString : String := "upper-right edge"
def landmarkVeryCloseToLowerRightEdgeString : String := "lower-right edge"

end BASEA11yStrings

/-! ## BASEDescriber.js -/

namespace BASEDescriber

/-- The table `LOCATION_DESCRIPTION_MAP`: for each column, landmark or location key, the
description for each of the three rows, in source order. -/
def LOCATION_DESCRIPTION_MAP : List (String × List (String × String)) :=
  [ ("AT_LEFT_EDGE",
      [ ("UPPER_PLAY_AREA", BASEA11yStrings.landmarkLeftEdgeString),
        ("CENTER_PLAY_AREA", BASEA11yStrings.landmarkLeftEdgeString),
        ("LOWER_PLAY_AREA", BASEA11yStrings.landmarkLeftEdgeString) ]),
    ("LEFT_ARM",
      [ ("UPPER_PLAY_AREA", BASEA11yStrings.leftShoulderOfSweaterString),
        ("CENTER_PLAY_AREA", BASEA11yStrings.leftArmOfSweaterString),
        ("LOWER_PLAY_AREA", BASEA11yStrings.bottomLeftEdgeOfSweaterString) ]),
    ("LEFT_SIDE_OF_SWEATER",
      [ ("UPPER_PLAY_AREA", BASEA11yStrings.upperLeftSideOfSweaterString),
        ("CENTER_PLAY_AREA", BASEA11yStrings.leftSideOfSweaterString),
        ("LOWER_PLAY_AREA", BASEA11yStrings.lowerLeftSideOfSweaterString) ]),
    ("RIGHT_SIDE_OF_SWEATER",
      [ ("UPPER_PLAY_AREA", BASEA11yStrings.upperRightSideOfSweaterString),
        ("CENTER_PLAY_AREA", BASEA11yStrings.rightSideOfSweaterString),
        ("LOWER_PLAY_AREA", BASEA11yStrings.lowerRightSideOfSweater) ]),
    ("RIGHT_ARM",
      [ ("UPPER_PLAY_AREA", BASEA11yStrings.rightShoulderOfSweaterString),
        ("CENTER_PLAY_AREA", BASEA11yStrings.rightArmOfSweaterString),
        ("LOWER_PLAY_AREA", BASEA11yStrings.lowerRightArmOfSweaterString) ]),
    ("AT_VERY_CLOSE_TO_SWEATER",
      [ ("UPPER_PLAY_AREA", BASEA11yStrings.landmarkVeryCloseToSweaterString),
        ("CENTER_PLAY_AREA", BASEA11yStrings.landmarkVeryCloseToSweaterString),
        ("LOWER_PLAY_AREA", BASEA11yStrings.landmarkVeryCloseToSweaterString) ]),
    ("AT_NEAR_SWEATER",
      [ ("UPPER_PLAY_AREA", BASEA11yStrings.landmarkNearSweaterString),
        ("CENTER_PLAY_AREA", BASEA11yStrings.landmarkNearSweaterString),
        ("LOWER_PLAY_AREA", BASEA11yStrings.landmarkNearSweaterString) ]),
    ("LEFT_PLAY_AREA",
      [ ("UPPER_PLAY_AREA", BASEA11yStrings.upperLeftSideOfPlayAreaString),
        ("CENTER_PLAY_AREA", BASEA11yStrings.leftSideOfPlayAreaString),
        ("LOWER_PLAY_AREA", BASEA11yStrings.lowerLeftSideOfPlayAreaString) ]),
    ("AT_CENTER_PLAY_AREA",
      [ ("UPPER_PLAY_AREA", BASEA11yStrings.landmarkAtUpperCenterPlayAreaString),
        ("CENTER_PLAY_AREA", BASEA11yStrings.landmarkAtCenterPlayAreaString),
        ("LOWER_PLAY_AREA", BASEA11yStrings.landmarkAtLowerCenterPlayAreaString) ]),
    ("CENTER_PLAY_AREA",
      [ ("UPPER_PLAY_AREA", BASEA11yStrings.upperCenterOfPlayAreaString),
        ("CENTER_PLAY_AREA", BASEA11yStrings.centerOfPlayAreaString),
        ("LOWER_PLAY_AREA", BASEA11yStrings.lowerCenterOfPlayAreaString) ]),
    ("RIGHT_PLAY_AREA",
      [ ("UPPER_PLAY_AREA", BASEA11yStrings.upperRightSideOfPlayAreaString),
        ("CENTER_PLAY_AREA", BASEA11yStrings.rightSideOfPlayAreaString),
        ("LOWER_PLAY_AREA", BASEA11yStrings.lowerRightSideOfPlayAreaString) ]),
    ("AT_NEAR_WALL",
      [ ("UPPER_PLAY_AREA", BASEA11yStrings.landmarkNearUpperWallString),
        ("CENTER_PLAY_AREA", BASEA11yStrings.landmarkNearWallString),
        ("LOWER_PLAY_AREA", BASEA11yStrings.landmarkNearLowerWallString) ]),
    ("AT_VERY_CLOSE_TO_WALL",
      [ ("UPPER_PLAY_AREA", BASEA11yStrings.landmarkVeryCloseToUpperWallString),
        ("CENTER_PLAY_AREA", BASEA11yStrings.landmarkVeryCloseToWallString),
        ("LOWER_PLAY_AREA", BASEA11yStrings.landmarkVeryCloseToLowerWallString) ]),
    ("AT_WALL",
      [ ("UPPER_PLAY_AREA", BASEA11yStrings.upperWallString),
        ("CENTER_PLAY_AREA", BASEA11yStrings.wallString),
        ("LOWER_PLAY_AREA", BASEA11yStrings.lowerWallString) ]),
    ("WALL",
      [ ("UPPER_PLAY_AREA", BASEA11yStrings.upperWallString),
        ("CENTER_PLAY_AREA", BASEA11yStrings.wallString),
        ("LOWER_PLAY_AREA", BASEA11yStrings.lowerWallString) ]),
    ("AT_NEAR_RIGHT_EDGE",
      [ ("UPPER_PLAY_AREA", BASEA11yStrings.landmarkNearUpperRightEdgeString),
        ("CENTER_PLAY_AREA", BASEA11yStrings.landmarkNearRightEdgeString),
        ("LOWER_PLAY_AREA", BASEA11yStrings.landmarkNearLowerRightEdgeString) ]),
    ("AT_VERY_CLOSE_TO_RIGHT_EDGE",
      [ ("UPPER_PLAY_AREA", BASEA11yStrings.landmarkVeryCloseToUpperRightEdgeString),
        ("CENTER_PLAY_AREA", BASEA11yStrings.landmarkVeryCloseToRightEdgeString),
        ("LOWER_PLAY_AREA", BASEA11yStrings.landmarkVeryCloseToLowerRightEdgeString) ]),
    ("RIGHT_EDGE",
      [ ("UPPER_PLAY_AREA", BASEA11yStrings.upperRightEdgeOfPlayAreaString),
        ("CENTER_PLAY_AREA", BASEA11yStrings.rightEdgeOfPlayAreaString),
        ("LOWER_PLAY_AREA", BASEA11yStrings.lowerRightEdgeOfPlayAreaString) ]),
    ("AT_RIGHT_EDGE",
      [ ("UPPER_PLAY_AREA", BASEA11yStrings.upperRightEdgeOfPlayAreaString),
        ("CENTER_PLAY_AREA", BASEA11yStrings.rightEdgeOfPlayAreaString),
        ("LOWER_PLAY_AREA", BASEA11yStrings.lowerRightEdgeOfPlayAreaString) ]) ]

/-- Function `BASEDescriber.inWallColumn( column )`. -/
def inWallColumn (column : String) : Bool :=
  column == "AT_WALL" || column == "AT_NEAR_WALL" || column == "WALL" ||
    column == "AT_VERY_CLOSE_TO_WALL"

/-- The variables of `getLocationDescription` after its four loops: `columnLoopRan` records
whether the loop over the column ranges was entered (the guard `!currentLandmark`), and
`scannedColumn` is what that loop assigned. -/
structure LocationScan where
  currentLocation : Option String
  currentLandmark : Option String
  columnLoopRan : Bool
  scannedColumn : Option String
  currentRow : Option String
deriving DecidableEq, Repr

/-- The four loops of `getLocationDescription`: exact locations, landmarks, columns (only
when no landmark was found), rows. -/
def scanLocation (location : Vector2) : LocationScan :=
  let currentLocation := lastKeyEqual PlayAreaMap.X_LOCATIONS location.x
  let currentLandmark := lastKeyContaining PlayAreaMap.LANDMARK_RANGES location.x
  let columnLoopRan := currentLandmark.isNone
  let scannedColumn :=
    if columnLoopRan then lastKeyContaining PlayAreaMap.COLUMN_RANGES location.x else none
  let currentRow := lastKeyContaining PlayAreaMap.ROW_RANGES location.y
  { currentLocation := currentLocation, currentLandmark := currentLandmark,
    columnLoopRan := columnLoopRan, scannedColumn := scannedColumn, currentRow := currentRow }

/-- The assignment `currentColumn = currentLocation || currentLandmark || currentColumn`. -/
def LocationScan.currentColumn (sc : LocationScan) : Option String :=
  match sc.currentLocation with
  | some k => some k
  | none =>
    match sc.currentLandmark with
    | some k => some k
    | none => sc.scannedColumn

/-- The two relabelling statements at the end of `getLocationDescription`: with the wall
visible `RIGHT_EDGE` and `AT_RIGHT_EDGE` become `WALL`; with the wall invisible every wall
column becomes `RIGHT_PLAY_AREA`. -/
def relabelColumn (wallVisible : Bool) (currentColumn : String) : String :=
  let c1 :=
    if wallVisible && (currentColumn == "RIGHT_EDGE" || currentColumn == "AT_RIGHT_EDGE")
    then "WALL" else currentColumn
  if !wallVisible && inWallColumn c1 then "RIGHT_PLAY_AREA" else c1

/-- The key with which `getLocationDescription` indexes `LOCATION_DESCRIPTION_MAP`;
`none` when the assertion `currentColumn && currentRow` fails. -/
def describedColumn (location : Vector2) (wallVisible : Bool) : Option String :=
  match (scanLocation location).currentColumn, (scanLocation location).currentRow with
  | some column, some _ => some (relabelColumn wallVisible column)
  | _, _ => none

/-- Function `BASEDescriber.getLocationDescription( location, wallVisible )`: the entry
`LOCATION_DESCRIPTION_MAP[ currentColumn ][ currentRow ]`; `none` when the assertion fails
or the entry is undefined. -/
def getLocationDescription (location : Vector2) (wallVisible : Bool) : Option String :=
  match describedColumn location wallVisible, (scanLocation location).currentRow with
  | some column, some row =>
    match LOCATION_DESCRIPTION_MAP.lookup column with
    | some rows => rows.lookup row
    | none => none
  | _, _ => none

end BASEDescriber

/-! ## BASEDescriber.js: relative charge -/

namespace BASEA11yStrings

def noString : String := "no"
def zeroString : String := "zero"
def aFewString : String := "a few"
def severalString : String := "several"
def manyString : String := "many"
def positiveString : String := "positive"

end BASEA11yStrings

namespace BASEDescriber

/-- An entry of `RELATIVE_CHARGE_DESCRIPTION_MAP`: a range and the description of it. -/
structure RelativeChargeEntry where
  range : Range
  description : String
deriving DecidableEq, Repr

/-- The table `RELATIVE_CHARGE_DESCRIPTION_MAP`, keys in source order. -/
def RELATIVE_CHARGE_DESCRIPTION_MAP : List (String × RelativeChargeEntry) :=
  [ ("NO_MORE_RANGE", { range := ⟨0, 0⟩, description := BASEA11yStrings.noString }),
    ("A_FEW_RANGE", { range := ⟨1, 15⟩, description := BASEA11yStrings.aFewString }),
    ("SEVERAL_RANGE", { range := ⟨15, 40⟩, description := BASEA11yStrings.severalString }),
    ("MANY_RANGE", { range := ⟨40, 57⟩, description := BASEA11yStrings.manyString }) ]

/-- Function `BASEDescriber.getRelativeChargeDescription( charge )`: the loop over the keys
stops (`break`) at the first entry whose range contains `Math.abs( charge )`; `none` when
no entry is found and the assertion on `description` fails. -/
def getRelativeChargeDescription (charge : ℚ) : Option String :=
  let absCharge := |charge|
  (RELATIVE_CHARGE_DESCRIPTION_MAP.find? (fun entry => entry.2.range.contains absCharge)).map
    (fun entry => entry.2.description)

end BASEDescriber

/-! ## SceneSummaryNode.js: the attractive state of a balloon -/

/-- The balloon as `getAttractiveStateString` reads it: the results of `onSweater()` and
`touchingWall()`, and the values of `isDraggedProperty` and `chargeProperty`. -/
structure SummaryBalloon where
  onSweater : Bool
  touchingWall : Bool
  isDragged : Bool
  charge : Int
deriving DecidableEq, Repr

namespace SceneSummaryNode

/-- Modelled from the spec: the entries `stickingToString`, `onString` and `touchingString`
that `SceneSummaryNode.js` reads are missing from the string table at hand; the phrases
are the three that the comment of `getAttractiveStateString` lists, 'sticking to', 'on'
and 'touching'. -/
def stickingToString : String := "sticking to"

/-- Modelled from the spec: see `stickingToString`. -/
def onString : String := "on"

/-- Modelled from the spec: see `stickingToString`. -/
def touchingString : String := "touching"

/-- Method `SceneSummaryNode.prototype.getAttractiveStateString( balloon )`. -/
def getAttractiveStateString (balloon : SummaryBalloon) : String :=
  if balloon.onSweater || balloon.touchingWall then
    if !balloon.isDragged && decide (|balloon.charge| > 0) then stickingToString
    else touchingString
  else onString

end SceneSummaryNode

/-! ## JavaScript strings

A JavaScript string is embedded as the list of its characters; the patterns searched for
below are made of ASCII characters. -/

/-- Method `String.prototype.indexOf( pattern )`: the position of the first occurrence of
the pattern; `none` stands for -1. -/
def indexOf : List Char → List Char → Option Nat
  | [], pattern => if pattern.isEmpty then some 0 else none
  | c :: s, pattern =>
    if pattern.isPrefixOf (c :: s) then some 0
    else (indexOf s pattern).map (· + 1)

/-- Method `String.prototype.replace( pattern, replacement )` with a string pattern (also
`_.replace` of lodash): the first occurrence of the pattern is replaced, the rest of the
string is kept. The replacements used below contain no `$`. -/
def replaceFirst : List Char → List Char → List Char → List Char
  | [], pattern, replacement => if pattern.isEmpty then replacement else []
  | c :: s, pattern, replacement =>
    if pattern.isPrefixOf (c :: s) then replacement ++ (c :: s).drop pattern.length
    else c :: replaceFirst s pattern replacement

/-- The loop `while ( s.indexOf( pattern ) >= 0 ) { s = _.replace( s, pattern,
replacement ); }`, run for at most `fuel` iterations; `none` when the pattern is still
there after `fuel` iterations. -/
def replaceWhilePresent (pattern replacement : List Char) :
    Nat → List Char → Option (List Char)
  | 0, s => if (indexOf s pattern).isSome then none else some s
  | fuel + 1, s =>
    if (indexOf s pattern).isSome then
      replaceWhilePresent pattern replacement fuel (replaceFirst s pattern replacement)
    else some s

/-! ## BASEA11yStrings.js: stripPlaceholders -/

namespace BASEA11yStrings

/-- The `for` loop of `stripPlaceholders`: for each placeholder in turn, the first
occurrence of `'{{' + placeholder + '}}'` is removed. -/
def removePlaceholders (patternString : List Char) (placeholders : List String) :
    List Char :=
  placeholders.foldl
    (fun newPattern placeholder =>
      replaceFirst newPattern (['{', '{'] ++ placeholder.data ++ ['}', '}']) [])
    patternString

/-- The last statement of `stripPlaceholders`: when the last character is a space,
`slice( 0, -1 )` drops it. -/
def removeTrailingSpace (newPattern : List Char) : List Char :=
  if newPattern.getLast? = some ' ' then newPattern.dropLast else newPattern

/-- Function `BASEA11yStrings.stripPlaceholders( patternString, placeholders )`: the
placeholders are removed, then every ' .' is removed, then every double space is
collapsed, then one trailing space is dropped. Each `while` loop is given as many
iterations as its string has characters; `none` when that is not enough. -/
def stripPlaceholders (patternString : String) (placeholders : List String) :
    Option String :=
  let newPattern := removePlaceholders patternString.data placeholders
  match replaceWhilePresent [' ', '.'] [] newPattern.length newPattern with
  | none => none
  | some noPunctuation =>
    match replaceWhilePresent [' ', ' '] [' '] noPunctuation.length noPunctuation with
    | none => none
    | some noDoubleSpaces => some (String.mk (removeTrailingSpace noDoubleSpaces))

end BASEA11yStrings

/-! ## PHETCOMMON/StringUtils: fillIn -/

namespace StringUtils

/-- A character that the class `[^{}]` of the placeholder pattern accepts. -/
def isKeyChar (c : Char) : Bool := c != '{' && c != '}'

/-- A match of the pattern `/\{\{[^{}]+\}\}/` at the start of the string: the key between
the braces and the length of the whole placeholder. -/
def placeholderAt (s : List Char) : Option (List Char × Nat) :=
  if ['{', '{'].isPrefixOf s then
    let key := (s.drop 2).takeWhile isKeyChar
    let after := (s.drop 2).dropWhile isKeyChar
    if !key.isEmpty && ['}', '}'].isPrefixOf after then some (key, key.length + 4) else none
  else none

/-- The keys of the matches of `/\{\{[^{}]+\}\}/g` in the template, from left to right;
`skip` counts the characters of the current match that are still to be passed over. -/
def placeholderKeys : List Char → Nat → List (List Char)
  | [], _ => []
  | _ :: rest, skip + 1 => placeholderKeys rest skip
  | c :: rest, 0 =>
    match placeholderAt (c :: rest) with
    | some (key, length) => key :: placeholderKeys rest (length - 1)
    | none => placeholderKeys rest 0

/-- Modelled from the spec: `StringUtils.fillIn( template, values )` belongs to the library
PHETCOMMON, which is not among the sources; the spec describes it as template placeholder
substitution, `{{name}}` tokens replaced by computed fragments. As in the library, the
placeholders of the template are taken from left to right, and for each one whose key has
a value that is not `undefined`, its first occurrence in the string built so far is
replaced by the value. The values used below contain no `$`. -/
def fillIn (template : String) (values : List (String × Option String)) : String :=
  String.mk
    ((placeholderKeys template.data 0).foldl
      (fun newString key =>
        match values.lookup (String.mk key) with
        | some (some value) =>
          replaceFirst newString (['{', '{'] ++ key ++ ['}', '}']) value.data
        | _ => newString)
      template.data)

end StringUtils

/-! ## BASEConstants.js and the strings of the sweater -/

namespace BASEConstants

/-- Modelled from the spec: `BASEConstants.js` is not among the sources; the magnitude of
a balloon's charge is bounded by the sweater's maximum transferable charge, the 57 charge
pairs of the sweater. -/
def MAX_BALLOON_CHARGE : Int := 57

end BASEConstants

namespace BASEA11yStrings

def singleStatementPatternString : String := "{{statement}}."
def showingNoChargesString : String := "showing no charges"
def sweaterLocationString : String := "At left edge of Play Area."
def sweaterDescriptionPatternString : String := "{{location}} {{charge}}"
def sweaterChargePatternString : String := "{{netCharge}}, {{relativeCharge}}"
def sweaterNetChargePatternString : String := "Has {{netCharge}} net charge"
def sweaterRelativeChargeAllPatternString : String :=
  "{{charge}} more positive charges than negative charges"
def sweaterRelativeChargeDifferencesPatternString : String :=
  "showing {{charge}} positive charges"
def sweaterNoMoreChargesString : String :=
  "no more negative charges, only positive charges"
def showingAllPositiveChargesString : String := "showing all positive charges"

end BASEA11yStrings

/-! ## SweaterDescriber.js -/

namespace SweaterDescriber

/-- Modelled from the spec: `SweaterDescriber.js` reads the entry `sweaterPosition` of the
string table, which the table at hand (an earlier revision, where the position of an object
is still called its location) has as `sweaterLocationString`. -/
def sweaterPositionString : String := BASEA11yStrings.sweaterLocationString

/-- The pattern that `SweaterDescriber.js` reads as `sweaterDescriptionPattern`: the entry
`sweaterDescriptionPatternString` of the string table, '{{location}} {{charge}}'. The
placeholder of the table is named `location`; the describer fills the keys `position` and
`charge`. -/
def sweaterDescriptionPatternString : String :=
  BASEA11yStrings.sweaterDescriptionPatternString

/-- Method `SweaterDescriber.prototype.getSweaterDescription( showCharges )`, with the
sweater model it reads the charge from; `none` when the assertion of
`getRelativeChargeDescription` fails. -/
def getSweaterDescription (sweaterModel : SweaterModel) (showCharges : String) :
    Option String :=
  if showCharges = "none" then some sweaterPositionString
  else
    let sweaterCharge := sweaterModel.charge
    match BASEDescriber.getRelativeChargeDescription sweaterCharge with
    | none => none
    | some relativeChargeString =>
      let netChargeString :=
        StringUtils.fillIn BASEA11yStrings.sweaterNetChargePatternString
          [ ("netCharge",
              some (if sweaterCharge > 0 then BASEA11yStrings.positiveString
                else BASEA11yStrings.zeroString)) ]
      let chargeString :=
        if showCharges = "all" then
          if sweaterCharge = BASEConstants.MAX_BALLOON_CHARGE then
            BASEA11yStrings.sweaterNoMoreChargesString
          else
            StringUtils.fillIn BASEA11yStrings.sweaterRelativeChargeAllPatternString
              [ ("charge", some relativeChargeString) ]
        else
          if sweaterCharge = 0 then BASEA11yStrings.showingNoChargesString
          else if sweaterCharge = BASEConstants.MAX_BALLOON_CHARGE then
            BASEA11yStrings.showingAllPositiveChargesString
          else
            StringUtils.fillIn BASEA11yStrings.sweaterRelativeChargeDifferencesPatternString
              [ ("charge", some relativeChargeString) ]
      let chargeString :=
        StringUtils.fillIn BASEA11yStrings.sweaterChargePatternString
          [ ("netCharge", some netChargeString), ("relativeCharge", some chargeString) ]
      let description :=
        StringUtils.fillIn sweaterDescriptionPatternString
          [ ("position", some sweaterPositionString), ("charge", some chargeString) ]
      some (StringUtils.fillIn BASEA11yStrings.singleStatementPatternString
        [ ("statement", some description) ])

end SweaterDescriber

/-- A sweater as the tests of the describer set it up: the constructed sweater with its
charge property set to 30. -/
def exampleChargedSweater : SweaterModel := { exampleSweater with charge := 30 }

/-! ## WallDescriber.js -/

namespace Number

/-- The constant `Number.MAX_VALUE`, the largest finite double. -/
def MAX_VALUE : ℚ := (2 ^ 53 - 1) * 2 ^ 971

end Number

namespace BASEA11yStrings

def aLittleBitString : String := "a little bit"
def aLotString : String := "a lot"
def quiteALotString : String := "quite a lot"
def manyChargePairsString : String := "many pairs of negative and positive charges"
def inducedChargePatternString : String :=
  "Negative charges in {{wallLocation}} move away from {{balloon}} {{inductionAmount}}"
def greenBalloonLabelString : String := "Green Balloon"
def yellowBalloonLabelString : String := "Yellow Balloon"
def wallDescriptionPatternString : String := "{{location}}. {{charge}}."
def wallLocationString : String := "At right edge of Play Area"
def wallNoNetChargeString : String := "Has zero net charge"
def wallChargeWithoutInducedPatternString : String := "{{netCharge}}, {{shownCharges}}"
def wallChargeWithInducedPatternString : String :=
  "{{netCharge}}, {{shownCharges}}. {{inducedCharge}}"
def wallTwoBalloonInducedChargePatternString : String := "{{yellowBalloon}} {{greenBalloon}}"

end BASEA11yStrings

/-- The balloon as `WallDescriber.js` reads it: the flag `inducingCharge`, the value of
`isVisibleProperty` and the wall charge `closestChargeInWall`. -/
structure DescribedBalloon where
  inducingCharge : Bool
  isVisible : Bool
  closestChargeInWall : MovablePointChargeModel
deriving DecidableEq, Repr

/-- A `WallDescriber`: the wall model and the value of `showChargesProperty`. -/
structure WallDescriber where
  model : WallModel
  showCharges : String
deriving DecidableEq, Repr

/-- What a call of `getWallDescription` leaves behind: `logged` is the description that the
function assembles and passes to `console.log` (`none` when a call inside it failed before
that), `returned` is the value of the call. -/
structure WallDescription where
  logged : Option String
  returned : Option String
deriving DecidableEq, Repr

namespace WallDescriber

/-- Modelled from the spec: the entry `noChargesShownString` that `WallDescriber.js` reads
is missing from the string table at hand, which has the phrase for the case that charge
differences are shown as `showingNoChargesString`, 'showing no charges', the phrase the
spec and the tests expect. -/
def noChargesShownString : String := BASEA11yStrings.showingNoChargesString

/-- An entry of `INDUCED_CHARGE_DESCRIPTION_MAP`: a range and the description of it. -/
structure InducedChargeEntry where
  range : Range
  description : String
deriving DecidableEq, Repr

/-- The table `INDUCED_CHARGE_DESCRIPTION_MAP`, keys in source order. -/
def INDUCED_CHARGE_DESCRIPTION_MAP : List (String × InducedChargeEntry) :=
  [ ("A_LITTLE_BIT", { range := ⟨0, 10⟩, description := BASEA11yStrings.aLittleBitString }),
    ("A_LOT", { range := ⟨10, 20⟩, description := BASEA11yStrings.aLotString }),
    ("QUITE_A_LOT",
      { range := ⟨20, Number.MAX_VALUE⟩, description := BASEA11yStrings.quiteALotString }) ]

/-- Method `WallDescriber.prototype.getInducedChargeAmountDescription( balloon )`: the loop
has no `break`, the description of the last entry whose range contains the displacement of
the closest charge is kept; `none` is `undefined`. -/
def getInducedChargeAmountDescription (sqrt : ℚ → ℚ) (balloon : DescribedBalloon) :
    Option String :=
  INDUCED_CHARGE_DESCRIPTION_MAP.foldl
    (fun amountDescription entry =>
      if entry.2.range.contains (balloon.closestChargeInWall.getDisplacement sqrt) then
        some entry.2.description
      else amountDescription)
    none

/-- Method `WallDescriber.prototype.getInducedChargeDescription( balloon, balloonLabel )`;
the location is described by `getLocationDescription` of the general describer, which
`WallDescriber.js` requires under the name `BalloonsAndStaticElectricityDescriber` and which
is `BASEDescriber.js` among the sources; the call fails (`none`) when that description
fails. -/
def getInducedChargeDescription (describer : WallDescriber) (sqrt : ℚ → ℚ)
    (balloon : DescribedBalloon) (balloonLabel : String) : Option String :=
  let closestCharge := balloon.closestChargeInWall
  let location := closestCharge.locationProperty.value
  let isVisible := describer.model.isVisible
  match BASEDescriber.getLocationDescription location isVisible with
  | none => none
  | some chargeLocationString =>
    let inducedChargeAmount := getInducedChargeAmountDescription sqrt balloon
    some (StringUtils.fillIn BASEA11yStrings.inducedChargePatternString
      [ ("wallLocation", some chargeLocationString),
        ("balloon", some balloonLabel),
        ("inductionAmount", inducedChargeAmount) ])

/-- The truth value of a string or `undefined` in a JavaScript condition: a string that is
not empty. -/
def truthy (s : Option String) : Bool :=
  match s with
  | some t => t != ""
  | none => false

/-- Method `WallDescriber.prototype.getWallDescription( yellowBalloon, greenBalloon )`. The
function ends with `console.log( description )` and has no `return` statement, so the
value of the call is `undefined`. -/
def getWallDescription (describer : WallDescriber) (sqrt : ℚ → ℚ)
    (yellowBalloon greenBalloon : DescribedBalloon) : WallDescription :=
  let describing := describer.model.isVisible && decide (describer.showCharges = "all")
  let yellowCalled := describing && yellowBalloon.inducingCharge
  let greenCalled := describing && (greenBalloon.inducingCharge && greenBalloon.isVisible)
  let yellowBalloonInducedChargeString :=
    if yellowCalled then
      describer.getInducedChargeDescription sqrt yellowBalloon
        BASEA11yStrings.yellowBalloonLabelString
    else none
  let greenBalloonInducedChargeString :=
    if greenCalled then
      describer.getInducedChargeDescription sqrt greenBalloon
        BASEA11yStrings.greenBalloonLabelString
    else none
  if (yellowCalled && yellowBalloonInducedChargeString.isNone) ||
      (greenCalled && greenBalloonInducedChargeString.isNone) then
    { logged := none, returned := none }
  else
    let inducedChargeString :=
      if truthy yellowBalloonInducedChargeString && truthy greenBalloonInducedChargeString then
        some (StringUtils.fillIn BASEA11yStrings.wallTwoBalloonInducedChargePatternString
          [ ("yellowBalloon", yellowBalloonInducedChargeString),
            ("greenBalloon", greenBalloonInducedChargeString) ])
      else if truthy yellowBalloonInducedChargeString then yellowBalloonInducedChargeString
      else if truthy greenBalloonInducedChargeString then greenBalloonInducedChargeString
      else yellowBalloonInducedChargeString
    let shownChargesString :=
      if describer.showCharges = "diff" then noChargesShownString
      else BASEA11yStrings.manyChargePairsString
    let wallChargeString :=
      if truthy inducedChargeString then
        StringUtils.fillIn BASEA11yStrings.wallChargeWithInducedPatternString
          [ ("netCharge", some BASEA11yStrings.wallNoNetChargeString),
            ("shownCharges", some shownChargesString),
            ("inducedCharge", inducedChargeString) ]
      else
        StringUtils.fillIn BASEA11yStrings.wallChargeWithoutInducedPatternString
          [ ("netCharge", some BASEA11yStrings.wallNoNetChargeString),
            ("shownCharges", some shownChargesString) ]
    let description :=
      StringUtils.fillIn BASEA11yStrings.wallDescriptionPatternString
        [ ("location", some BASEA11yStrings.wallLocationString),
          ("charge", some wallChargeString) ]
    { logged := some description, returned := none }

end WallDescriber

/-- A balloon that induces charge in the wall: visible, and its closest charge in the wall
is pushed from `(717, 104)` to `(720, 100)`, a displacement of 5. -/
def exampleInducingBalloon : DescribedBalloon :=
  { inducingCharge := true, isVisible := true,
    closestChargeInWall :=
      { defaultLocation := ⟨717, 104⟩, moved := false,
        locationProperty := { value := ⟨720, 100⟩, initialValue := ⟨717, 104⟩ } } }

/-- A visible wall: `exampleWall` with `isVisibleProperty` set to `true`. -/
def exampleVisibleWall : WallModel := { exampleWall with isVisible := true }

/-! ## PlayAreaMap.js: the functions of the map -/

namespace PlayAreaMap

/-- Function `PlayAreaMap.getPlayAreaColumn( location, wallVisible )`: the last key of
`COLUMN_RANGES` whose range contains `location.x`, relabelled `WALL` when the wall is
visible and the key is `RIGHT_EDGE`; `none` is `undefined`. -/
def getPlayAreaColumn (location : Vector2) (wallVisible : Bool) : Option String :=
  let column := lastKeyContaining COLUMN_RANGES location.x
  if wallVisible && decide (column = some "RIGHT_EDGE") then some "WALL" else column

/-- Function `PlayAreaMap.getPlayAreaLandmark( location, wallVisible )`: the last key of
`LANDMARK_RANGES` whose range contains `location.x`, with the same relabelling statement
as `getPlayAreaColumn`; `none` is `null`. -/
def getPlayAreaLandmark (location : Vector2) (wallVisible : Bool) : Option String :=
  let landmark := lastKeyContaining LANDMARK_RANGES location.x
  if wallVisible && decide (landmark = some "RIGHT_EDGE") then some "WALL" else landmark

/-- Function `PlayAreaMap.getPlayAreaRow( location )`: the last key of `ROW_RANGES` whose
range contains `location.y`; `none` is `undefined`. -/
def getPlayAreaRow (location : Vector2) : Option String :=
  lastKeyContaining ROW_RANGES location.y

/-- Function `PlayAreaMap.inLandmarkColumn( location )`: the loop sets the flag and breaks
at the first landmark range that contains `location.x`. -/
def inLandmarkColumn (location : Vector2) : Bool :=
  LANDMARK_RANGES.any (fun entry => entry.2.contains location.x)

end PlayAreaMap

/-! ## WallModel.js: the grid of charges and the induced charge -/

namespace Utils

/-- Function `Utils.roundSymmetric( value )` of DOT:
`( ( value < 0 ) ? -1 : 1 ) * Math.round( Math.abs( value ) )`, where `Math.round` gives
the nearest integer and rounds a half upwards. -/
def roundSymmetric (value : ℚ) : ℚ :=
  (if value < 0 then -1 else 1) * ((⌊|value| + 1 / 2⌋ : ℤ) : ℚ)

end Utils

/-- Modelled from the spec: the charge radius `PointChargeModel.RADIUS` that `WallModel.js`
reads; the revision of `PointChargeModel.js` at hand declares it under the name
`PointChargeModel.radius`, with the value 8. -/
def PointChargeModel.RADIUS : ℚ := 8

/-- Modelled from the spec: the charge `PointChargeModel.CHARGE` of a point charge that
`WallModel.js` reads; the revision of `PointChargeModel.js` at hand declares it under the
name `PointChargeModel.charge`, with the value -1.754. -/
def PointChargeModel.CHARGE : ℚ := -1.754

/-- Modelled from the spec: the constructor `MovablePointChargeModel( x, y, tandem,
phetioState )`. The constructor of `PointChargeModel` runs first (default location
`(x, y)`, `moved` cleared), then the property is created from `this.location`; the
revision of `PointChargeModel.js` at hand has no field of that name, and it is read as the
location `(x, y)` that the constructor of `PointChargeModel` has just set. -/
def MovablePointChargeModel.new (x y : ℚ) : MovablePointChargeModel :=
  let base := PointChargeModel.new x y
  { defaultLocation := base.defaultLocation, moved := base.moved,
    locationProperty := { value := base.location, initialValue := base.location } }

/-- Method `Vector2.minusXY` of DOT. -/
def Vector2.minusXY (v : Vector2) (x y : ℚ) : Vector2 := ⟨v.x - x, v.y - y⟩

/-- The balloon as `WallModel.js` reads it: the values of `isVisibleProperty` and
`chargeProperty`, and the vector that `getChargeCenter()` returns. -/
structure WallBalloon where
  isVisible : Bool
  charge : Int
  chargeCenter : Vector2
deriving DecidableEq, Repr

/-- Method `WallModel.prototype.calculatePosition( i, k )`: the array
`[ i * dx + RADIUS + 1, k * dy + y0 ]` with `y0 = dy / 2` in the even columns and `1` in
the odd ones. -/
def WallModel.calculatePosition (w : WallModel) (i k : Nat) : ℚ × ℚ :=
  let y0 : ℚ := if i % 2 = 0 then w.dy / 2 else 1
  (i * w.dx + PointChargeModel.RADIUS + 1, k * w.dy + y0)

/-- The constructor `WallModel( x, width, height, yellowBalloon, greenBalloon, tandem )`:
the fields, then for every column `i < numX` and every row `k < numY`, in this order, a
plus charge at `( x + position[ 0 ], position[ 1 ] )` and a minus charge at
`( x + position[ 0 ] - RADIUS, position[ 1 ] - RADIUS )`. -/
def WallModel.new (x width height : ℚ) : WallModel :=
  let numX : Nat := 3
  let numY : Nat := 18
  let wall : WallModel :=
    { isVisible := true, y := 0, x := x, numX := numX, numY := numY, width := width,
      height := height, dx := Utils.roundSymmetric (width / numX + 2), dy := height / numY,
      plusCharges := [], minusCharges := [] }
  { wall with
    plusCharges := (List.range numX).flatMap fun i => (List.range numY).map fun k =>
      let position := wall.calculatePosition i k
      PointChargeModel.new (x + position.1) position.2,
    minusCharges := (List.range numX).flatMap fun i => (List.range numY).map fun k =>
      let position := wall.calculatePosition i k
      MovablePointChargeModel.new (x + position.1 - PointChargeModel.RADIUS)
        (position.2 - PointChargeModel.RADIUS) }

/-- The listener `updateChargePositions` of the constructor of `WallModel`. The function
`BalloonModel.getForce` is a parameter. Every minus charge is set to its initial position
plus the forces of the two balloons, and the force of a hidden balloon is the initial
`new Vector2( 0, 0 )`. -/
def WallModel.updateChargePositions (getForce : Vector2 → Vector2 → ℚ → ℚ → Vector2)
    (yellowBalloon greenBalloon : WallBalloon) (w : WallModel) : WallModel :=
  let k : ℚ := 10000
  { w with
    minusCharges := w.minusCharges.map fun entry =>
      let defaultPosition := entry.locationProperty.initialValue
      let dv1 : Vector2 :=
        if yellowBalloon.isVisible then
          getForce defaultPosition
            (yellowBalloon.chargeCenter.minusXY 0 (2 * PointChargeModel.RADIUS))
            (k * PointChargeModel.CHARGE * yellowBalloon.charge) 2.35
        else ⟨0, 0⟩
      let dv2 : Vector2 :=
        if greenBalloon.isVisible then
          getForce defaultPosition
            (greenBalloon.chargeCenter.minusXY 0 (2 * PointChargeModel.RADIUS))
            (k * PointChargeModel.CHARGE * greenBalloon.charge) 2.35
        else ⟨0, 0⟩
      { entry with
        locationProperty := entry.locationProperty.set
          ⟨defaultPosition.x + dv1.x + dv2.x, defaultPosition.y + dv1.y + dv2.y⟩ } }

/-- The variables `closestCharge` and `chargeDistance` of `getClosestChargeToBalloon`;
`chargeDistance = none` is `Number.POSITIVE_INFINITY` and `closestCharge = none` is
`null`. -/
structure ClosestChargeScan where
  closestCharge : Option MovablePointChargeModel
  chargeDistance : Option ℚ
deriving DecidableEq, Repr

/-- One pass of the loop body of `getClosestChargeToBalloon`: the charge replaces the
closest one so far when `newChargeDistance < chargeDistance`. -/
def ClosestChargeScan.step (sqrt : ℚ → ℚ) (balloonChargeCenter : Vector2)
    (scan : ClosestChargeScan) (charge : MovablePointChargeModel) : ClosestChargeScan :=
  let newChargeDistance :=
    charge.locationProperty.initialValue.distance sqrt balloonChargeCenter
  let closer : Bool :=
    match scan.chargeDistance with
    | none => true
    | some chargeDistance => decide (newChargeDistance < chargeDistance)
  if closer then { closestCharge := some charge, chargeDistance := some newChargeDistance }
  else scan

/-- Method `WallModel.prototype.getClosestChargeToBalloon( balloon )`: the loop over the
minus charges in storage order; `none` is the `null` of a wall without minus charges. -/
def WallModel.getClosestChargeToBalloon (sqrt : ℚ → ℚ) (w : WallModel)
    (balloon : WallBalloon) : Option MovablePointChargeModel :=
  let balloonChargeCenter := balloon.chargeCenter
  (w.minusCharges.foldl (ClosestChargeScan.step sqrt balloonChargeCenter)
    { closestCharge := none, chargeDistance := none }).closestCharge

/-- A visible balloon with charge -10 whose charge center is at `(680, 20)`. -/
def exampleYellowBalloon : WallBalloon :=
  { isVisible := true, charge := -10, chargeCenter := ⟨680, 20⟩ }

/-- A hidden balloon with charge -4 whose charge center is at `(440, 300)`. -/
def exampleGreenBalloon : WallBalloon :=
  { isVisible := false, charge := -4, chargeCenter := ⟨440, 300⟩ }

/-- A force for running the model: the vector from the balloon to the charge, scaled by
the coefficient over a thousand times the power. -/
def exampleForce (p1 p2 : Vector2) (kqq power : ℚ) : Vector2 :=
  ⟨(p1.x - p2.x) * kqq / (1000 * power), (p1.y - p2.y) * kqq / (1000 * power)⟩

/-- A balloon whose closest charge in the wall is pushed from `(717, 104)` to `(723, 96)`:
a displacement of exactly 10, the edge shared by the first two bands of
`INDUCED_CHARGE_DESCRIPTION_MAP`. -/
def exampleBalloonAtBandEdge : DescribedBalloon :=
  { inducingCharge := true, isVisible := true,
    closestChargeInWall :=
      { defaultLocation := ⟨717, 104⟩, moved := false,
        locationProperty := { value := ⟨723, 96⟩, initialValue := ⟨717, 104⟩ } } }

/-! ## BASEA11yStrings.js: the iterations of the loops of stripPlaceholders -/

/-- The number of iterations that the loop `while ( s.indexOf( pattern ) >= 0 ) { s =
_.replace( s, pattern, replacement ); }` runs, counted along `replaceWhilePresent`; `none`
when the pattern is still there after `fuel` iterations. -/
def replaceIterations (pattern replacement : List Char) : Nat → List Char → Option Nat
  | 0, s => if (indexOf s pattern).isSome then none else some 0
  | fuel + 1, s =>
    if (indexOf s pattern).isSome then
      (replaceIterations pattern replacement fuel (replaceFirst s pattern replacement)).map
        (· + 1)
    else some 0

/-! ## Lemmas on the loop of `findIntersection` -/

theorem eligible_iff (balloon : BalloonModel) (c : PointChargeModel) :
    eligible (activeArea balloon) c = true ↔ InRange balloon c := by
  simp [eligible, activeArea, InRange, and_assoc]

theorem eligible_eq_decide (balloon : BalloonModel) :
    eligible (activeArea balloon) = fun c => decide (InRange balloon c) := by
  funext c
  by_cases h : InRange balloon c
  · simp [h, (eligible_iff balloon c).2 h]
  · have : eligible (activeArea balloon) c = false := by
      cases hh : eligible (activeArea balloon) c
      · rfl
      · exact absurd ((eligible_iff balloon c).1 hh) h
    simp [h, this]

theorem eligible_of_moved {a : ActiveArea} {c : PointChargeModel} (h : c.moved = true) :
    eligible a c = false := by
  simp [eligible, h]

theorem eligible_not_moved {a : ActiveArea} {c : PointChargeModel}
    (h : eligible a c = true) : c.moved = false := by
  simp [eligible] at h
  exact h.1.1

theorem forEach_length (a : ActiveArea) (l : List PointChargeModel) (st : ScanState) :
    (forEachMinusCharge a l st).1.length = l.length := by
  induction l generalizing st with
  | nil => rfl
  | cons c l ih =>
    unfold forEachMinusCharge
    by_cases h : eligible a c = true
    · simp only [h, if_true]
      split <;> simp [ih]
    · simp [h, ih]

theorem moveChargeTo_sum (c : PointChargeModel) (st : ScanState) :
    (SweaterModel.moveChargeTo c st).2.sweaterCharge
        + (SweaterModel.moveChargeTo c st).2.balloonCharge
      = st.sweaterCharge + st.balloonCharge := by
  unfold SweaterModel.moveChargeTo
  cases c.view with
  | none => rfl
  | some v =>
    simp only
    ring

theorem forEach_sum (a : ActiveArea) (l : List PointChargeModel) (st : ScanState) :
    (forEachMinusCharge a l st).2.sweaterCharge + (forEachMinusCharge a l st).2.balloonCharge
      = st.sweaterCharge + st.balloonCharge := by
  induction l generalizing st with
  | nil => rfl
  | cons c l ih =>
    unfold forEachMinusCharge
    by_cases h : eligible a c = true
    · simp only [h, if_true]
      split
      · exact moveChargeTo_sum c st
      · simp only [ih]
        exact moveChargeTo_sum c st
    · simp [h, ih]

theorem moveChargeTo_of_view {c : PointChargeModel} (st : ScanState) (hc : c.view ≠ none) :
    SweaterModel.moveChargeTo c st =
      ({ c with moved := true, view := c.view.map (fun v => { v with visible := false }) },
        { st with balloonCharge := st.balloonCharge - 1,
                  sweaterCharge := st.sweaterCharge + 1 }) := by
  unfold SweaterModel.moveChargeTo
  cases hview : c.view with
  | none => exact absurd hview hc
  | some v => rfl

theorem forEach_of_views (a : ActiveArea) (l : List PointChargeModel) (st : ScanState)
    (hst : st.threw = false) (hv : ∀ c ∈ l, c.view ≠ none) :
    forEachMinusCharge a l st =
      (l.map (transferred a),
        { sweaterCharge := st.sweaterCharge + (l.countP (eligible a) : Nat),
          balloonCharge := st.balloonCharge - (l.countP (eligible a) : Nat),
          chargeMoved := st.chargeMoved || l.any (eligible a),
          threw := false }) := by
  induction l generalizing st with
  | nil =>
    cases st
    simp only at hst
    simp [forEachMinusCharge, hst]
  | cons c l ih =>
    have hc : c.view ≠ none := hv c (List.mem_cons_self _ _)
    have hl : ∀ d ∈ l, d.view ≠ none := fun d hd => hv d (List.mem_cons_of_mem _ hd)
    unfold forEachMinusCharge
    by_cases h : eligible a c = true
    · simp only [h, if_true, moveChargeTo_of_view st hc, hst, Bool.false_eq_true, if_false]
      rw [ih _ rfl hl]
      simp [transferred, h, List.countP_cons]
      constructor <;> ring
    · have h' : eligible a c = false := by simpa using h
      simp [h', ih _ hst hl, transferred, List.countP_cons]

theorem findIntersection_of_views (s : SweaterModel) (b : BalloonModel)
    (hv : ∀ c ∈ s.minusCharges, c.view ≠ none) :
    s.findIntersection b =
      { sweater := { s with
          minusCharges := s.minusCharges.map (transferred (activeArea b)),
          charge := s.charge + (s.minusCharges.countP (eligible (activeArea b)) : Nat) },
        balloon := { b with
          charge := b.charge - (s.minusCharges.countP (eligible (activeArea b)) : Nat) },
        result := some (s.minusCharges.any (eligible (activeArea b))) } := by
  have h := forEach_of_views (activeArea b) s.minusCharges
    { sweaterCharge := s.charge, balloonCharge := b.charge, chargeMoved := false,
      threw := false } rfl hv
  simp [SweaterModel.findIntersection, h]

theorem transferred_of_not_eligible {a : ActiveArea} {c : PointChargeModel}
    (h : eligible a c = false) : transferred a c = c := by
  simp [transferred, h]

theorem transferred_moved (a : ActiveArea) (c : PointChargeModel) :
    (transferred a c).moved = (c.moved || eligible a c) := by
  by_cases h : eligible a c = true
  · simp [transferred, h]
  · have h' : eligible a c = false := by simpa using h
    simp [transferred, h']

theorem transferred_view_ne_none {a : ActiveArea} {c : PointChargeModel}
    (h : c.view ≠ none) : (transferred a c).view ≠ none := by
  unfold transferred
  split
  · cases hv : c.view with
    | none => exact absurd hv h
    | some v => simp [hv]
  · exact h

theorem movedCount_map_transferred (a : ActiveArea) (l : List PointChargeModel) :
    movedCount (l.map (transferred a)) = movedCount l + l.countP (eligible a) := by
  induction l with
  | nil => rfl
  | cons c l ih =>
    unfold movedCount at ih ⊢
    by_cases h : eligible a c = true
    · have hm := eligible_not_moved h
      simp [List.countP_cons, ih, transferred_moved, h, hm]
      omega
    · have h' : eligible a c = false := by simpa using h
      simp [List.countP_cons, ih, transferred_moved, h']
      omega

theorem newlyMoved_map_transferred (a : ActiveArea) (l : List PointChargeModel) :
    newlyMoved l (l.map (transferred a)) = l.countP (eligible a) := by
  induction l with
  | nil => rfl
  | cons c l ih =>
    unfold newlyMoved at ih ⊢
    by_cases h : eligible a c = true
    · have hm := eligible_not_moved h
      simp [List.countP_cons, ih, transferred_moved, h, hm]
    · have h' : eligible a c = false := by simpa using h
      simp [List.countP_cons, ih, transferred_moved, h']

theorem movedCount_le_length (l : List PointChargeModel) : movedCount l ≤ l.length :=
  List.countP_le_length _

theorem map_transferred_eq_self {a : ActiveArea} {l : List PointChargeModel}
    (h : l.any (eligible a) = false) : l.map (transferred a) = l := by
  induction l with
  | nil => rfl
  | cons c l ih =>
    simp only [List.any_cons, Bool.or_eq_false_iff] at h
    simp [transferred_of_not_eligible h.1, ih h.2]

theorem countP_eq_zero_of_any_false {a : ActiveArea} {l : List PointChargeModel}
    (h : l.any (eligible a) = false) : l.countP (eligible a) = 0 := by
  induction l with
  | nil => rfl
  | cons c l ih =>
    simp only [List.any_cons, Bool.or_eq_false_iff] at h
    simp [List.countP_cons, h.1, ih h.2]

theorem movedCount_eq_zero {l : List PointChargeModel} (h : ∀ c ∈ l, c.moved = false) :
    movedCount l = 0 := by
  unfold movedCount
  rw [List.countP_eq_zero]
  intro c hc
  simp [h c hc]

/-! ## The invariant of the sweater -/

theorem attachViews_views (s : SweaterModel) :
    ∀ c ∈ s.attachViews.minusCharges, c.view ≠ none := by
  intro c hc
  simp only [SweaterModel.attachViews, List.mem_map] at hc
  obtain ⟨d, _, rfl⟩ := hc
  simp

theorem inv_init (x y : ℚ) : SweaterInv (SweaterModel.new x y).attachViews := by
  refine ⟨?_, attachViews_views _, ?_⟩
  · simp [SweaterModel.attachViews, SweaterModel.new, SweaterModel.reset,
      SweaterModel.positions]
  · rw [movedCount_eq_zero]
    · simp [SweaterModel.attachViews, SweaterModel.new, SweaterModel.reset]
    · intro c hc
      simp only [SweaterModel.attachViews, SweaterModel.new, SweaterModel.reset,
        List.mem_map] at hc
      obtain ⟨d, ⟨e, ⟨p, _, rfl⟩, rfl⟩, rfl⟩ := hc
      simp [PointChargeModel.new, PointChargeModel.reset]

theorem inv_findIntersection {s : SweaterModel} (h : SweaterInv s) (b : BalloonModel) :
    SweaterInv (s.findIntersection b).sweater := by
  rw [findIntersection_of_views s b h.views]
  refine ⟨?_, ?_, ?_⟩
  · simpa using h.length_eq
  · intro c hc
    simp only [List.mem_map] at hc
    obtain ⟨d, hd, rfl⟩ := hc
    exact transferred_view_ne_none (h.views d hd)
  · simp only [movedCount_map_transferred, h.charge_eq]
    push_cast
    ring

theorem reset_map_of_views {l : List PointChargeModel} (hv : ∀ c ∈ l, c.view ≠ none) :
    l.map (fun entry => if entry.view.isSome then { entry with moved := false } else entry)
      = l.map (fun entry => { entry with moved := false }) := by
  apply List.map_congr_left
  intro c hc
  have := hv c hc
  cases hview : c.view with
  | none => exact absurd hview this
  | some v => simp

theorem inv_reset {s : SweaterModel} (h : SweaterInv s) : SweaterInv s.reset := by
  refine ⟨?_, ?_, ?_⟩
  · simpa [SweaterModel.reset] using h.length_eq
  · intro c hc
    simp only [SweaterModel.reset, reset_map_of_views h.views, List.mem_map] at hc
    obtain ⟨d, hd, rfl⟩ := hc
    exact h.views d hd
  · rw [movedCount_eq_zero]
    · simp [SweaterModel.reset]
    · intro c hc
      simp only [SweaterModel.reset, reset_map_of_views h.views, List.mem_map] at hc
      obtain ⟨d, _, rfl⟩ := hc
      rfl

theorem inv_run {s : SweaterModel} (h : SweaterInv s) (ops : List SweaterOp) :
    SweaterInv (s.run ops) := by
  induction ops generalizing s with
  | nil => exact h
  | cons op ops ih =>
    simp only [SweaterModel.run, List.foldl_cons]
    apply ih
    cases op with
    | contact b => exact inv_findIntersection h b
    | reset => exact inv_reset h

theorem findIntersection_of_views_inRange (s : SweaterModel) (b : BalloonModel)
    (hv : ∀ c ∈ s.minusCharges, c.view ≠ none) :
    (s.findIntersection b).sweater.charge = s.charge + (inRangeCount b s.minusCharges : Nat) ∧
    (s.findIntersection b).balloon.charge = b.charge - (inRangeCount b s.minusCharges : Nat) ∧
    (s.findIntersection b).result
      = some (s.minusCharges.any (fun c => decide (InRange b c))) := by
  rw [findIntersection_of_views s b hv, eligible_eq_decide]
  simp [inRangeCount]

theorem exampleSweater_views : ∀ c ∈ exampleSweater.minusCharges, c.view ≠ none :=
  attachViews_views _

theorem exampleSweater_inRangeCount :
    inRangeCount exampleBalloon exampleSweater.minusCharges = 2 := by
  norm_num [inRangeCount, InRange, exampleSweater, exampleBalloon, SweaterModel.new,
    SweaterModel.attachViews, SweaterModel.reset, SweaterModel.positions,
    PointChargeModel.new, PointChargeModel.reset, List.countP_cons]

theorem exampleSweater_charge : exampleSweater.charge = 0 := rfl

/-! ## The sweater without views -/

theorem new_minusCharges_bare (x y : ℚ) :
    ∀ c ∈ (SweaterModel.new x y).minusCharges, c.moved = false ∧ c.view = none := by
  intro c hc
  simp only [SweaterModel.new, SweaterModel.reset, List.mem_map] at hc
  obtain ⟨d, ⟨p, _, rfl⟩, rfl⟩ := hc
  simp [PointChargeModel.new, PointChargeModel.reset]

theorem exampleBareSweater_minusCharges :
    exampleBareSweater.minusCharges
      = exampleFirstCharge :: exampleBareSweater.minusCharges.tail := by
  simp [exampleBareSweater, exampleFirstCharge, SweaterModel.new, SweaterModel.reset,
    SweaterModel.positions, PointChargeModel.new, PointChargeModel.reset]

theorem exampleFirstCharge_eligible :
    eligible (activeArea exampleBalloon) exampleFirstCharge = true := by
  norm_num [eligible, activeArea, exampleBalloon, exampleFirstCharge]

/-- An eligible charge without view at the head of the list: `moveChargeTo` marks it moved
and throws, the loop ends there, and the call has no value. -/
theorem findIntersection_throws_at_head (s : SweaterModel) (b : BalloonModel)
    (c : PointChargeModel) (rest : List PointChargeModel) (hs : s.minusCharges = c :: rest)
    (he : eligible (activeArea b) c = true) (hv : c.view = none) :
    s.findIntersection b
      = { sweater := { s with minusCharges := { c with moved := true } :: rest },
          balloon := b, result := none } := by
  simp [SweaterModel.findIntersection, hs, forEachMinusCharge, he, SweaterModel.moveChargeTo,
    hv]

theorem exampleBareSweater_contact :
    exampleBareSweater.findIntersection exampleBalloon
      = { sweater := { exampleBareSweater with
            minusCharges := { exampleFirstCharge with moved := true }
              :: exampleBareSweater.minusCharges.tail },
          balloon := exampleBalloon, result := none } :=
  findIntersection_throws_at_head _ _ _ _ exampleBareSweater_minusCharges
    exampleFirstCharge_eligible rfl

theorem exampleBareSweater_tail_moved :
    ∀ c ∈ exampleBareSweater.minusCharges.tail, c.moved = false ∧ c.view = none :=
  fun c hc => new_minusCharges_bare 0 0 c (List.mem_of_mem_tail hc)

theorem newlyMoved_self (l : List PointChargeModel) : newlyMoved l l = 0 := by
  induction l with
  | nil => rfl
  | cons c l ih =>
    unfold newlyMoved at ih ⊢
    simp [List.countP_cons, ih]

theorem newlyMoved_cons (c d : PointChargeModel) (l m : List PointChargeModel) :
    newlyMoved (c :: l) (d :: m)
      = newlyMoved l m + (if (!c.moved && d.moved) = true then 1 else 0) := by
  unfold newlyMoved
  rw [List.zip_cons_cons, List.countP_cons]

/-- The loop of `findIntersection` in every state: the number of charges whose `moved` flag
goes from false to true is the rise of the sweater charge, and one more when the loop
ends with an exception. -/
theorem forEach_newlyMoved (a : ActiveArea) (l : List PointChargeModel) (st : ScanState)
    (hst : st.threw = false) :
    (newlyMoved l (forEachMinusCharge a l st).1 : ℤ)
      = (forEachMinusCharge a l st).2.sweaterCharge - st.sweaterCharge
        + (if (forEachMinusCharge a l st).2.threw = true then 1 else 0) := by
  induction l generalizing st with
  | nil => simp [forEachMinusCharge, newlyMoved, hst]
  | cons c l ih =>
    unfold forEachMinusCharge
    by_cases h : eligible a c = true
    · have hm := eligible_not_moved h
      cases hv : c.view with
      | none =>
        simp [h, SweaterModel.moveChargeTo, hv, newlyMoved_cons, newlyMoved_self, hm]
      | some v =>
        have key := ih
          { sweaterCharge := st.sweaterCharge + 1, balloonCharge := st.balloonCharge - 1,
            chargeMoved := true, threw := st.threw } hst
        simp only [h, if_true, SweaterModel.moveChargeTo, hv, hst, Bool.false_eq_true,
          if_false, newlyMoved_cons, hm, Bool.not_false, Bool.true_and]
        simp only [hst] at key
        push_cast
        rw [key]
        ring
    · have h' : eligible a c = false := by simpa using h
      have key := ih st hst
      simp only [h', Bool.false_eq_true, if_false, newlyMoved_cons]
      push_cast
      rw [key]
      simp

/-! ## The claims on the sweater without views -/

/-- C2, as stated, fails: on the sweater as the constructor leaves it (no minus charge has
a view) and the balloon at `(80, 100)` of height 50, the unmoved charge at `(104, 114)`
lies strictly inside the rectangle, yet the call does not return true: `moveChargeTo`
throws at `charge.view.visible` and the call has no value. -/
theorem findIntersection_without_views_does_not_return_true :
    exampleFirstCharge ∈ exampleBareSweater.minusCharges ∧
    InRange exampleBalloon exampleFirstCharge ∧
    (exampleBareSweater.findIntersection exampleBalloon).result = none ∧
    (exampleBareSweater.findIntersection exampleBalloon).result ≠ some true := by
  refine ⟨?_, (eligible_iff _ _).1 exampleFirstCharge_eligible, ?_, ?_⟩
  · rw [exampleBareSweater_minusCharges]
    exact List.mem_cons_self _ _
  · rw [exampleBareSweater_contact]
  · rw [exampleBareSweater_contact]
    simp

/-- C3, as stated, fails: on the freshly constructed sweater (no minus charge has a view)
one contact test with the balloon at `(80, 100)` of height 50 leaves the sweater charge at
0 while one minus charge has its `moved` flag set, so the charge is not the number of moved
charges. -/
theorem fresh_sweater_charge_is_not_moved_count :
    (exampleBareSweater.run [SweaterOp.contact exampleBalloon]).charge = 0 ∧
    movedCount (exampleBareSweater.run [SweaterOp.contact exampleBalloon]).minusCharges = 1 ∧
    (exampleBareSweater.run [SweaterOp.contact exampleBalloon]).charge
      ≠ (movedCount (exampleBareSweater.run [SweaterOp.contact exampleBalloon]).minusCharges
          : Nat) := by
  have hrun : exampleBareSweater.run [SweaterOp.contact exampleBalloon]
      = (exampleBareSweater.findIntersection exampleBalloon).sweater := rfl
  have htail : movedCount exampleBareSweater.minusCharges.tail = 0 :=
    movedCount_eq_zero (fun c hc => (exampleBareSweater_tail_moved c hc).1)
  have hcount : movedCount
      (exampleBareSweater.run [SweaterOp.contact exampleBalloon]).minusCharges = 1 := by
    rw [hrun, exampleBareSweater_contact]
    unfold movedCount at htail ⊢
    simp only [List.countP_cons, htail]
    rfl
  have hcharge : (exampleBareSweater.run [SweaterOp.contact exampleBalloon]).charge = 0 := by
    rw [hrun, exampleBareSweater_contact]
    rfl
  refine ⟨hcharge, hcount, ?_⟩
  rw [hcharge, hcount]
  decide

/-- C4, as stated, fails: on the sweater as the constructor leaves it, the contact test
with the balloon at `(80, 100)` of height 50 sets the `moved` flag of one minus charge and
leaves the sweater charge where it was: the increase is 0, the number of newly moved
charges is 1. -/
theorem contact_without_views_marks_without_transfer :
    (exampleBareSweater.findIntersection exampleBalloon).sweater.charge
        - exampleBareSweater.charge = 0 ∧
    newlyMoved exampleBareSweater.minusCharges
        (exampleBareSweater.findIntersection exampleBalloon).sweater.minusCharges = 1 := by
  refine ⟨?_, ?_⟩
  · rw [exampleBareSweater_contact]
    simp
  · have h := exampleBareSweater_minusCharges
    rw [exampleBareSweater_contact]
    simp only
    generalize exampleBareSweater.minusCharges.tail = rest at h ⊢
    rw [h, newlyMoved_cons, newlyMoved_self]
    rfl

/-- C5, as stated, fails: after one contact test on the sweater as the constructor leaves
it, `reset` sets the charge to 0 but the minus charge at `(104, 114)`, which has no view,
keeps its `moved` flag: not every minus charge has `moved = false`. -/
theorem reset_without_views_keeps_moved_flag :
    ((exampleBareSweater.run [SweaterOp.contact exampleBalloon]).reset).charge = 0 ∧
    ((exampleBareSweater.run [SweaterOp.contact exampleBalloon]).reset).minusCharges.head?
      = some { exampleFirstCharge with moved := true } ∧
    ¬ ∀ c ∈ ((exampleBareSweater.run [SweaterOp.contact exampleBalloon]).reset).minusCharges,
        c.moved = false := by
  have hrun : exampleBareSweater.run [SweaterOp.contact exampleBalloon]
      = (exampleBareSweater.findIntersection exampleBalloon).sweater := rfl
  have hhead :
      ((exampleBareSweater.run [SweaterOp.contact exampleBalloon]).reset).minusCharges.head?
        = some { exampleFirstCharge with moved := true } := by
    rw [hrun, exampleBareSweater_contact]
    simp [SweaterModel.reset, exampleFirstCharge]
  refine ⟨rfl, hhead, ?_⟩
  intro hall
  have hmem := List.mem_of_mem_head? hhead
  have := hall _ hmem
  simp at this

/-! ## The contact test of the sweater -/

/-- C1, as stated, fails: on the sweater built by the constructor, one call of
`findIntersection` with a balloon whose rectangle holds two unmoved charges raises the
sweater charge from 0 to 2 and lowers the balloon charge from 0 to -2, so the change is
not bounded by 1. -/
theorem findIntersection_moves_two_charges :
    (exampleSweater.findIntersection exampleBalloon).sweater.charge = 2 ∧
    (exampleSweater.findIntersection exampleBalloon).balloon.charge = -2 ∧
    ¬ ((exampleSweater.findIntersection exampleBalloon).sweater.charge
        ≤ exampleSweater.charge + 1) ∧
    ¬ (exampleBalloon.charge - 1
        ≤ (exampleSweater.findIntersection exampleBalloon).balloon.charge) := by
  have h := findIntersection_of_views_inRange exampleSweater exampleBalloon
    exampleSweater_views
  rw [exampleSweater_inRangeCount, exampleSweater_charge] at h
  rw [h.1, h.2.1, exampleSweater_charge]
  simp [exampleBalloon]

/-- C1 (amended): when every minus charge has its view, one call of `findIntersection`
returns and transfers every charge in range: with `N` the number of not-yet-moved minus
charges strictly inside the rectangle, the sweater charge rises by exactly `N`, the balloon
charge falls by exactly `N`, the `moved` flag of each charge becomes `moved or in range`
(in storage order, positions unchanged), and so the change is at most 1 whenever at most
one charge is in range. -/
theorem findIntersection_transfers_every_charge_in_range (s : SweaterModel)
    (b : BalloonModel) (hview : ∀ c ∈ s.minusCharges, c.view ≠ none) :
    (s.findIntersection b).result ≠ none ∧
    (s.findIntersection b).sweater.charge = s.charge + (inRangeCount b s.minusCharges : Nat) ∧
    (s.findIntersection b).balloon.charge = b.charge - (inRangeCount b s.minusCharges : Nat) ∧
    (s.findIntersection b).sweater.minusCharges.map (fun c => c.moved)
      = s.minusCharges.map (fun c => c.moved || decide (InRange b c)) ∧
    (s.findIntersection b).sweater.minusCharges.map (fun c => c.location)
      = s.minusCharges.map (fun c => c.location) ∧
    (inRangeCount b s.minusCharges ≤ 1 →
      (s.findIntersection b).sweater.charge ≤ s.charge + 1 ∧
      b.charge - 1 ≤ (s.findIntersection b).balloon.charge) := by
  obtain ⟨h1, h2, h3⟩ := findIntersection_of_views_inRange s b hview
  refine ⟨by simp [h3], h1, h2, ?_, ?_, ?_⟩
  · rw [findIntersection_of_views s b hview]
    simp only [List.map_map]
    apply List.map_congr_left
    intro c _
    simp [transferred_moved, eligible_eq_decide]
  · rw [findIntersection_of_views s b hview]
    simp only [List.map_map]
    apply List.map_congr_left
    intro c _
    simp only [Function.comp, transferred]
    split <;> rfl
  · intro hN
    rw [h1, h2]
    constructor <;> omega

/-- Witness of C1 (amended) on the constructed sweater: the call returns and the charge
rises by the two charges in range. -/
theorem findIntersection_transfers_every_charge_in_range_witness :
    (∀ c ∈ exampleSweater.minusCharges, c.view ≠ none) ∧
    (exampleSweater.findIntersection exampleBalloon).result ≠ none ∧
    (exampleSweater.findIntersection exampleBalloon).sweater.charge
      = exampleSweater.charge + (inRangeCount exampleBalloon exampleSweater.minusCharges : Nat) :=
  ⟨exampleSweater_views,
    (findIntersection_transfers_every_charge_in_range exampleSweater exampleBalloon
      exampleSweater_views).1,
    (findIntersection_transfers_every_charge_in_range exampleSweater exampleBalloon
      exampleSweater_views).2.1⟩

/-- C2 (amended): on a sweater whose minus charges all have their view, `findIntersection`
returns true if and only if some minus charge with `moved = false` lies strictly inside the
balloon rectangle, and false otherwise; when it returns false the sweater (every `moved`
flag, the charge) and the balloon are unchanged; and a charge that is already moved or lies
on or outside the boundary of the rectangle is left as it was. -/
theorem findIntersection_true_iff_charge_in_range (s : SweaterModel) (b : BalloonModel)
    (hview : ∀ c ∈ s.minusCharges, c.view ≠ none) :
    ((s.findIntersection b).result = some true ↔ ∃ c ∈ s.minusCharges, InRange b c) ∧
    ((s.findIntersection b).result = some false ↔ ¬ ∃ c ∈ s.minusCharges, InRange b c) ∧
    ((s.findIntersection b).result = some false →
      (s.findIntersection b).sweater = s ∧ (s.findIntersection b).balloon = b) ∧
    (∀ (i : Nat) (c : PointChargeModel), s.minusCharges[i]? = some c → ¬ InRange b c →
      (s.findIntersection b).sweater.minusCharges[i]? = some c) := by
  have hres := (findIntersection_of_views_inRange s b hview).2.2
  refine ⟨?_, ?_, ?_, ?_⟩
  · rw [hres]
    simp
  · rw [hres]
    simp
  · intro hfalse
    rw [hres] at hfalse
    have hany : s.minusCharges.any (eligible (activeArea b)) = false := by
      rw [eligible_eq_decide]
      simpa using hfalse
    rw [findIntersection_of_views s b hview, map_transferred_eq_self hany,
      countP_eq_zero_of_any_false hany]
    simp
  · intro i c hi hc
    rw [findIntersection_of_views s b hview]
    have hne : eligible (activeArea b) c = false := by
      cases hh : eligible (activeArea b) c
      · rfl
      · exact absurd ((eligible_iff b c).1 hh) hc
    simp [List.getElem?_map, hi, transferred_of_not_eligible hne]

/-- Witness of C2 (amended) on the constructed sweater with its views attached: the
hypothesis holds there and the call returns true exactly when a charge is in range. -/
theorem findIntersection_true_iff_charge_in_range_witness :
    (∀ c ∈ exampleSweater.minusCharges, c.view ≠ none) ∧
    ((exampleSweater.findIntersection exampleBalloon).result = some true ↔
      ∃ c ∈ exampleSweater.minusCharges, InRange exampleBalloon c) :=
  ⟨exampleSweater_views,
    (findIntersection_true_iff_charge_in_range exampleSweater exampleBalloon
      exampleSweater_views).1⟩

/-- C3 (amended): from a freshly constructed sweater whose minus charges have been given
their views, after any finite sequence of contact tests and resets with arbitrary
balloons, the sweater charge equals the number
of minus charges whose `moved` flag is set and lies between 0 and 57; a further contact
test returns, does not lower the charge, keeps it at most 57 and equal to the number of
moved charges, raises it by exactly the number of charges that were not moved before and
are moved after, and leaves every charge that was already moved as it was. -/
theorem sweater_charge_monotone_and_bounded (x y : ℚ) (ops : List SweaterOp)
    (b : BalloonModel) :
    (((SweaterModel.new x y).attachViews.run ops).findIntersection b).result ≠ none ∧
    ((SweaterModel.new x y).attachViews.run ops).charge
      = (movedCount ((SweaterModel.new x y).attachViews.run ops).minusCharges : Nat) ∧
    0 ≤ ((SweaterModel.new x y).attachViews.run ops).charge ∧
    ((SweaterModel.new x y).attachViews.run ops).charge ≤ 57 ∧
    ((SweaterModel.new x y).attachViews.run ops).charge
      ≤ (((SweaterModel.new x y).attachViews.run ops).findIntersection b).sweater.charge ∧
    (((SweaterModel.new x y).attachViews.run ops).findIntersection b).sweater.charge ≤ 57 ∧
    (((SweaterModel.new x y).attachViews.run ops).findIntersection b).sweater.charge
      = (movedCount
          (((SweaterModel.new x y).attachViews.run ops).findIntersection b).sweater.minusCharges
          : Nat) ∧
    (((SweaterModel.new x y).attachViews.run ops).findIntersection b).sweater.charge
        - ((SweaterModel.new x y).attachViews.run ops).charge
      = (newlyMoved ((SweaterModel.new x y).attachViews.run ops).minusCharges
          (((SweaterModel.new x y).attachViews.run ops).findIntersection b).sweater.minusCharges
          : Nat) ∧
    (∀ (i : Nat) (c : PointChargeModel),
      ((SweaterModel.new x y).attachViews.run ops).minusCharges[i]? = some c →
      c.moved = true →
      (((SweaterModel.new x y).attachViews.run ops).findIntersection b).sweater.minusCharges[i]?
        = some c) := by
  have hinv : SweaterInv ((SweaterModel.new x y).attachViews.run ops) :=
    inv_run (inv_init x y) ops
  have hinv' := inv_findIntersection hinv b
  generalize (SweaterModel.new x y).attachViews.run ops = s at hinv hinv'
  have hle := movedCount_le_length s.minusCharges
  have hle' := movedCount_le_length (s.findIntersection b).sweater.minusCharges
  have hlen := hinv.length_eq
  have hlen' := hinv'.length_eq
  have hc := hinv.charge_eq
  have hc' := hinv'.charge_eq
  have hstep : (s.findIntersection b).sweater.charge
      = s.charge + (s.minusCharges.countP (eligible (activeArea b)) : Nat) := by
    rw [findIntersection_of_views s b hinv.views]
  have hnew : newlyMoved s.minusCharges (s.findIntersection b).sweater.minusCharges
      = s.minusCharges.countP (eligible (activeArea b)) := by
    rw [findIntersection_of_views s b hinv.views]
    exact newlyMoved_map_transferred _ _
  refine ⟨?_, hc, by omega, by omega, by omega, by omega, hc', by omega, ?_⟩
  · rw [findIntersection_of_views s b hinv.views]
    simp
  · intro i c hi hm
    rw [findIntersection_of_views s b hinv.views]
    simp [List.getElem?_map, hi, transferred_of_not_eligible (eligible_of_moved hm)]

/-- C4 (amended): a contact test conserves charge: for every sweater state and balloon, the
sum of the sweater charge and the balloon charge is the same after `findIntersection` as
before (also when the call throws for want of a view); the number of minus charges whose
`moved` flag went from false to true during the call is the rise of the sweater charge
when the call returns and one more than the rise when the call throws; and when every
minus charge has its view the call returns, so the sweater charge rises by exactly the
number of newly moved charges. -/
theorem findIntersection_conserves_charge (s : SweaterModel) (b : BalloonModel) :
    (s.findIntersection b).sweater.charge + (s.findIntersection b).balloon.charge
      = s.charge + b.charge ∧
    (newlyMoved s.minusCharges (s.findIntersection b).sweater.minusCharges : ℤ)
      = (s.findIntersection b).sweater.charge - s.charge
        + (if (s.findIntersection b).result = none then 1 else 0) ∧
    ((∀ c ∈ s.minusCharges, c.view ≠ none) →
      (s.findIntersection b).result ≠ none ∧
      (s.findIntersection b).sweater.charge - s.charge
        = (newlyMoved s.minusCharges (s.findIntersection b).sweater.minusCharges : Nat)) := by
  refine ⟨?_, ?_, ?_⟩
  · simp only [SweaterModel.findIntersection]
    exact forEach_sum _ _ _
  · have key := forEach_newlyMoved (activeArea b) s.minusCharges
      { sweaterCharge := s.charge, balloonCharge := b.charge, chargeMoved := false,
        threw := false } rfl
    simp only [SweaterModel.findIntersection]
    rw [key]
    by_cases ht : (forEachMinusCharge (activeArea b) s.minusCharges
      { sweaterCharge := s.charge, balloonCharge := b.charge, chargeMoved := false,
        threw := false }).2.threw = true
    · simp [ht]
    · simp [ht]
  · intro hview
    rw [findIntersection_of_views s b hview]
    refine ⟨by simp, ?_⟩
    simp [newlyMoved_map_transferred]

/-- Witness of C4 (amended) on the constructed sweater with its views: every minus charge
has its view, the sum is conserved and the rise of the charge is the number of newly moved
charges. -/
theorem findIntersection_conserves_charge_witness :
    (∀ c ∈ exampleSweater.minusCharges, c.view ≠ none) ∧
    (exampleSweater.findIntersection exampleBalloon).sweater.charge
        + (exampleSweater.findIntersection exampleBalloon).balloon.charge
      = exampleSweater.charge + exampleBalloon.charge ∧
    (exampleSweater.findIntersection exampleBalloon).sweater.charge - exampleSweater.charge
      = (newlyMoved exampleSweater.minusCharges
          (exampleSweater.findIntersection exampleBalloon).sweater.minusCharges : Nat) :=
  ⟨exampleSweater_views,
    (findIntersection_conserves_charge exampleSweater exampleBalloon).1,
    ((findIntersection_conserves_charge exampleSweater exampleBalloon).2.2
      exampleSweater_views).2⟩

/-- C5 (amended): in every state `reset` sets the sweater charge to 0 and clears the
`moved` flag of exactly the minus charges that have a view (the guard `if ( entry.view )`:
a charge without view keeps its flag); after any sequence of contact tests and resets on a
constructed sweater with its views attached, every one of the 57 minus charges has its
view, so `reset` sets the charge to 0 and every `moved` flag to false. -/
theorem sweater_reset_clears_charge_and_moved (s : SweaterModel) (x y : ℚ)
    (ops : List SweaterOp) :
    s.reset.charge = 0 ∧
    s.reset.minusCharges.map (fun c => c.moved)
      = s.minusCharges.map (fun c => c.moved && c.view.isNone) ∧
    ((SweaterModel.new x y).attachViews.run ops).reset.charge = 0 ∧
    ((SweaterModel.new x y).attachViews.run ops).reset.minusCharges.map (fun c => c.moved)
      = List.replicate 57 false := by
  have hinv : SweaterInv ((SweaterModel.new x y).attachViews.run ops) :=
    inv_run (inv_init x y) ops
  generalize (SweaterModel.new x y).attachViews.run ops = t at hinv
  refine ⟨rfl, ?_, rfl, ?_⟩
  · simp only [SweaterModel.reset, List.map_map]
    apply List.map_congr_left
    intro c _
    cases hv : c.view <;> simp [hv]
  · simp only [SweaterModel.reset, reset_map_of_views hinv.views, List.map_map]
    rw [← hinv.length_eq]
    exact List.map_const' _ _

/-! ## The reset of the wall -/

/-- C6: with `Math.sqrt( 0 ) = 0`, `WallModel.reset` applied to any wall state makes the
wall visible and puts every minus charge at the initial value of its position property, so
that its displacement is 0, and leaves the layout as it was: the plus charges, the number
and order of the minus charges with their initial and default positions, and `numX`,
`numY`, `dx`, `dy`, `x`, `y`, `width` and `height`. -/
theorem wall_reset_restores_defaults_and_keeps_layout (sqrt : ℚ → ℚ) (w : WallModel)
    (hsqrt : sqrt 0 = 0) :
    w.reset.isVisible = true ∧
    w.reset.minusCharges.map (fun c => c.locationProperty.value)
      = w.minusCharges.map (fun c => c.locationProperty.initialValue) ∧
    w.reset.minusCharges.map (fun c => c.getDisplacement sqrt)
      = List.replicate w.minusCharges.length 0 ∧
    w.reset.plusCharges = w.plusCharges ∧
    w.reset.minusCharges.length = w.minusCharges.length ∧
    w.reset.minusCharges.map (fun c => c.locationProperty.initialValue)
      = w.minusCharges.map (fun c => c.locationProperty.initialValue) ∧
    w.reset.minusCharges.map (fun c => c.defaultLocation)
      = w.minusCharges.map (fun c => c.defaultLocation) ∧
    w.reset.numX = w.numX ∧ w.reset.numY = w.numY ∧ w.reset.dx = w.dx ∧ w.reset.dy = w.dy ∧
    w.reset.x = w.x ∧ w.reset.y = w.y ∧ w.reset.width = w.width ∧
    w.reset.height = w.height := by
  refine ⟨rfl, ?_, ?_, rfl, ?_, ?_, ?_, rfl, rfl, rfl, rfl, rfl, rfl, rfl, rfl⟩
  · simp [WallModel.reset, MovablePointChargeModel.reset, Vector2Property.reset,
      Vector2Property.set]
  · simp only [WallModel.reset, List.map_map]
    rw [← List.map_const']
    apply List.map_congr_left
    intro c _
    simp [MovablePointChargeModel.getDisplacement, MovablePointChargeModel.reset,
      Vector2Property.reset, Vector2Property.set, Vector2.distance, hsqrt]
  · simp [WallModel.reset]
  · simp [WallModel.reset, MovablePointChargeModel.reset, Vector2Property.reset,
      Vector2Property.set]
  · simp [WallModel.reset, MovablePointChargeModel.reset]

/-- Witness of C6: a hidden wall with two displaced charges, and a square root with
`sqrt 0 = 0`. -/
theorem wall_reset_restores_defaults_and_keeps_layout_witness :
    exampleSqrt 0 = 0 ∧
    exampleWall.reset.isVisible = true ∧
    exampleWall.reset.minusCharges.map (fun c => c.locationProperty.value)
      = exampleWall.minusCharges.map (fun c => c.locationProperty.initialValue) ∧
    exampleWall.reset.minusCharges.map (fun c => c.getDisplacement exampleSqrt)
      = List.replicate exampleWall.minusCharges.length 0 :=
  have h0 : exampleSqrt 0 = 0 := by simp [exampleSqrt]
  ⟨h0,
    (wall_reset_restores_defaults_and_keeps_layout exampleSqrt exampleWall h0).1,
    (wall_reset_restores_defaults_and_keeps_layout exampleSqrt exampleWall h0).2.1,
    (wall_reset_restores_defaults_and_keeps_layout exampleSqrt exampleWall h0).2.2.1⟩

/-! ## Lemmas on the loops over the tables of `PlayAreaMap` -/

theorem foldl_lastKeyContaining_some (v : ℚ) (table : List (String × Range))
    (found : Option String) (k : String)
    (h : table.foldl (fun found entry => if entry.2.contains v then some entry.1 else found)
      found = some k) :
    found = some k ∨ ∃ r, (k, r) ∈ table ∧ r.contains v = true := by
  induction table generalizing found with
  | nil => exact Or.inl h
  | cons e table ih =>
    simp only [List.foldl_cons] at h
    rcases ih _ h with h1 | ⟨r, hr, hc⟩
    · by_cases hcon : e.2.contains v = true
      · simp only [hcon, if_true, Option.some.injEq] at h1
        exact Or.inr ⟨e.2, by simp [← h1], hcon⟩
      · simp only [hcon] at h1
        exact Or.inl h1
    · exact Or.inr ⟨r, List.mem_cons_of_mem _ hr, hc⟩

theorem lastKeyContaining_some {v : ℚ} {table : List (String × Range)} {k : String}
    (h : lastKeyContaining table v = some k) :
    ∃ r, (k, r) ∈ table ∧ r.contains v = true := by
  rcases foldl_lastKeyContaining_some v table none k h with h1 | h2
  · exact absurd h1 (by simp)
  · exact h2

theorem foldl_lastKeyContaining_isSome (v : ℚ) (table : List (String × Range))
    (found : Option String)
    (h : found.isSome = true ∨ ∃ e ∈ table, e.2.contains v = true) :
    (table.foldl (fun found entry => if entry.2.contains v then some entry.1 else found)
      found).isSome = true := by
  induction table generalizing found with
  | nil =>
    rcases h with h | ⟨e, he, _⟩
    · exact h
    · exact absurd he (List.not_mem_nil _)
  | cons e table ih =>
    simp only [List.foldl_cons]
    apply ih
    rcases h with h | ⟨e', he', hc⟩
    · left
      split
      · rfl
      · exact h
    · rcases List.mem_cons.1 he' with rfl | hmem
      · left
        simp [hc]
      · exact Or.inr ⟨e', hmem, hc⟩

theorem lastKeyContaining_isSome {v : ℚ} {table : List (String × Range)}
    (e : String × Range) (he : e ∈ table) (hc : e.2.contains v = true) :
    (lastKeyContaining table v).isSome = true :=
  foldl_lastKeyContaining_isSome v table none (Or.inr ⟨e, he, hc⟩)

theorem foldl_lastKeyEqual_some (v : ℚ) (table : List (String × ℚ))
    (found : Option String) (k : String)
    (h : table.foldl (fun found entry => if v = entry.2 then some entry.1 else found)
      found = some k) :
    found = some k ∨ (k, v) ∈ table := by
  induction table generalizing found with
  | nil => exact Or.inl h
  | cons e table ih =>
    simp only [List.foldl_cons] at h
    rcases ih _ h with h1 | hr
    · by_cases hcon : v = e.2
      · simp only [hcon, if_true, Option.some.injEq] at h1
        exact Or.inr (by simp [← h1, hcon])
      · simp only [hcon] at h1
        exact Or.inl h1
    · exact Or.inr (List.mem_cons_of_mem _ hr)

theorem lastKeyEqual_some {v : ℚ} {table : List (String × ℚ)} {k : String}
    (h : lastKeyEqual table v = some k) : (k, v) ∈ table := by
  rcases foldl_lastKeyEqual_some v table none k h with h1 | h2
  · exact absurd h1 (by simp)
  · exact h2

theorem contains_true {a b v : ℚ} (h1 : a ≤ v) (h2 : v ≤ b) :
    Range.contains ⟨a, b⟩ v = true := by
  simp [Range.contains, h1, h2]

theorem contains_iff {a b v : ℚ} :
    Range.contains ⟨a, b⟩ v = true ↔ a ≤ v ∧ v ≤ b := by
  simp [Range.contains]

theorem COLUMN_RANGES_eq : PlayAreaMap.COLUMN_RANGES =
    [ ("LEFT_ARM", ⟨0, 138⟩), ("LEFT_SIDE_OF_SWEATER", ⟨138, 203⟩),
      ("RIGHT_SIDE_OF_SWEATER", ⟨203, 270⟩), ("RIGHT_ARM", ⟨270, 335⟩),
      ("LEFT_PLAY_AREA", ⟨335, 467⟩), ("CENTER_PLAY_AREA", ⟨467, 544⟩),
      ("RIGHT_PLAY_AREA", ⟨544, 676⟩), ("RIGHT_EDGE", ⟨676, 1176⟩) ] := by
  norm_num [PlayAreaMap.COLUMN_RANGES, PlayAreaMap.rightEdgeRange,
    PlayAreaMap.rightPlayAreaRange, PlayAreaMap.centerPlayAreaRange,
    PlayAreaMap.leftPlayAreaRange, PlayAreaMap.rightArmRange,
    PlayAreaMap.rightSideOfSweaterRange, PlayAreaMap.leftSideOfSweaterRange,
    PlayAreaMap.leftArmRange, PlayAreaMap.createNextRange]

theorem LANDMARK_RANGES_eq : PlayAreaMap.LANDMARK_RANGES =
    [ ("AT_NEAR_SWEATER", ⟨383, 403⟩), ("AT_CENTER_PLAY_AREA", ⟨497, 517⟩),
      ("AT_NEAR_WALL", ⟨586, 606⟩), ("AT_NEAR_RIGHT_EDGE", ⟨666, 686⟩),
      ("AT_VERY_CLOSE_TO_SWEATER", ⟨363, 383⟩), ("AT_VERY_CLOSE_TO_WALL", ⟨606, 620⟩),
      ("AT_VERY_CLOSE_TO_RIGHT_EDGE", ⟨686, 700⟩) ] := by
  norm_num [PlayAreaMap.LANDMARK_RANGES, PlayAreaMap.atNearSweaterRange,
    PlayAreaMap.atCenterPlayAreaRange, PlayAreaMap.atNearWallRange,
    PlayAreaMap.atNearRightEdgeRange, PlayAreaMap.atVeryCloseToSweaterRange,
    PlayAreaMap.atVeryCloseToWallRange, PlayAreaMap.atVeryCloseToRightEdgeRange,
    PlayAreaMap.createLandmarkRange, PlayAreaMap.HALF_LANDMARK_WIDTH,
    PlayAreaMap.LANDMARK_WIDTH, PlayAreaMap.X_BOUNDARY_LOCATIONS.AT_RIGHT_EDGE,
    PlayAreaMap.X_LOCATIONS.AT_NEAR_SWEATER, PlayAreaMap.X_LOCATIONS.AT_CENTER_PLAY_AREA,
    PlayAreaMap.X_LOCATIONS.AT_NEAR_WALL, PlayAreaMap.X_LOCATIONS.AT_WALL,
    PlayAreaMap.X_LOCATIONS.AT_NEAR_RIGHT_EDGE]

theorem ROW_RANGES_eq : PlayAreaMap.ROW_RANGES =
    [ ("UPPER_PLAY_AREA", ⟨0, 172⟩), ("CENTER_PLAY_AREA", ⟨172, 326⟩),
      ("LOWER_PLAY_AREA", ⟨326, 826⟩) ] := by
  norm_num [PlayAreaMap.ROW_RANGES, PlayAreaMap.upperPlayAreaRange,
    PlayAreaMap.centerPlayAreaRowRange, PlayAreaMap.lowerPlayAreaRange,
    PlayAreaMap.createNextRange]

theorem column_isSome (x : ℚ) (h0 : 0 ≤ x) (h1 : x ≤ 1176) :
    (lastKeyContaining PlayAreaMap.COLUMN_RANGES x).isSome = true := by
  rw [COLUMN_RANGES_eq]
  by_cases c0 : x ≤ 138
  · exact lastKeyContaining_isSome ("LEFT_ARM", ⟨0, 138⟩) (by simp)
      (contains_true h0 c0)
  by_cases c1 : x ≤ 203
  · exact lastKeyContaining_isSome ("LEFT_SIDE_OF_SWEATER", ⟨138, 203⟩) (by simp)
      (contains_true (not_le.1 c0).le c1)
  by_cases c2 : x ≤ 270
  · exact lastKeyContaining_isSome ("RIGHT_SIDE_OF_SWEATER", ⟨203, 270⟩) (by simp)
      (contains_true (not_le.1 c1).le c2)
  by_cases c3 : x ≤ 335
  · exact lastKeyContaining_isSome ("RIGHT_ARM", ⟨270, 335⟩) (by simp)
      (contains_true (not_le.1 c2).le c3)
  by_cases c4 : x ≤ 467
  · exact lastKeyContaining_isSome ("LEFT_PLAY_AREA", ⟨335, 467⟩) (by simp)
      (contains_true (not_le.1 c3).le c4)
  by_cases c5 : x ≤ 544
  · exact lastKeyContaining_isSome ("CENTER_PLAY_AREA", ⟨467, 544⟩) (by simp)
      (contains_true (not_le.1 c4).le c5)
  by_cases c6 : x ≤ 676
  · exact lastKeyContaining_isSome ("RIGHT_PLAY_AREA", ⟨544, 676⟩) (by simp)
      (contains_true (not_le.1 c5).le c6)
  exact lastKeyContaining_isSome ("RIGHT_EDGE", ⟨676, 1176⟩) (by simp)
      (contains_true (not_le.1 c6).le h1)

theorem row_isSome (y : ℚ) (h0 : 0 ≤ y) (h1 : y ≤ 826) :
    (lastKeyContaining PlayAreaMap.ROW_RANGES y).isSome = true := by
  rw [ROW_RANGES_eq]
  by_cases c0 : y ≤ 172
  · exact lastKeyContaining_isSome ("UPPER_PLAY_AREA", ⟨0, 172⟩) (by simp)
      (contains_true h0 c0)
  by_cases c1 : y ≤ 326
  · exact lastKeyContaining_isSome ("CENTER_PLAY_AREA", ⟨172, 326⟩) (by simp)
      (contains_true (not_le.1 c0).le c1)
  exact lastKeyContaining_isSome ("LOWER_PLAY_AREA", ⟨326, 826⟩) (by simp)
      (contains_true (not_le.1 c1).le h1)

theorem mem_keys_of_lastKeyContaining {v : ℚ} {table : List (String × Range)} {k : String}
    (h : lastKeyContaining table v = some k) : k ∈ table.map Prod.fst := by
  obtain ⟨r, hr, _⟩ := lastKeyContaining_some h
  exact List.mem_map.2 ⟨(k, r), hr, rfl⟩

theorem mem_keys_of_lastKeyEqual {v : ℚ} {table : List (String × ℚ)} {k : String}
    (h : lastKeyEqual table v = some k) : k ∈ table.map Prod.fst :=
  List.mem_map.2 ⟨(k, v), lastKeyEqual_some h, rfl⟩

/-- The keys that the loops of `getLocationDescription` can assign to `currentColumn`. -/
theorem currentColumn_mem_keys {location : Vector2} {k : String}
    (h : (BASEDescriber.scanLocation location).currentColumn = some k) :
    k ∈ PlayAreaMap.X_LOCATIONS.map Prod.fst ++ PlayAreaMap.LANDMARK_RANGES.map Prod.fst
      ++ PlayAreaMap.COLUMN_RANGES.map Prod.fst := by
  simp only [BASEDescriber.LocationScan.currentColumn, BASEDescriber.scanLocation] at h
  cases hloc : lastKeyEqual PlayAreaMap.X_LOCATIONS location.x with
  | some k1 =>
    simp only [hloc, Option.some.injEq] at h
    subst h
    exact List.mem_append_left _ (List.mem_append_left _ (mem_keys_of_lastKeyEqual hloc))
  | none =>
    cases hland : lastKeyContaining PlayAreaMap.LANDMARK_RANGES location.x with
    | some k2 =>
      simp only [hloc, hland, Option.some.injEq] at h
      subst h
      exact List.mem_append_left _ (List.mem_append_right _ (mem_keys_of_lastKeyContaining hland))
    | none =>
      simp only [hloc, hland, Option.isNone_none, if_true] at h
      exact List.mem_append_right _ (mem_keys_of_lastKeyContaining h)

theorem currentColumn_isSome (x y : ℚ) (h0 : 0 ≤ x) (h1 : x ≤ 1176) :
    (BASEDescriber.scanLocation ⟨x, y⟩).currentColumn.isSome = true := by
  simp only [BASEDescriber.LocationScan.currentColumn, BASEDescriber.scanLocation]
  cases hloc : lastKeyEqual PlayAreaMap.X_LOCATIONS x with
  | some k1 => rfl
  | none =>
    cases hland : lastKeyContaining PlayAreaMap.LANDMARK_RANGES x with
    | some k2 => rfl
    | none =>
      simp only [Option.isNone_none, if_true]
      exact column_isSome x h0 h1

/-- Every key the loops can produce, relabelled for either value of `wallVisible`, has an
entry in `LOCATION_DESCRIPTION_MAP` with a description for every row. -/
theorem description_defined_for_all_keys :
    ∀ wallVisible : Bool,
    ∀ k ∈ PlayAreaMap.X_LOCATIONS.map Prod.fst ++ PlayAreaMap.LANDMARK_RANGES.map Prod.fst
      ++ PlayAreaMap.COLUMN_RANGES.map Prod.fst,
    ∀ row ∈ PlayAreaMap.ROW_RANGES.map Prod.fst,
      ((BASEDescriber.LOCATION_DESCRIPTION_MAP.lookup
          (BASEDescriber.relabelColumn wallVisible k)).bind
        (fun rows => rows.lookup row)).isSome = true := by
  decide

theorem landmark_bounds {x : ℚ} {k : String} {r : Range}
    (hr : (k, r) ∈ PlayAreaMap.LANDMARK_RANGES) (hc : r.contains x = true) :
    (k = "AT_NEAR_SWEATER" ∧ 383 ≤ x ∧ x ≤ 403) ∨
    (k = "AT_CENTER_PLAY_AREA" ∧ 497 ≤ x ∧ x ≤ 517) ∨
    (k = "AT_NEAR_WALL" ∧ 586 ≤ x ∧ x ≤ 606) ∨
    (k = "AT_NEAR_RIGHT_EDGE" ∧ 666 ≤ x ∧ x ≤ 686) ∨
    (k = "AT_VERY_CLOSE_TO_SWEATER" ∧ 363 ≤ x ∧ x ≤ 383) ∨
    (k = "AT_VERY_CLOSE_TO_WALL" ∧ 606 ≤ x ∧ x ≤ 620) ∨
    (k = "AT_VERY_CLOSE_TO_RIGHT_EDGE" ∧ 686 ≤ x ∧ x ≤ 700) := by
  rw [LANDMARK_RANGES_eq] at hr
  simp only [List.mem_cons, Prod.mk.injEq, List.mem_singleton, List.not_mem_nil, or_false] at hr
  rcases hr with ⟨rfl, rfl⟩ | ⟨rfl, rfl⟩ | ⟨rfl, rfl⟩ | ⟨rfl, rfl⟩ | ⟨rfl, rfl⟩ | ⟨rfl, rfl⟩ |
    ⟨rfl, rfl⟩ <;> simp [contains_iff.1 hc]

theorem location_values {x : ℚ} {k : String} (h : (k, x) ∈ PlayAreaMap.X_LOCATIONS) :
    (k = "AT_NEAR_SWEATER" ∧ x = 393) ∨ (k = "AT_CENTER_PLAY_AREA" ∧ x = 507) ∨
    (k = "AT_NEAR_WALL" ∧ x = 596) ∨ (k = "AT_WALL" ∧ x = 621) ∨
    (k = "AT_NEAR_RIGHT_EDGE" ∧ x = 676) := by
  simpa [PlayAreaMap.X_LOCATIONS, PlayAreaMap.X_LOCATIONS.AT_NEAR_SWEATER,
    PlayAreaMap.X_LOCATIONS.AT_CENTER_PLAY_AREA, PlayAreaMap.X_LOCATIONS.AT_NEAR_WALL,
    PlayAreaMap.X_LOCATIONS.AT_WALL, PlayAreaMap.X_LOCATIONS.AT_NEAR_RIGHT_EDGE] using h

theorem landmark_at_393 :
    lastKeyContaining PlayAreaMap.LANDMARK_RANGES 393 = some "AT_NEAR_SWEATER" := by
  norm_num [lastKeyContaining, LANDMARK_RANGES_eq, Range.contains]

theorem landmark_at_507 :
    lastKeyContaining PlayAreaMap.LANDMARK_RANGES 507 = some "AT_CENTER_PLAY_AREA" := by
  norm_num [lastKeyContaining, LANDMARK_RANGES_eq, Range.contains]

theorem landmark_at_596 :
    lastKeyContaining PlayAreaMap.LANDMARK_RANGES 596 = some "AT_NEAR_WALL" := by
  norm_num [lastKeyContaining, LANDMARK_RANGES_eq, Range.contains]

theorem landmark_at_621 : lastKeyContaining PlayAreaMap.LANDMARK_RANGES 621 = none := by
  norm_num [lastKeyContaining, LANDMARK_RANGES_eq, Range.contains]

theorem landmark_at_676 :
    lastKeyContaining PlayAreaMap.LANDMARK_RANGES 676 = some "AT_NEAR_RIGHT_EDGE" := by
  norm_num [lastKeyContaining, LANDMARK_RANGES_eq, Range.contains]

/-- At an exact location that lies in a landmark, the location key and the landmark key
are the same key. -/
theorem location_key_eq_landmark {x : ℚ} {k L : String}
    (hloc : lastKeyEqual PlayAreaMap.X_LOCATIONS x = some k)
    (hL : lastKeyContaining PlayAreaMap.LANDMARK_RANGES x = some L) : k = L := by
  rcases location_values (lastKeyEqual_some hloc) with
    ⟨rfl, rfl⟩ | ⟨rfl, rfl⟩ | ⟨rfl, rfl⟩ | ⟨rfl, rfl⟩ | ⟨rfl, rfl⟩
  · rw [landmark_at_393] at hL
    exact Option.some.inj hL
  · rw [landmark_at_507] at hL
    exact Option.some.inj hL
  · rw [landmark_at_596] at hL
    exact Option.some.inj hL
  · rw [landmark_at_621] at hL
    exact absurd hL (by simp)
  · rw [landmark_at_676] at hL
    exact Option.some.inj hL

theorem currentColumn_of_landmark {x y : ℚ} {L : String}
    (hL : lastKeyContaining PlayAreaMap.LANDMARK_RANGES x = some L) :
    (BASEDescriber.scanLocation ⟨x, y⟩).currentColumn = some L := by
  simp only [BASEDescriber.LocationScan.currentColumn, BASEDescriber.scanLocation, hL]
  cases hloc : lastKeyEqual PlayAreaMap.X_LOCATIONS x with
  | some k => simp [location_key_eq_landmark hloc hL]
  | none => rfl

theorem getLocationDescription_of_column {location : Vector2} (wallVisible : Bool)
    {column : String} (hcol : (BASEDescriber.scanLocation location).currentColumn = some column)
    (hrow : (BASEDescriber.scanLocation location).currentRow.isSome = true) :
    BASEDescriber.describedColumn location wallVisible
        = some (BASEDescriber.relabelColumn wallVisible column) ∧
    BASEDescriber.getLocationDescription location wallVisible =
      ((BASEDescriber.LOCATION_DESCRIPTION_MAP.lookup
          (BASEDescriber.relabelColumn wallVisible column)).bind fun rows =>
        (BASEDescriber.scanLocation location).currentRow.bind fun row => rows.lookup row) := by
  obtain ⟨row, hrow'⟩ := Option.isSome_iff_exists.1 hrow
  have hd : BASEDescriber.describedColumn location wallVisible
      = some (BASEDescriber.relabelColumn wallVisible column) := by
    simp [BASEDescriber.describedColumn, hcol, hrow']
  refine ⟨hd, ?_⟩
  simp only [BASEDescriber.getLocationDescription, hd, hrow']
  cases BASEDescriber.LOCATION_DESCRIPTION_MAP.lookup
    (BASEDescriber.relabelColumn wallVisible column) <;> simp

theorem currentRow_eq (location : Vector2) :
    (BASEDescriber.scanLocation location).currentRow
      = lastKeyContaining PlayAreaMap.ROW_RANGES location.y := rfl

theorem row_upper {y : ℚ} (h0 : 0 ≤ y) (h1 : y < 172) :
    lastKeyContaining PlayAreaMap.ROW_RANGES y = some "UPPER_PLAY_AREA" := by
  rw [ROW_RANGES_eq]
  simp only [lastKeyContaining, List.foldl, contains_iff]
  rw [if_neg (fun hh => by linarith [hh.1]), if_neg (fun hh => by linarith [hh.1]),
    if_pos ⟨h0, h1.le⟩]

theorem row_center {y : ℚ} (h0 : 172 ≤ y) (h1 : y < 326) :
    lastKeyContaining PlayAreaMap.ROW_RANGES y = some "CENTER_PLAY_AREA" := by
  rw [ROW_RANGES_eq]
  simp only [lastKeyContaining, List.foldl, contains_iff]
  rw [if_neg (fun hh => by linarith [hh.1]), if_pos ⟨h0, h1.le⟩]

theorem row_lower {y : ℚ} (h0 : 326 ≤ y) (h1 : y ≤ 826) :
    lastKeyContaining PlayAreaMap.ROW_RANGES y = some "LOWER_PLAY_AREA" := by
  rw [ROW_RANGES_eq]
  simp only [lastKeyContaining, List.foldl, contains_iff]
  rw [if_pos ⟨h0, h1⟩]

/-- The description that `LOCATION_DESCRIPTION_MAP` gives for a column key at height `y`,
when the three row entries of the key are `upper`, `center` and `lower`. -/
theorem description_by_row {x y : ℚ} {wallVisible : Bool} {column : String}
    (upper center lower : String)
    (hcol : (BASEDescriber.scanLocation ⟨x, y⟩).currentColumn = some column)
    (hmap : BASEDescriber.LOCATION_DESCRIPTION_MAP.lookup
        (BASEDescriber.relabelColumn wallVisible column)
      = some [("UPPER_PLAY_AREA", upper), ("CENTER_PLAY_AREA", center),
          ("LOWER_PLAY_AREA", lower)])
    (hy0 : 0 ≤ y) (hy1 : y ≤ 826) :
    BASEDescriber.getLocationDescription ⟨x, y⟩ wallVisible
      = some (if y < 172 then upper else if y < 326 then center else lower) := by
  have hrow : (BASEDescriber.scanLocation ⟨x, y⟩).currentRow.isSome = true :=
    row_isSome y hy0 hy1
  rw [(getLocationDescription_of_column wallVisible hcol hrow).2, hmap,
    currentRow_eq]
  by_cases h1 : y < 172
  · simp [row_upper hy0 h1, h1, List.lookup]
  · by_cases h2 : y < 326
    · simp [row_center (not_lt.1 h1) h2, h1, h2, List.lookup]
    · simp [row_lower (not_lt.1 h2) hy1, h1, h2, List.lookup]

theorem landmark_keys_kept :
    ∀ k ∈ PlayAreaMap.LANDMARK_RANGES.map Prod.fst,
      BASEDescriber.relabelColumn true k = k ∧ k ∉ PlayAreaMap.COLUMN_RANGES.map Prod.fst := by
  decide

theorem landmark_isSome_of_contains {x : ℚ}
    (h : ∃ e ∈ PlayAreaMap.LANDMARK_RANGES, e.2.contains x = true) :
    ∃ L r, lastKeyContaining PlayAreaMap.LANDMARK_RANGES x = some L ∧
      (L, r) ∈ PlayAreaMap.LANDMARK_RANGES ∧ r.contains x = true := by
  obtain ⟨e, he, hc⟩ := h
  obtain ⟨L, hL⟩ := Option.isSome_iff_exists.1 (lastKeyContaining_isSome e he hc)
  obtain ⟨r, hr, hrc⟩ := lastKeyContaining_some hL
  exact ⟨L, r, hL, hr, hrc⟩

theorem location_none_of_gt {x : ℚ} (h : 700 < x) :
    lastKeyEqual PlayAreaMap.X_LOCATIONS x = none := by
  cases hloc : lastKeyEqual PlayAreaMap.X_LOCATIONS x with
  | none => rfl
  | some k =>
    exfalso
    rcases location_values (lastKeyEqual_some hloc) with
      ⟨_, hx⟩ | ⟨_, hx⟩ | ⟨_, hx⟩ | ⟨_, hx⟩ | ⟨_, hx⟩ <;> linarith

theorem landmark_none_of_gt {x : ℚ} (h : 700 < x) :
    lastKeyContaining PlayAreaMap.LANDMARK_RANGES x = none := by
  cases hland : lastKeyContaining PlayAreaMap.LANDMARK_RANGES x with
  | none => rfl
  | some k =>
    exfalso
    obtain ⟨r, hr, hc⟩ := lastKeyContaining_some hland
    rcases landmark_bounds hr hc with
      ⟨_, _, hx⟩ | ⟨_, _, hx⟩ | ⟨_, _, hx⟩ | ⟨_, _, hx⟩ | ⟨_, _, hx⟩ | ⟨_, _, hx⟩ |
        ⟨_, _, hx⟩ <;> linarith

theorem column_right_edge {x : ℚ} (h0 : 676 ≤ x) (h1 : x ≤ 1176) :
    lastKeyContaining PlayAreaMap.COLUMN_RANGES x = some "RIGHT_EDGE" := by
  rw [COLUMN_RANGES_eq]
  simp only [lastKeyContaining, List.foldl, contains_iff]
  rw [if_pos ⟨h0, h1⟩]

theorem currentColumn_right_edge {x : ℚ} (y : ℚ) (h0 : 700 < x) (h1 : x ≤ 1176) :
    (BASEDescriber.scanLocation ⟨x, y⟩).currentColumn = some "RIGHT_EDGE" := by
  simp [BASEDescriber.LocationScan.currentColumn, BASEDescriber.scanLocation,
    location_none_of_gt h0, landmark_none_of_gt h0, column_right_edge (by linarith) h1]

theorem landmark_at_680 :
    lastKeyContaining PlayAreaMap.LANDMARK_RANGES 680 = some "AT_NEAR_RIGHT_EDGE" := by
  norm_num [lastKeyContaining, LANDMARK_RANGES_eq, Range.contains]

theorem location_at_621 : lastKeyEqual PlayAreaMap.X_LOCATIONS 621 = some "AT_WALL" := by
  norm_num [lastKeyEqual, PlayAreaMap.X_LOCATIONS, PlayAreaMap.X_LOCATIONS.AT_NEAR_SWEATER,
    PlayAreaMap.X_LOCATIONS.AT_CENTER_PLAY_AREA, PlayAreaMap.X_LOCATIONS.AT_NEAR_WALL,
    PlayAreaMap.X_LOCATIONS.AT_WALL, PlayAreaMap.X_LOCATIONS.AT_NEAR_RIGHT_EDGE]

theorem currentColumn_cases {x y : ℚ} {k : String}
    (h : (BASEDescriber.scanLocation ⟨x, y⟩).currentColumn = some k) :
    (k, x) ∈ PlayAreaMap.X_LOCATIONS ∨
    (∃ r, (k, r) ∈ PlayAreaMap.LANDMARK_RANGES ∧ r.contains x = true) ∨
    k ∈ PlayAreaMap.COLUMN_RANGES.map Prod.fst := by
  simp only [BASEDescriber.LocationScan.currentColumn, BASEDescriber.scanLocation] at h
  cases hloc : lastKeyEqual PlayAreaMap.X_LOCATIONS x with
  | some k1 =>
    simp only [hloc, Option.some.injEq] at h
    subst h
    exact Or.inl (lastKeyEqual_some hloc)
  | none =>
    cases hland : lastKeyContaining PlayAreaMap.LANDMARK_RANGES x with
    | some k2 =>
      simp only [hloc, hland, Option.some.injEq] at h
      subst h
      exact Or.inr (Or.inl (lastKeyContaining_some hland))
    | none =>
      simp only [hloc, hland, Option.isNone_none, if_true] at h
      exact Or.inr (Or.inr (mem_keys_of_lastKeyContaining h))

theorem column_keys_not_wall :
    ∀ k ∈ PlayAreaMap.COLUMN_RANGES.map Prod.fst, BASEDescriber.inWallColumn k = false := by
  decide

theorem relabel_invisible (k : String) :
    BASEDescriber.relabelColumn false k
      = if BASEDescriber.inWallColumn k then "RIGHT_PLAY_AREA" else k := by
  simp [BASEDescriber.relabelColumn]

theorem relabel_invisible_not_wall (k : String) :
    BASEDescriber.inWallColumn (BASEDescriber.relabelColumn false k) = false := by
  rw [relabel_invisible]
  by_cases h : BASEDescriber.inWallColumn k = true
  · rw [if_pos h]
    decide
  · rw [if_neg h]
    simpa using h

theorem ne_wall_keys_of_not_inWallColumn {k : String}
    (h : BASEDescriber.inWallColumn k = false) :
    k ≠ "AT_WALL" ∧ k ≠ "AT_NEAR_WALL" ∧ k ≠ "AT_VERY_CLOSE_TO_WALL" ∧ k ≠ "WALL" := by
  refine ⟨?_, ?_, ?_, ?_⟩ <;>
  · rintro rfl
    revert h
    decide

theorem wall_zone_of_wall_key {x y : ℚ} {k : String}
    (h : (BASEDescriber.scanLocation ⟨x, y⟩).currentColumn = some k)
    (hw : BASEDescriber.inWallColumn k = true) : (586 ≤ x ∧ x ≤ 620) ∨ x = 621 := by
  rcases currentColumn_cases h with hloc | ⟨r, hr, hc⟩ | hcol
  · rcases location_values hloc with
      ⟨rfl, rfl⟩ | ⟨rfl, rfl⟩ | ⟨rfl, rfl⟩ | ⟨rfl, rfl⟩ | ⟨rfl, rfl⟩ <;>
    first
      | (exfalso; revert hw; decide)
      | norm_num
  · rcases landmark_bounds hr hc with
      ⟨rfl, a, b⟩ | ⟨rfl, a, b⟩ | ⟨rfl, a, b⟩ | ⟨rfl, a, b⟩ | ⟨rfl, a, b⟩ | ⟨rfl, a, b⟩ |
        ⟨rfl, a, b⟩ <;>
    first
      | (exfalso; revert hw; decide)
      | (left; constructor <;> linarith)
  · rw [column_keys_not_wall k hcol] at hw
    exact absurd hw (by simp)

theorem wall_key_of_wall_zone {x : ℚ} (y : ℚ) (h : (586 ≤ x ∧ x ≤ 620) ∨ x = 621) :
    ∃ k, (BASEDescriber.scanLocation ⟨x, y⟩).currentColumn = some k ∧
      BASEDescriber.inWallColumn k = true := by
  rcases h with ⟨h0, h1⟩ | rfl
  · have hcont : ∃ e ∈ PlayAreaMap.LANDMARK_RANGES, e.2.contains x = true := by
      rw [LANDMARK_RANGES_eq]
      by_cases c : x ≤ 606
      · exact ⟨("AT_NEAR_WALL", ⟨586, 606⟩), by simp, contains_true h0 c⟩
      · exact ⟨("AT_VERY_CLOSE_TO_WALL", ⟨606, 620⟩), by simp,
          contains_true (not_le.1 c).le h1⟩
    obtain ⟨L, r, hL, hr, hc⟩ := landmark_isSome_of_contains hcont
    refine ⟨L, currentColumn_of_landmark hL, ?_⟩
    rcases landmark_bounds hr hc with
      ⟨rfl, a, b⟩ | ⟨rfl, a, b⟩ | ⟨rfl, a, b⟩ | ⟨rfl, a, b⟩ | ⟨rfl, a, b⟩ | ⟨rfl, a, b⟩ |
        ⟨rfl, a, b⟩ <;>
    first
      | decide
      | (exfalso; linarith)
  · refine ⟨"AT_WALL", ?_, by decide⟩
    simp [BASEDescriber.LocationScan.currentColumn, BASEDescriber.scanLocation,
      location_at_621]

theorem descriptions_without_wall_label :
    ∀ k ∈ PlayAreaMap.X_LOCATIONS.map Prod.fst ++ PlayAreaMap.LANDMARK_RANGES.map Prod.fst
      ++ PlayAreaMap.COLUMN_RANGES.map Prod.fst,
    ∀ row ∈ PlayAreaMap.ROW_RANGES.map Prod.fst,
      ((BASEDescriber.LOCATION_DESCRIPTION_MAP.lookup
          (BASEDescriber.relabelColumn false k)).bind (fun rows => rows.lookup row))
        ∉ [some "upper wall", some "wall", some "lower wall"] := by
  decide

/-! ## The location describer -/

/-- C7: for every position with `0 <= x <= 768` and `0 <= y <= 504` and both values of
`wallVisible`, `getLocationDescription` finds a row and a column, landmark or location key
(the assertion holds) and the lookup in `LOCATION_DESCRIPTION_MAP` is defined; and every
key the loops can produce, after relabelling to `WALL` or `RIGHT_PLAY_AREA`, has an entry
for every row. -/
theorem getLocationDescription_total_on_play_area (x y : ℚ) (wallVisible : Bool)
    (hx0 : 0 ≤ x) (hx1 : x ≤ 768) (hy0 : 0 ≤ y) (hy1 : y ≤ 504) :
    (BASEDescriber.scanLocation ⟨x, y⟩).currentRow.isSome = true ∧
    (BASEDescriber.scanLocation ⟨x, y⟩).currentColumn.isSome = true ∧
    (BASEDescriber.describedColumn ⟨x, y⟩ wallVisible).isSome = true ∧
    (BASEDescriber.getLocationDescription ⟨x, y⟩ wallVisible).isSome = true ∧
    (∀ wv : Bool,
      ∀ k ∈ PlayAreaMap.X_LOCATIONS.map Prod.fst ++ PlayAreaMap.LANDMARK_RANGES.map Prod.fst
        ++ PlayAreaMap.COLUMN_RANGES.map Prod.fst,
      ∀ row ∈ PlayAreaMap.ROW_RANGES.map Prod.fst,
        ((BASEDescriber.LOCATION_DESCRIPTION_MAP.lookup (BASEDescriber.relabelColumn wv k)).bind
          (fun rows => rows.lookup row)).isSome = true) := by
  have hrow : (BASEDescriber.scanLocation ⟨x, y⟩).currentRow.isSome = true :=
    row_isSome y hy0 (by linarith)
  have hcol := currentColumn_isSome x y hx0 (by linarith)
  obtain ⟨k, hk⟩ := Option.isSome_iff_exists.1 hcol
  obtain ⟨row, hr⟩ := Option.isSome_iff_exists.1 hrow
  obtain ⟨hd, hg⟩ := getLocationDescription_of_column wallVisible hk hrow
  refine ⟨hrow, hcol, by simp [hd], ?_, description_defined_for_all_keys⟩
  rw [hg, hr]
  have hrowmem : row ∈ PlayAreaMap.ROW_RANGES.map Prod.fst :=
    mem_keys_of_lastKeyContaining (by rw [← currentRow_eq]; exact hr)
  have := description_defined_for_all_keys wallVisible k (currentColumn_mem_keys hk) row hrowmem
  simpa using this

/-- Witness of C7 at the position `(100, 100)` with the wall visible. -/
theorem getLocationDescription_total_on_play_area_witness :
    (0 : ℚ) ≤ 100 ∧ (100 : ℚ) ≤ 768 ∧ (100 : ℚ) ≤ 504 ∧
    (BASEDescriber.getLocationDescription ⟨100, 100⟩ true).isSome = true :=
  ⟨by norm_num, by norm_num, by norm_num,
    (getLocationDescription_total_on_play_area 100 100 true (by norm_num) (by norm_num)
      (by norm_num) (by norm_num)).2.2.2.1⟩

/-- C8: for every position whose x lies inside a range of `LANDMARK_RANGES` (and whose y
lies in a row), `getLocationDescription` with the wall visible finds a landmark whose range
contains x, does not enter the loop over the column ranges, and indexes
`LOCATION_DESCRIPTION_MAP` with the key of that landmark, which is not the key of any
column; the landmark is the only one that contains x unless x is an edge shared by two
landmark ranges (383, 606, 686). -/
theorem landmark_takes_priority_over_column (x y : ℚ)
    (hland : ∃ e ∈ PlayAreaMap.LANDMARK_RANGES, e.2.contains x = true)
    (hy0 : 0 ≤ y) (hy1 : y ≤ 826) :
    ∃ e ∈ PlayAreaMap.LANDMARK_RANGES, e.2.contains x = true ∧
      (BASEDescriber.scanLocation ⟨x, y⟩).currentLandmark = some e.1 ∧
      (BASEDescriber.scanLocation ⟨x, y⟩).columnLoopRan = false ∧
      (BASEDescriber.scanLocation ⟨x, y⟩).scannedColumn = none ∧
      BASEDescriber.describedColumn ⟨x, y⟩ true = some e.1 ∧
      e.1 ∉ PlayAreaMap.COLUMN_RANGES.map Prod.fst ∧
      BASEDescriber.getLocationDescription ⟨x, y⟩ true =
        ((BASEDescriber.LOCATION_DESCRIPTION_MAP.lookup e.1).bind fun rows =>
          (BASEDescriber.scanLocation ⟨x, y⟩).currentRow.bind fun row => rows.lookup row) ∧
      (∀ e' ∈ PlayAreaMap.LANDMARK_RANGES, e'.2.contains x = true →
        e'.1 = e.1 ∨ x = 383 ∨ x = 606 ∨ x = 686) := by
  obtain ⟨L, r, hL, hr, hc⟩ := landmark_isSome_of_contains hland
  have hkeep := landmark_keys_kept L (List.mem_map.2 ⟨(L, r), hr, rfl⟩)
  have hrow : (BASEDescriber.scanLocation ⟨x, y⟩).currentRow.isSome = true :=
    row_isSome y hy0 hy1
  obtain ⟨hd, hg⟩ := getLocationDescription_of_column true
    (currentColumn_of_landmark (y := y) hL) hrow
  rw [hkeep.1] at hd hg
  refine ⟨(L, r), hr, hc, hL, ?_, ?_, hd, hkeep.2, hg, ?_⟩
  · simp [BASEDescriber.scanLocation, hL]
  · simp [BASEDescriber.scanLocation, hL]
  · intro e' he' hc'
    rcases landmark_bounds (k := e'.1) (r := e'.2) he' hc' with
      ⟨h1, a, b⟩ | ⟨h1, a, b⟩ | ⟨h1, a, b⟩ | ⟨h1, a, b⟩ | ⟨h1, a, b⟩ | ⟨h1, a, b⟩ |
        ⟨h1, a, b⟩ <;>
    rcases landmark_bounds hr hc with
      ⟨h2, c, d⟩ | ⟨h2, c, d⟩ | ⟨h2, c, d⟩ | ⟨h2, c, d⟩ | ⟨h2, c, d⟩ | ⟨h2, c, d⟩ |
        ⟨h2, c, d⟩ <;>
    first
      | (left; simp [h1, h2]; done)
      | (exfalso; linarith)
      | (right; left; linarith)
      | (right; right; left; linarith)
      | (right; right; right; linarith)

/-- Witness of C8 at `(600, 100)`, inside the near-wall landmark. -/
theorem landmark_takes_priority_over_column_witness :
    (∃ e ∈ PlayAreaMap.LANDMARK_RANGES, e.2.contains 600 = true) ∧
    ∃ e ∈ PlayAreaMap.LANDMARK_RANGES, e.2.contains 600 = true ∧
      (BASEDescriber.scanLocation ⟨600, 100⟩).columnLoopRan = false ∧
      BASEDescriber.describedColumn ⟨600, 100⟩ true = some e.1 :=
  have h : ∃ e ∈ PlayAreaMap.LANDMARK_RANGES, e.2.contains 600 = true :=
    ⟨("AT_NEAR_WALL", PlayAreaMap.atNearWallRange), by simp [PlayAreaMap.LANDMARK_RANGES],
      by norm_num [Range.contains, PlayAreaMap.atNearWallRange,
        PlayAreaMap.createLandmarkRange, PlayAreaMap.HALF_LANDMARK_WIDTH,
        PlayAreaMap.LANDMARK_WIDTH, PlayAreaMap.X_LOCATIONS.AT_NEAR_WALL]⟩
  ⟨h,
    match landmark_takes_priority_over_column 600 100 h (by norm_num) (by norm_num) with
    | ⟨e, he, hc, _, hran, _, hd, _⟩ => ⟨e, he, hc, hran, hd⟩⟩

/-- C9, as stated, fails: `(680, 100)` and `(720, 100)` lie in the right-edge column band
(676 to 1176), yet with the wall visible `(680, 100)` is described by the near-right-edge
landmark, not by the wall label, and with the wall invisible `(720, 100)` is described as
the right edge of the Play Area, not as its right side. -/
theorem right_edge_band_is_not_always_wall_or_right_side :
    PlayAreaMap.rightEdgeRange.contains 680 = true ∧
    PlayAreaMap.rightEdgeRange.contains 720 = true ∧
    BASEDescriber.getLocationDescription ⟨680, 100⟩ true = some "upper right edge" ∧
    BASEDescriber.getLocationDescription ⟨680, 100⟩ true ≠ some "upper wall" ∧
    BASEDescriber.getLocationDescription ⟨720, 100⟩ false
      = some "upper-right edge of Play Area" ∧
    BASEDescriber.getLocationDescription ⟨720, 100⟩ false
      ≠ some "upper-right side of Play Area" := by
  have h680 : BASEDescriber.getLocationDescription ⟨680, 100⟩ true
      = some "upper right edge" := by
    rw [description_by_row "upper right edge" "right edge" "lower-right edge"
      (currentColumn_of_landmark landmark_at_680) (by decide)
      (by norm_num) (by norm_num)]
    norm_num
  have h720 : BASEDescriber.getLocationDescription ⟨720, 100⟩ false
      = some "upper-right edge of Play Area" := by
    rw [description_by_row "upper-right edge of Play Area" "right edge of Play Area"
      "lower-right edge of Play Area"
      (currentColumn_right_edge 100 (by norm_num) (by norm_num)) (by decide)
      (by norm_num) (by norm_num)]
    norm_num
  refine ⟨?_, ?_, h680, ?_, h720, ?_⟩
  · norm_num [Range.contains, PlayAreaMap.rightEdgeRange, PlayAreaMap.rightPlayAreaRange,
      PlayAreaMap.centerPlayAreaRange, PlayAreaMap.leftPlayAreaRange,
      PlayAreaMap.rightArmRange, PlayAreaMap.rightSideOfSweaterRange,
      PlayAreaMap.leftSideOfSweaterRange, PlayAreaMap.leftArmRange,
      PlayAreaMap.createNextRange]
  · norm_num [Range.contains, PlayAreaMap.rightEdgeRange, PlayAreaMap.rightPlayAreaRange,
      PlayAreaMap.centerPlayAreaRange, PlayAreaMap.leftPlayAreaRange,
      PlayAreaMap.rightArmRange, PlayAreaMap.rightSideOfSweaterRange,
      PlayAreaMap.leftSideOfSweaterRange, PlayAreaMap.leftArmRange,
      PlayAreaMap.createNextRange]
  · rw [h680]
    decide
  · rw [h720]
    decide

/-- C9 (amended): for every position whose x lies in the right-edge column band to the
right of the right-edge landmarks (`700 < x <= 1176`) and whose y lies in a row,
`getLocationDescription` with the wall visible uses the key `WALL` and returns the wall
label of the row ('upper wall' / 'wall' / 'lower wall'), and with the wall invisible uses
the key `RIGHT_EDGE` and returns the right-edge label of the row ('upper-right edge of Play
Area' / 'right edge of Play Area' / 'lower-right edge of Play Area'). -/
theorem right_edge_band_wall_or_right_edge (x y : ℚ) (hx0 : 700 < x) (hx1 : x ≤ 1176)
    (hy0 : 0 ≤ y) (hy1 : y ≤ 826) :
    BASEDescriber.describedColumn ⟨x, y⟩ true = some "WALL" ∧
    BASEDescriber.describedColumn ⟨x, y⟩ false = some "RIGHT_EDGE" ∧
    BASEDescriber.getLocationDescription ⟨x, y⟩ true
      = some (if y < 172 then "upper wall" else if y < 326 then "wall" else "lower wall") ∧
    BASEDescriber.getLocationDescription ⟨x, y⟩ false
      = some (if y < 172 then "upper-right edge of Play Area"
          else if y < 326 then "right edge of Play Area"
          else "lower-right edge of Play Area") := by
  have hcol := currentColumn_right_edge y hx0 hx1
  have hrow : (BASEDescriber.scanLocation ⟨x, y⟩).currentRow.isSome = true :=
    row_isSome y hy0 hy1
  refine ⟨?_, ?_, ?_, ?_⟩
  · rw [(getLocationDescription_of_column true hcol hrow).1]
    decide
  · rw [(getLocationDescription_of_column false hcol hrow).1]
    decide
  · exact description_by_row _ _ _ hcol (by decide) hy0 hy1
  · exact description_by_row _ _ _ hcol (by decide) hy0 hy1

/-- Witness of C9 (amended) at `(720, 100)`. -/
theorem right_edge_band_wall_or_right_edge_witness :
    (700 : ℚ) < 720 ∧ (720 : ℚ) ≤ 1176 ∧
    BASEDescriber.describedColumn ⟨720, 100⟩ true = some "WALL" ∧
    BASEDescriber.describedColumn ⟨720, 100⟩ false = some "RIGHT_EDGE" :=
  ⟨by norm_num, by norm_num,
    (right_edge_band_wall_or_right_edge 720 100 (by norm_num) (by norm_num) (by norm_num)
      (by norm_num)).1,
    (right_edge_band_wall_or_right_edge 720 100 (by norm_num) (by norm_num) (by norm_num)
      (by norm_num)).2.1⟩

/-- C10: for every position of the play area, `getLocationDescription` with the wall
invisible indexes `LOCATION_DESCRIPTION_MAP` with a key that is none of `AT_WALL`,
`AT_NEAR_WALL`, `AT_VERY_CLOSE_TO_WALL`, `WALL`, and returns none of the wall labels; the
loops classify the position into one of these keys exactly when x is in the near-wall band
or the very-close-to-wall band (586 to 620) or x is 621, and every such position is
relabelled `RIGHT_PLAY_AREA` and described as the right side of the Play Area for its
row. -/
theorem wall_not_named_when_invisible (x y : ℚ)
    (hx0 : 0 ≤ x) (hx1 : x ≤ 768) (hy0 : 0 ≤ y) (hy1 : y ≤ 504) :
    (∃ k, BASEDescriber.describedColumn ⟨x, y⟩ false = some k ∧
      BASEDescriber.inWallColumn k = false ∧
      k ≠ "AT_WALL" ∧ k ≠ "AT_NEAR_WALL" ∧ k ≠ "AT_VERY_CLOSE_TO_WALL" ∧ k ≠ "WALL") ∧
    (∃ k, (BASEDescriber.scanLocation ⟨x, y⟩).currentColumn = some k ∧
      (BASEDescriber.inWallColumn k = true ↔ ((586 ≤ x ∧ x ≤ 620) ∨ x = 621))) ∧
    (((586 ≤ x ∧ x ≤ 620) ∨ x = 621) →
      BASEDescriber.describedColumn ⟨x, y⟩ false = some "RIGHT_PLAY_AREA" ∧
      BASEDescriber.getLocationDescription ⟨x, y⟩ false
        = some (if y < 172 then "upper-right side of Play Area"
            else if y < 326 then "right side of Play Area"
            else "lower-right side of Play Area")) ∧
    BASEDescriber.getLocationDescription ⟨x, y⟩ false
      ∉ [some "upper wall", some "wall", some "lower wall"] := by
  have hy1' : y ≤ 826 := by linarith
  have hrow : (BASEDescriber.scanLocation ⟨x, y⟩).currentRow.isSome = true :=
    row_isSome y hy0 hy1'
  obtain ⟨k, hk⟩ := Option.isSome_iff_exists.1 (currentColumn_isSome x y hx0 (by linarith))
  obtain ⟨row, hr⟩ := Option.isSome_iff_exists.1 hrow
  obtain ⟨hd, hg⟩ := getLocationDescription_of_column false hk hrow
  refine ⟨⟨_, hd, relabel_invisible_not_wall k,
    ne_wall_keys_of_not_inWallColumn (relabel_invisible_not_wall k)⟩, ⟨k, hk, ?_⟩, ?_, ?_⟩
  · constructor
    · exact wall_zone_of_wall_key hk
    · intro hz
      obtain ⟨k', hk', hw⟩ := wall_key_of_wall_zone y hz
      rw [hk] at hk'
      rw [Option.some.inj hk']
      exact hw
  · intro hz
    obtain ⟨k', hk', hw⟩ := wall_key_of_wall_zone y hz
    have hrel : BASEDescriber.relabelColumn false k' = "RIGHT_PLAY_AREA" := by
      rw [relabel_invisible, if_pos hw]
    refine ⟨?_, ?_⟩
    · rw [(getLocationDescription_of_column false hk' hrow).1, hrel]
    · exact description_by_row _ _ _ hk' (by rw [hrel]; decide) hy0 hy1'
  · rw [hg, hr]
    have hrowmem : row ∈ PlayAreaMap.ROW_RANGES.map Prod.fst :=
      mem_keys_of_lastKeyContaining (by rw [← currentRow_eq]; exact hr)
    have := descriptions_without_wall_label k (currentColumn_mem_keys hk) row hrowmem
    simpa using this

/-- Witness of C10 at `(600, 200)`, in the near-wall band. -/
theorem wall_not_named_when_invisible_witness :
    (0 : ℚ) ≤ 600 ∧ (600 : ℚ) ≤ 768 ∧ (0 : ℚ) ≤ 200 ∧ (200 : ℚ) ≤ 504 ∧
    BASEDescriber.getLocationDescription ⟨600, 200⟩ false
      ∉ [some "upper wall", some "wall", some "lower wall"] :=
  ⟨by norm_num, by norm_num, by norm_num, by norm_num,
    (wall_not_named_when_invisible 600 200 (by norm_num) (by norm_num) (by norm_num)
      (by norm_num)).2.2.2⟩

/-! ## The relative charge description -/

theorem contains_false {a b v : ℚ} (h : v < a ∨ b < v) :
    Range.contains ⟨a, b⟩ v = false := by
  cases hc : Range.contains ⟨a, b⟩ v with
  | false => rfl
  | true =>
    have := contains_iff.1 hc
    rcases h with h | h <;> linarith

theorem relative_no {charge : ℚ} (h : |charge| = 0) :
    BASEDescriber.getRelativeChargeDescription charge = some "no" := by
  have h0 : Range.contains ⟨0, 0⟩ |charge| = true := contains_true (by linarith) (by linarith)
  simp [BASEDescriber.getRelativeChargeDescription,
    BASEDescriber.RELATIVE_CHARGE_DESCRIPTION_MAP, List.find?, h0, BASEA11yStrings.noString]

theorem relative_a_few {charge : ℚ} (h1 : 1 ≤ |charge|) (h2 : |charge| ≤ 15) :
    BASEDescriber.getRelativeChargeDescription charge = some "a few" := by
  have h0 : Range.contains ⟨0, 0⟩ |charge| = false := contains_false (Or.inr (by linarith))
  have h1 : Range.contains ⟨1, 15⟩ |charge| = true := contains_true h1 h2
  simp [BASEDescriber.getRelativeChargeDescription,
    BASEDescriber.RELATIVE_CHARGE_DESCRIPTION_MAP, List.find?, h0, h1,
    BASEA11yStrings.aFewString]

theorem relative_several {charge : ℚ} (h1 : 15 < |charge|) (h2 : |charge| ≤ 40) :
    BASEDescriber.getRelativeChargeDescription charge = some "several" := by
  have h0 : Range.contains ⟨0, 0⟩ |charge| = false := contains_false (Or.inr (by linarith))
  have h1' : Range.contains ⟨1, 15⟩ |charge| = false := contains_false (Or.inr h1)
  have h2' : Range.contains ⟨15, 40⟩ |charge| = true := contains_true h1.le h2
  simp [BASEDescriber.getRelativeChargeDescription,
    BASEDescriber.RELATIVE_CHARGE_DESCRIPTION_MAP, List.find?, h0, h1', h2',
    BASEA11yStrings.severalString]

theorem relative_many {charge : ℚ} (h1 : 40 < |charge|) (h2 : |charge| ≤ 57) :
    BASEDescriber.getRelativeChargeDescription charge = some "many" := by
  have h0 : Range.contains ⟨0, 0⟩ |charge| = false := contains_false (Or.inr (by linarith))
  have h1' : Range.contains ⟨1, 15⟩ |charge| = false :=
    contains_false (Or.inr (by linarith))
  have h2' : Range.contains ⟨15, 40⟩ |charge| = false := contains_false (Or.inr h1)
  have h3' : Range.contains ⟨40, 57⟩ |charge| = true := contains_true h1.le h2
  simp [BASEDescriber.getRelativeChargeDescription,
    BASEDescriber.RELATIVE_CHARGE_DESCRIPTION_MAP, List.find?, h0, h1', h2', h3',
    BASEA11yStrings.manyString]

theorem relative_none_of_gt {charge : ℚ} (h : 57 < |charge|) :
    BASEDescriber.getRelativeChargeDescription charge = none := by
  have h0 : Range.contains ⟨0, 0⟩ |charge| = false := contains_false (Or.inr (by linarith))
  have h1' : Range.contains ⟨1, 15⟩ |charge| = false :=
    contains_false (Or.inr (by linarith))
  have h2' : Range.contains ⟨15, 40⟩ |charge| = false :=
    contains_false (Or.inr (by linarith))
  have h3' : Range.contains ⟨40, 57⟩ |charge| = false := contains_false (Or.inr h)
  simp [BASEDescriber.getRelativeChargeDescription,
    BASEDescriber.RELATIVE_CHARGE_DESCRIPTION_MAP, List.find?, h0, h1', h2', h3']

theorem abs_cast_le {c : ℤ} {n : ℤ} (h : |c| ≤ n) : |(c : ℚ)| ≤ (n : ℚ) := by
  exact_mod_cast h

theorem le_abs_cast {c : ℤ} {n : ℤ} (h : n ≤ |c|) : (n : ℚ) ≤ |(c : ℚ)| := by
  exact_mod_cast h

theorem lt_abs_cast {c : ℤ} {n : ℤ} (h : n < |c|) : (n : ℚ) < |(c : ℚ)| := by
  exact_mod_cast h

/-- C11, as stated, fails at the shared ends of the ranges: magnitude 15 lies in
`Range( 1, 15 )`, which the loop reaches first, so it gives 'a few' and not 'several';
magnitude 40 lies in `Range( 15, 40 )` and gives 'several', not 'many'. -/
theorem relative_charge_shared_ends_take_the_lower_bucket :
    BASEDescriber.getRelativeChargeDescription 15 = some "a few" ∧
    BASEDescriber.getRelativeChargeDescription 15 ≠ some "several" ∧
    BASEDescriber.getRelativeChargeDescription 40 = some "several" ∧
    BASEDescriber.getRelativeChargeDescription 40 ≠ some "many" := by
  have h15 : BASEDescriber.getRelativeChargeDescription 15 = some "a few" :=
    relative_a_few (by norm_num) (by norm_num)
  have h40 : BASEDescriber.getRelativeChargeDescription 40 = some "several" :=
    relative_several (by norm_num) (by norm_num)
  refine ⟨h15, ?_, h40, ?_⟩
  · rw [h15]
    decide
  · rw [h40]
    decide

/-- C11 (amended): `getRelativeChargeDescription` buckets an integer charge magnitude into
0 / 1-15 / 16-40 / 41-57: magnitude 0 gives 'no', every magnitude from 1 to 15 gives
'a few', every magnitude from 16 to 40 gives 'several', and every magnitude from 41 to 57
(so 56) gives 'many'. -/
theorem relative_charge_buckets (c : ℤ) :
    (|c| = 0 → BASEDescriber.getRelativeChargeDescription c = some "no") ∧
    (1 ≤ |c| ∧ |c| ≤ 15 → BASEDescriber.getRelativeChargeDescription c = some "a few") ∧
    (16 ≤ |c| ∧ |c| ≤ 40 → BASEDescriber.getRelativeChargeDescription c = some "several") ∧
    (41 ≤ |c| ∧ |c| ≤ 57 → BASEDescriber.getRelativeChargeDescription c = some "many") := by
  refine ⟨?_, ?_, ?_, ?_⟩
  · intro h
    exact relative_no (by exact_mod_cast h)
  · rintro ⟨h1, h2⟩
    exact relative_a_few (le_abs_cast h1) (abs_cast_le h2)
  · rintro ⟨h1, h2⟩
    have h1' : (15 : ℤ) < |c| := by omega
    exact relative_several (lt_abs_cast h1') (abs_cast_le h2)
  · rintro ⟨h1, h2⟩
    have h1' : (40 : ℤ) < |c| := by omega
    exact relative_many (lt_abs_cast h1') (abs_cast_le h2)

/-- Witness of C11 (amended) at the charges 0, -14, 16 and 56. -/
theorem relative_charge_buckets_witness :
    BASEDescriber.getRelativeChargeDescription ((0 : ℤ) : ℚ) = some "no" ∧
    BASEDescriber.getRelativeChargeDescription ((-14 : ℤ) : ℚ) = some "a few" ∧
    BASEDescriber.getRelativeChargeDescription ((16 : ℤ) : ℚ) = some "several" ∧
    BASEDescriber.getRelativeChargeDescription ((56 : ℤ) : ℚ) = some "many" :=
  ⟨(relative_charge_buckets 0).1 (by decide),
    (relative_charge_buckets (-14)).2.1 (by decide),
    (relative_charge_buckets 16).2.2.1 (by decide),
    (relative_charge_buckets 56).2.2.2 (by decide)⟩

/-- C12: for every integer charge `c`, `getRelativeChargeDescription` finds a description
if and only if `|c| <= 57`; when `|c| > 57` no range contains `|c|`, the assertion fails
and no description (no fallback phrase) is produced. -/
theorem relative_charge_defined_iff (c : ℤ) :
    ((BASEDescriber.getRelativeChargeDescription c).isSome = true ↔ |c| ≤ 57) ∧
    (57 < |c| → BASEDescriber.getRelativeChargeDescription c = none) ∧
    (57 < |c| → ∀ entry ∈ BASEDescriber.RELATIVE_CHARGE_DESCRIPTION_MAP,
      entry.2.range.contains |(c : ℚ)| = false) := by
  have hnone : 57 < |c| → BASEDescriber.getRelativeChargeDescription c = none := by
    intro h
    exact relative_none_of_gt (lt_abs_cast h)
  refine ⟨⟨?_, ?_⟩, hnone, ?_⟩
  · intro hsome
    by_contra hgt
    rw [hnone (by omega)] at hsome
    exact absurd hsome (by simp)
  · intro hle
    have hb := relative_charge_buckets c
    have h0 : 0 ≤ |c| := abs_nonneg c
    by_cases c0 : |c| = 0
    · rw [hb.1 c0]
      rfl
    · by_cases c1 : |c| ≤ 15
      · rw [hb.2.1 ⟨by omega, c1⟩]
        rfl
      · by_cases c2 : |c| ≤ 40
        · rw [hb.2.2.1 ⟨by omega, c2⟩]
          rfl
        · rw [hb.2.2.2 ⟨by omega, hle⟩]
          rfl
  · intro h entry hentry
    have hq : (57 : ℚ) < |(c : ℚ)| := lt_abs_cast h
    simp only [BASEDescriber.RELATIVE_CHARGE_DESCRIPTION_MAP, List.mem_cons,
      List.mem_singleton, List.not_mem_nil, or_false] at hentry
    rcases hentry with rfl | rfl | rfl | rfl <;>
      exact contains_false (Or.inr (by linarith))

/-- Witness of C12 at the charges -57 and 58. -/
theorem relative_charge_defined_iff_witness :
    (BASEDescriber.getRelativeChargeDescription ((-57 : ℤ) : ℚ)).isSome = true ∧
    BASEDescriber.getRelativeChargeDescription ((58 : ℤ) : ℚ) = none :=
  ⟨(relative_charge_defined_iff (-57)).1.2 (by decide),
    (relative_charge_defined_iff 58).2.1 (by decide)⟩

/-! ## The attractive state of a balloon -/

/-- C13: `getAttractiveStateString` is a function of `touching = onSweater or
touchingWall`, of the charge and of the dragged flag alone: it returns 'sticking to' if and
only if touching, charge not 0 and not dragged; 'touching' if and only if touching and
(charge 0 or dragged); 'on' if and only if not touching; the three phrases are distinct,
so exactly one of them is returned for every balloon. -/
theorem attractive_state_selection (balloon : SummaryBalloon) :
    (SceneSummaryNode.getAttractiveStateString balloon = "sticking to" ↔
      ((balloon.onSweater || balloon.touchingWall) = true ∧ balloon.charge ≠ 0 ∧
        balloon.isDragged = false)) ∧
    (SceneSummaryNode.getAttractiveStateString balloon = "touching" ↔
      ((balloon.onSweater || balloon.touchingWall) = true ∧
        (balloon.charge = 0 ∨ balloon.isDragged = true))) ∧
    (SceneSummaryNode.getAttractiveStateString balloon = "on" ↔
      (balloon.onSweater || balloon.touchingWall) = false) ∧
    SceneSummaryNode.getAttractiveStateString balloon ∈ ["sticking to", "touching", "on"] ∧
    (∀ other : SummaryBalloon,
      (other.onSweater || other.touchingWall) = (balloon.onSweater || balloon.touchingWall) →
      other.charge = balloon.charge → other.isDragged = balloon.isDragged →
      SceneSummaryNode.getAttractiveStateString other
        = SceneSummaryNode.getAttractiveStateString balloon) := by
  have hst : ("sticking to" : String) ≠ "touching" := by decide
  have hso : ("sticking to" : String) ≠ "on" := by decide
  have hto : ("touching" : String) ≠ "on" := by decide
  refine ⟨?_, ?_, ?_, ?_, ?_⟩
  · unfold SceneSummaryNode.getAttractiveStateString
    by_cases ht : (balloon.onSweater || balloon.touchingWall) = true <;>
    by_cases hd : balloon.isDragged = true <;>
    by_cases hc : balloon.charge = 0 <;>
    simp [ht, hd, hc, SceneSummaryNode.stickingToString, SceneSummaryNode.touchingString,
      SceneSummaryNode.onString, hst.symm, hso.symm, hst, hso]
  · unfold SceneSummaryNode.getAttractiveStateString
    by_cases ht : (balloon.onSweater || balloon.touchingWall) = true <;>
    by_cases hd : balloon.isDragged = true <;>
    by_cases hc : balloon.charge = 0 <;>
    simp [ht, hd, hc, SceneSummaryNode.stickingToString, SceneSummaryNode.touchingString,
      SceneSummaryNode.onString, hst.symm, hto.symm, hst, hto]
  · unfold SceneSummaryNode.getAttractiveStateString
    by_cases ht : (balloon.onSweater || balloon.touchingWall) = true <;>
    by_cases hd : balloon.isDragged = true <;>
    by_cases hc : balloon.charge = 0 <;>
    simp [ht, hd, hc, SceneSummaryNode.stickingToString, SceneSummaryNode.touchingString,
      SceneSummaryNode.onString, hso, hto]
  · unfold SceneSummaryNode.getAttractiveStateString
    by_cases ht : (balloon.onSweater || balloon.touchingWall) = true <;>
    by_cases hd : balloon.isDragged = true <;>
    by_cases hc : balloon.charge = 0 <;>
    simp [ht, hd, hc, SceneSummaryNode.stickingToString, SceneSummaryNode.touchingString,
      SceneSummaryNode.onString]
  · intro other h1 h2 h3
    unfold SceneSummaryNode.getAttractiveStateString
    rw [h1, h2, h3]

/-! ## Lemmas on JavaScript strings -/

theorem indexOf_eq_none_iff (s pattern : List Char) :
    indexOf s pattern = none ↔ ¬ pattern <:+: s := by
  induction s with
  | nil =>
    cases pattern <;> simp [indexOf]
  | cons c s ih =>
    rw [List.infix_cons_iff, indexOf]
    by_cases hp : pattern.isPrefixOf (c :: s) = true
    · have := List.isPrefixOf_iff_prefix.1 hp
      simp [hp, this]
    · have hnp : ¬ pattern <+: c :: s := fun h => hp (List.isPrefixOf_iff_prefix.2 h)
      simp [hp, hnp, ih]

theorem indexOf_isSome_iff (s pattern : List Char) :
    (indexOf s pattern).isSome = true ↔ pattern <:+: s := by
  rw [← not_iff_not, ← indexOf_eq_none_iff]
  cases indexOf s pattern <;> simp

theorem length_replaceFirst (s pattern replacement : List Char) (h : pattern <:+: s) :
    (replaceFirst s pattern replacement).length + pattern.length
      = s.length + replacement.length := by
  induction s with
  | nil =>
    have : pattern = [] := List.infix_nil.1 h
    subst this
    simp [replaceFirst]
  | cons c s ih =>
    rw [replaceFirst]
    by_cases hp : pattern.isPrefixOf (c :: s) = true
    · have hle := (List.isPrefixOf_iff_prefix.1 hp).length_le
      simp only [hp, if_true, List.length_append, List.length_drop]
      simp only [List.length_cons] at hle ⊢
      omega
    · have hnp : ¬ pattern <+: c :: s := fun h => hp (List.isPrefixOf_iff_prefix.2 h)
      have hin : pattern <:+: s := by
        rcases List.infix_cons_iff.1 h with h | h
        · exact absurd h hnp
        · exact h
      simp only [hp, List.length_cons]
      have := ih hin
      simp only [Bool.false_eq_true, if_false, List.length_cons]
      omega

theorem replaceWhilePresent_absent (pattern replacement : List Char) (fuel : Nat)
    (s r : List Char) (h : replaceWhilePresent pattern replacement fuel s = some r) :
    ¬ pattern <:+: r := by
  induction fuel generalizing s with
  | zero =>
    rw [replaceWhilePresent] at h
    by_cases hp : (indexOf s pattern).isSome = true
    · simp [hp] at h
    · simp only [hp, Bool.false_eq_true, if_false, Option.some.injEq] at h
      subst h
      rwa [indexOf_isSome_iff] at hp
  | succ fuel ih =>
    rw [replaceWhilePresent] at h
    by_cases hp : (indexOf s pattern).isSome = true
    · simp only [hp, if_true] at h
      exact ih _ h
    · simp only [hp, Bool.false_eq_true, if_false, Option.some.injEq] at h
      subst h
      rwa [indexOf_isSome_iff] at hp

theorem replaceWhilePresent_isSome (pattern replacement : List Char)
    (hlen : replacement.length < pattern.length) (fuel : Nat) (s : List Char)
    (hfuel : s.length ≤ fuel) :
    (replaceWhilePresent pattern replacement fuel s).isSome = true := by
  induction fuel generalizing s with
  | zero =>
    rw [replaceWhilePresent]
    have hs : s = [] := List.length_eq_zero.1 (Nat.le_zero.1 hfuel)
    subst hs
    have hne : pattern ≠ [] := by
      intro h
      subst h
      simp at hlen
    cases pattern with
    | nil => exact absurd rfl hne
    | cons a p => simp [indexOf]
  | succ fuel ih =>
    rw [replaceWhilePresent]
    by_cases hp : (indexOf s pattern).isSome = true
    · simp only [hp, if_true]
      apply ih
      have := length_replaceFirst s pattern replacement ((indexOf_isSome_iff _ _).1 hp)
      omega
    · simp [hp]

theorem prefix_pair_iff (a b : Char) (s : List Char) :
    [a, b] <+: s ↔ ∃ t, s = a :: b :: t := by
  constructor
  · rintro ⟨t, rfl⟩
    exact ⟨t, rfl⟩
  · rintro ⟨t, rfl⟩
    exact ⟨t, rfl⟩

theorem head?_replaceFirst_double_space (s : List Char) :
    (replaceFirst s [' ', ' '] [' ']).head? = s.head? := by
  cases s with
  | nil => simp [replaceFirst]
  | cons c t =>
    rw [replaceFirst]
    by_cases hp : [' ', ' '].isPrefixOf (c :: t) = true
    · obtain ⟨u, hu⟩ := (prefix_pair_iff _ _ _).1 (List.isPrefixOf_iff_prefix.1 hp)
      simp only [hp, if_true]
      rw [hu]
      rfl
    · simp [hp]

/-- Collapsing the first double space does not bring a space in front of a period. -/
theorem replaceFirst_double_space_keeps_no_space_period (s : List Char)
    (h : ¬ [' ', '.'] <:+: s) : ¬ [' ', '.'] <:+: replaceFirst s [' ', ' '] [' '] := by
  induction s with
  | nil => simp [replaceFirst]
  | cons c t ih =>
    rw [List.infix_cons_iff, not_or] at h
    obtain ⟨hpre, hin⟩ := h
    rw [replaceFirst]
    by_cases hp : [' ', ' '].isPrefixOf (c :: t) = true
    · obtain ⟨u, hu⟩ := (prefix_pair_iff _ _ _).1 (List.isPrefixOf_iff_prefix.1 hp)
      simp only [hp, if_true]
      rw [hu]
      simp only [List.length_cons, List.length_nil, List.drop_succ_cons, List.drop_zero,
        List.singleton_append]
      have ht : t = ' ' :: u := by
        injection hu with _ h2
      rw [ht] at hin
      rw [List.infix_cons_iff, not_or] at hin ⊢
      exact hin
    · simp only [hp, Bool.false_eq_true, if_false]
      rw [List.infix_cons_iff, not_or]
      refine ⟨?_, ih hin⟩
      intro hpre'
      obtain ⟨v, hv⟩ := (prefix_pair_iff _ _ _).1 hpre'
      injection hv with hc hR
      have hhead : (replaceFirst t [' ', ' '] [' ']).head? = some '.' := by rw [hR]; rfl
      rw [head?_replaceFirst_double_space] at hhead
      cases t with
      | nil => simp at hhead
      | cons d w =>
        simp only [List.head?_cons, Option.some.injEq] at hhead
        apply hpre
        rw [hc, hhead]
        exact (prefix_pair_iff _ _ _).2 ⟨w, rfl⟩

theorem replaceWhilePresent_double_space_keeps_no_space_period (fuel : Nat)
    (s r : List Char) (hs : ¬ [' ', '.'] <:+: s)
    (h : replaceWhilePresent [' ', ' '] [' '] fuel s = some r) : ¬ [' ', '.'] <:+: r := by
  induction fuel generalizing s with
  | zero =>
    rw [replaceWhilePresent] at h
    by_cases hp : (indexOf s [' ', ' ']).isSome = true
    · simp [hp] at h
    · simp only [hp, Bool.false_eq_true, if_false, Option.some.injEq] at h
      subst h
      exact hs
  | succ fuel ih =>
    rw [replaceWhilePresent] at h
    by_cases hp : (indexOf s [' ', ' ']).isSome = true
    · simp only [hp, if_true] at h
      exact ih _ (replaceFirst_double_space_keeps_no_space_period s hs) h
    · simp only [hp, Bool.false_eq_true, if_false, Option.some.injEq] at h
      subst h
      exact hs

theorem removeTrailingSpace_infix (pattern s : List Char)
    (h : ¬ pattern <:+: s) : ¬ pattern <:+: BASEA11yStrings.removeTrailingSpace s := by
  unfold BASEA11yStrings.removeTrailingSpace
  split
  · intro hin
    exact h (hin.trans (List.dropLast_prefix s).isInfix)
  · exact h

theorem removeTrailingSpace_no_trailing_space (s : List Char)
    (h : ¬ [' ', ' '] <:+: s) :
    (BASEA11yStrings.removeTrailingSpace s).getLast? ≠ some ' ' := by
  unfold BASEA11yStrings.removeTrailingSpace
  split
  · rename_i hlast
    intro hlast'
    obtain ⟨d, hd⟩ := List.getLast?_eq_some_iff.1 hlast'
    have hs : s = d ++ [' ', ' '] := by
      have := List.dropLast_append_getLast? (l := s) ' ' (by rw [hlast]; rfl)
      rw [← this, hd]
      simp
    apply h
    rw [hs]
    exact ⟨d, [], by simp⟩
  · rename_i hlast
    exact hlast

/-! ## The placeholder stripper -/

/-- C14: for every pattern string and every list of placeholder names,
`stripPlaceholders` returns a string (its loops end within the iterations given) that
contains no two consecutive spaces, contains no ' .' (a space followed by a period), and
does not end with a space. -/
theorem stripPlaceholders_clean (patternString : String) (placeholders : List String) :
    ∃ result, BASEA11yStrings.stripPlaceholders patternString placeholders = some result ∧
      ¬ [' ', ' '] <:+: result.data ∧
      ¬ [' ', '.'] <:+: result.data ∧
      result.data.getLast? ≠ some ' ' := by
  unfold BASEA11yStrings.stripPlaceholders
  simp only
  generalize BASEA11yStrings.removePlaceholders patternString.data placeholders = s0
  obtain ⟨s1, h1⟩ := Option.isSome_iff_exists.1
    (replaceWhilePresent_isSome [' ', '.'] [] (by simp) s0.length s0 le_rfl)
  obtain ⟨s2, h2⟩ := Option.isSome_iff_exists.1
    (replaceWhilePresent_isSome [' ', ' '] [' '] (by simp) s1.length s1 le_rfl)
  rw [h1]
  simp only
  rw [h2]
  simp only
  have hdot1 := replaceWhilePresent_absent _ _ _ _ _ h1
  have hsp2 := replaceWhilePresent_absent _ _ _ _ _ h2
  have hdot2 := replaceWhilePresent_double_space_keeps_no_space_period _ _ _ hdot1 h2
  exact ⟨_, rfl, removeTrailingSpace_infix _ _ hsp2, removeTrailingSpace_infix _ _ hdot2,
    removeTrailingSpace_no_trailing_space _ hsp2⟩

/-! ## The description of the sweater -/

theorem relative_bucket_of_charge (c : ℤ) (h0 : 0 ≤ c) (h1 : c ≤ 57) :
    (c = 0 ∧ BASEDescriber.getRelativeChargeDescription c = some "no") ∨
    (0 < c ∧ c < 57 ∧ BASEDescriber.getRelativeChargeDescription c = some "a few") ∨
    (0 < c ∧ c < 57 ∧ BASEDescriber.getRelativeChargeDescription c = some "several") ∨
    (0 < c ∧ c < 57 ∧ BASEDescriber.getRelativeChargeDescription c = some "many") ∨
    (c = 57 ∧ BASEDescriber.getRelativeChargeDescription c = some "many") := by
  have hb := relative_charge_buckets c
  have habs : |c| = c := abs_of_nonneg h0
  rw [habs] at hb
  by_cases c0 : c = 0
  · exact Or.inl ⟨c0, hb.1 c0⟩
  · by_cases c1 : c ≤ 15
    · exact Or.inr (Or.inl ⟨by omega, by omega, hb.2.1 ⟨by omega, c1⟩⟩)
    · by_cases c2 : c ≤ 40
      · exact Or.inr (Or.inr (Or.inl ⟨by omega, by omega, hb.2.2.1 ⟨by omega, c2⟩⟩))
      · by_cases c3 : c = 57
        · exact Or.inr (Or.inr (Or.inr (Or.inr ⟨c3, hb.2.2.2 ⟨by omega, h1⟩⟩)))
        · exact Or.inr (Or.inr (Or.inr (Or.inl
            ⟨by omega, by omega, hb.2.2.2 ⟨by omega, h1⟩⟩)))

/-- C15 (divergence): with all charges shown, for every integer sweater charge `c` with
`0 <= c <= MAX_BALLOON_CHARGE`, `getSweaterDescription` returns '{{location}} Has N net
charge, R.', with N and R as the claim has them: the describer fills the key `position`,
the pattern of the string table has the placeholder `location`, so the placeholder stays
and the position sentence 'At left edge of Play Area.' is not in the result, which is
therefore not the sentence that the docstring of the function and its tests give. -/
theorem sweater_description_all_charges_keeps_placeholder (sweater : SweaterModel)
    (h0 : 0 ≤ sweater.charge) (h1 : sweater.charge ≤ BASEConstants.MAX_BALLOON_CHARGE) :
    ∃ bucket, BASEDescriber.getRelativeChargeDescription sweater.charge = some bucket ∧
      SweaterDescriber.getSweaterDescription sweater "all"
        = some ("{{location}} Has "
            ++ (if sweater.charge = 0 then "zero" else "positive")
            ++ " net charge, "
            ++ (if sweater.charge = BASEConstants.MAX_BALLOON_CHARGE then
                  "no more negative charges, only positive charges"
                else bucket ++ " more positive charges than negative charges")
            ++ ".") ∧
      SweaterDescriber.getSweaterDescription sweater "all"
        ≠ some ("At left edge of Play Area. Has "
            ++ (if sweater.charge = 0 then "zero" else "positive")
            ++ " net charge, "
            ++ (if sweater.charge = BASEConstants.MAX_BALLOON_CHARGE then
                  "no more negative charges, only positive charges"
                else bucket ++ " more positive charges than negative charges")
            ++ ".") := by
  have hmax : BASEConstants.MAX_BALLOON_CHARGE = 57 := rfl
  rw [hmax] at h1 ⊢
  rcases relative_bucket_of_charge sweater.charge h0 h1 with
    ⟨hc, hb⟩ | ⟨hpos, hlt, hb⟩ | ⟨hpos, hlt, hb⟩ | ⟨hpos, hlt, hb⟩ | ⟨hc, hb⟩
  · refine ⟨_, hb, ?_, ?_⟩ <;>
    · simp only [SweaterDescriber.getSweaterDescription, hb, hmax]
      rw [hc]
      decide
  · have hne0 : ¬ sweater.charge = 0 := by omega
    have hne : ¬ sweater.charge = 57 := by omega
    refine ⟨_, hb, ?_, ?_⟩ <;>
    · simp only [SweaterDescriber.getSweaterDescription, hb, hmax, gt_iff_lt, hpos, hne0,
        hne, if_true, if_false]
      decide
  · have hne0 : ¬ sweater.charge = 0 := by omega
    have hne : ¬ sweater.charge = 57 := by omega
    refine ⟨_, hb, ?_, ?_⟩ <;>
    · simp only [SweaterDescriber.getSweaterDescription, hb, hmax, gt_iff_lt, hpos, hne0,
        hne, if_true, if_false]
      decide
  · have hne0 : ¬ sweater.charge = 0 := by omega
    have hne : ¬ sweater.charge = 57 := by omega
    refine ⟨_, hb, ?_, ?_⟩ <;>
    · simp only [SweaterDescriber.getSweaterDescription, hb, hmax, gt_iff_lt, hpos, hne0,
        hne, if_true, if_false]
      decide
  · refine ⟨_, hb, ?_, ?_⟩ <;>
    · simp only [SweaterDescriber.getSweaterDescription, hb, hmax]
      rw [hc]
      decide

/-- Witness of C15 (divergence) at the sweater charge 30, a state of the tests: the
result starts with the placeholder, where the tests expect the position sentence. -/
theorem sweater_description_all_charges_keeps_placeholder_witness :
    (0 : ℤ) ≤ exampleChargedSweater.charge ∧
    exampleChargedSweater.charge ≤ BASEConstants.MAX_BALLOON_CHARGE ∧
    SweaterDescriber.getSweaterDescription exampleChargedSweater "all"
      = some ("{{location}} Has positive net charge, "
          ++ "several more positive charges than negative charges.") ∧
    SweaterDescriber.getSweaterDescription exampleChargedSweater "all"
      ≠ some ("At left edge of Play Area. Has positive net charge, "
          ++ "several more positive charges than negative charges.") := by
  have h0 : (0 : ℤ) ≤ exampleChargedSweater.charge := by decide
  have h1 : exampleChargedSweater.charge ≤ BASEConstants.MAX_BALLOON_CHARGE := by decide
  obtain ⟨bucket, hb, hd, _⟩ :=
    sweater_description_all_charges_keeps_placeholder exampleChargedSweater h0 h1
  have hs : BASEDescriber.getRelativeChargeDescription exampleChargedSweater.charge
      = some "several" :=
    relative_several (by norm_num [exampleChargedSweater])
      (by norm_num [exampleChargedSweater])
  rw [hs] at hb
  injection hb with hb
  subst hb
  refine ⟨h0, h1, ?_, ?_⟩
  · rw [hd]
    decide
  · rw [hd]
    decide

/-- C16 (divergence): with charge differences shown, for every integer sweater charge `c`
with `0 <= c <= MAX_BALLOON_CHARGE`, `getSweaterDescription` returns '{{location}} Has N
net charge, R.', with N and R as the claim has them: the describer fills the key
`position`, the pattern of the string table has the placeholder `location`, so the
placeholder stays and the position sentence 'At left edge of Play Area.' is not in the
result, which is therefore not the sentence that the docstring of the function and its
tests give. -/
theorem sweater_description_charge_differences_keeps_placeholder (sweater : SweaterModel)
    (h0 : 0 ≤ sweater.charge) (h1 : sweater.charge ≤ BASEConstants.MAX_BALLOON_CHARGE) :
    ∃ bucket, BASEDescriber.getRelativeChargeDescription sweater.charge = some bucket ∧
      SweaterDescriber.getSweaterDescription sweater "diff"
        = some ("{{location}} Has "
            ++ (if sweater.charge = 0 then "zero" else "positive")
            ++ " net charge, "
            ++ (if sweater.charge = 0 then "showing no charges"
                else if sweater.charge = BASEConstants.MAX_BALLOON_CHARGE then
                  "showing all positive charges"
                else "showing " ++ bucket ++ " positive charges")
            ++ ".") ∧
      SweaterDescriber.getSweaterDescription sweater "diff"
        ≠ some ("At left edge of Play Area. Has "
            ++ (if sweater.charge = 0 then "zero" else "positive")
            ++ " net charge, "
            ++ (if sweater.charge = 0 then "showing no charges"
                else if sweater.charge = BASEConstants.MAX_BALLOON_CHARGE then
                  "showing all positive charges"
                else "showing " ++ bucket ++ " positive charges")
            ++ ".") := by
  have hmax : BASEConstants.MAX_BALLOON_CHARGE = 57 := rfl
  rw [hmax] at h1 ⊢
  rcases relative_bucket_of_charge sweater.charge h0 h1 with
    ⟨hc, hb⟩ | ⟨hpos, hlt, hb⟩ | ⟨hpos, hlt, hb⟩ | ⟨hpos, hlt, hb⟩ | ⟨hc, hb⟩
  · refine ⟨_, hb, ?_, ?_⟩ <;>
    · simp only [SweaterDescriber.getSweaterDescription, hb, hmax]
      rw [hc]
      decide
  · have hne0 : ¬ sweater.charge = 0 := by omega
    have hne : ¬ sweater.charge = 57 := by omega
    refine ⟨_, hb, ?_, ?_⟩ <;>
    · simp only [SweaterDescriber.getSweaterDescription, hb, hmax, gt_iff_lt, hpos, hne0,
        hne, if_true, if_false]
      decide
  · have hne0 : ¬ sweater.charge = 0 := by omega
    have hne : ¬ sweater.charge = 57 := by omega
    refine ⟨_, hb, ?_, ?_⟩ <;>
    · simp only [SweaterDescriber.getSweaterDescription, hb, hmax, gt_iff_lt, hpos, hne0,
        hne, if_true, if_false]
      decide
  · have hne0 : ¬ sweater.charge = 0 := by omega
    have hne : ¬ sweater.charge = 57 := by omega
    refine ⟨_, hb, ?_, ?_⟩ <;>
    · simp only [SweaterDescriber.getSweaterDescription, hb, hmax, gt_iff_lt, hpos, hne0,
        hne, if_true, if_false]
      decide
  · refine ⟨_, hb, ?_, ?_⟩ <;>
    · simp only [SweaterDescriber.getSweaterDescription, hb, hmax]
      rw [hc]
      decide

/-- Witness of C16 (divergence) at the sweater charge 30, a state of the tests: the
result starts with the placeholder, where the tests expect the position sentence. -/
theorem sweater_description_charge_differences_keeps_placeholder_witness :
    (0 : ℤ) ≤ exampleChargedSweater.charge ∧
    exampleChargedSweater.charge ≤ BASEConstants.MAX_BALLOON_CHARGE ∧
    SweaterDescriber.getSweaterDescription exampleChargedSweater "diff"
      = some ("{{location}} Has positive net charge, "
          ++ "showing several positive charges.") ∧
    SweaterDescriber.getSweaterDescription exampleChargedSweater "diff"
      ≠ some ("At left edge of Play Area. Has positive net charge, "
          ++ "showing several positive charges.") := by
  have h0 : (0 : ℤ) ≤ exampleChargedSweater.charge := by decide
  have h1 : exampleChargedSweater.charge ≤ BASEConstants.MAX_BALLOON_CHARGE := by decide
  obtain ⟨bucket, hb, hd, _⟩ :=
    sweater_description_charge_differences_keeps_placeholder exampleChargedSweater h0 h1
  have hs : BASEDescriber.getRelativeChargeDescription exampleChargedSweater.charge
      = some "several" :=
    relative_several (by norm_num [exampleChargedSweater])
      (by norm_num [exampleChargedSweater])
  rw [hs] at hb
  injection hb with hb
  subst hb
  refine ⟨h0, h1, ?_, ?_⟩
  · rw [hd]
    decide
  · rw [hd]
    decide

/-- C17: when no charges are shown, `getSweaterDescription` returns exactly the position
sentence 'At left edge of Play Area.' for every sweater, whatever its charge (also a charge
for which no relative description exists): no net-charge or relative-charge clause is
added. -/
theorem sweater_description_no_charges_shown (sweater : SweaterModel) :
    SweaterDescriber.getSweaterDescription sweater "none"
      = some "At left edge of Play Area." ∧
    (∀ other : SweaterModel,
      SweaterDescriber.getSweaterDescription other "none"
        = SweaterDescriber.getSweaterDescription sweater "none") := by
  have h : ∀ s : SweaterModel,
      SweaterDescriber.getSweaterDescription s "none" = some "At left edge of Play Area." := by
    intro s
    simp only [SweaterDescriber.getSweaterDescription, if_true]
    rfl
  exact ⟨h sweater, fun other => by rw [h other, h sweater]⟩

/-! ## The wall description (`WallDescriber.getWallDescription`) -/

/-- A call of `getWallDescription` has no value, whatever the describer and the balloons:
the function has no `return` statement. -/
theorem getWallDescription_returned (describer : WallDescriber) (sqrt : ℚ → ℚ)
    (yellowBalloon greenBalloon : DescribedBalloon) :
    (describer.getWallDescription sqrt yellowBalloon greenBalloon).returned = none := by
  unfold WallDescriber.getWallDescription
  dsimp only
  split_ifs <;> rfl

/-- Without a call of `getInducedChargeDescription` (the wall is hidden, or the mode is not
'all') the description that is assembled has the net charge and the shown charges only. -/
theorem getWallDescription_not_describing (wall : WallModel) (mode : String) (sqrt : ℚ → ℚ)
    (yellowBalloon greenBalloon : DescribedBalloon)
    (h : wall.isVisible = false ∨ mode ≠ "all") :
    WallDescriber.getWallDescription ⟨wall, mode⟩ sqrt yellowBalloon greenBalloon
      = { logged := some ("At right edge of Play Area. Has zero net charge, "
            ++ (if mode = "diff" then "showing no charges"
                else "many pairs of negative and positive charges") ++ "."),
          returned := none } := by
  have hd : (wall.isVisible && decide (mode = "all")) = false := by
    rcases h with h | h
    · simp [h]
    · simp [h]
  by_cases hm : mode = "diff"
  · subst hm
    simp only [WallDescriber.getWallDescription, hd, Bool.false_and, Bool.false_eq_true,
      if_false, if_true, Option.isNone_none, Bool.or_self, WallDescriber.truthy]
    decide
  · simp only [WallDescriber.getWallDescription, hd, Bool.false_and, Bool.false_eq_true,
      if_false, hm, Option.isNone_none, Bool.or_self, WallDescriber.truthy]
    decide

theorem exampleInducingBalloon_location :
    BASEDescriber.getLocationDescription
      exampleInducingBalloon.closestChargeInWall.locationProperty.value true
      = some "upper wall" := by
  show BASEDescriber.getLocationDescription ⟨720, 100⟩ true = some "upper wall"
  rw [description_by_row "upper wall" "wall" "lower wall"
    (currentColumn_right_edge 100 (by norm_num) (by norm_num)) (by decide)
    (by norm_num) (by norm_num)]
  norm_num

theorem exampleInducingBalloon_displacement :
    exampleInducingBalloon.closestChargeInWall.getDisplacement exampleSqrt = 5 := by
  have h5 : Nat.sqrt 25 = 5 := Nat.sqrt_eq 5
  have hv : exampleInducingBalloon.closestChargeInWall.getDisplacement exampleSqrt
      = exampleSqrt 25 := by
    simp only [MovablePointChargeModel.getDisplacement, Vector2.distance,
      exampleInducingBalloon]
    norm_num
  rw [hv]
  simp [exampleSqrt, h5]

theorem exampleInducingBalloon_amount :
    WallDescriber.getInducedChargeAmountDescription exampleSqrt exampleInducingBalloon
      = some "a little bit" := by
  simp only [WallDescriber.getInducedChargeAmountDescription,
    WallDescriber.INDUCED_CHARGE_DESCRIPTION_MAP, List.foldl,
    exampleInducingBalloon_displacement]
  norm_num [Range.contains, Number.MAX_VALUE]
  rfl

theorem exampleInducingBalloon_description (label : String) (isVisible : Bool) :
    WallDescriber.getInducedChargeDescription ⟨exampleVisibleWall, "all"⟩ exampleSqrt
      { exampleInducingBalloon with isVisible := isVisible } label
      = some (StringUtils.fillIn BASEA11yStrings.inducedChargePatternString
          [ ("wallLocation", some "upper wall"), ("balloon", some label),
            ("inductionAmount", some "a little bit") ]) := by
  have hl := exampleInducingBalloon_location
  have ha := exampleInducingBalloon_amount
  simp only [WallDescriber.getInducedChargeDescription]
  simp only [exampleInducingBalloon, exampleVisibleWall,
    WallDescriber.getInducedChargeAmountDescription] at hl ha ⊢
  rw [hl]
  simp only [ha]

set_option maxRecDepth 20000

theorem example_wall_description_one_clause :
    WallDescriber.getWallDescription ⟨exampleVisibleWall, "all"⟩ exampleSqrt
        exampleInducingBalloon { exampleInducingBalloon with isVisible := false }
      = { logged := some ("At right edge of Play Area. Has zero net charge, "
            ++ "many pairs of negative and positive charges. "
            ++ "Negative charges in upper wall move away from Yellow Balloon a little bit."),
          returned := none } := by
  have hy := exampleInducingBalloon_description BASEA11yStrings.yellowBalloonLabelString true
  have hv : exampleVisibleWall.isVisible = true := rfl
  have hi : exampleInducingBalloon.inducingCharge = true := rfl
  have he : ({ exampleInducingBalloon with isVisible := true } : DescribedBalloon)
      = exampleInducingBalloon := rfl
  rw [he] at hy
  have hne : ¬ ("all" = "diff") := by decide
  simp only [WallDescriber.getWallDescription, hv, hi, hy, decide_True, Bool.and_true,
    Bool.and_false, Bool.true_and, Bool.false_eq_true, if_true, if_false, hne,
    Option.isNone_none, Option.isNone_some, Bool.or_self, WallDescriber.truthy]
  decide

theorem example_wall_description_two_clauses :
    WallDescriber.getWallDescription ⟨exampleVisibleWall, "all"⟩ exampleSqrt
        exampleInducingBalloon exampleInducingBalloon
      = { logged := some ("At right edge of Play Area. Has zero net charge, "
            ++ "many pairs of negative and positive charges. "
            ++ "Negative charges in upper wall move away from Yellow Balloon a little bit "
            ++ "Negative charges in upper wall move away from Green Balloon a little bit."),
          returned := none } := by
  have hy := exampleInducingBalloon_description BASEA11yStrings.yellowBalloonLabelString true
  have hg := exampleInducingBalloon_description BASEA11yStrings.greenBalloonLabelString true
  have hv : exampleVisibleWall.isVisible = true := rfl
  have hi : exampleInducingBalloon.inducingCharge = true := rfl
  have hb : exampleInducingBalloon.isVisible = true := rfl
  have he : ({ exampleInducingBalloon with isVisible := true } : DescribedBalloon)
      = exampleInducingBalloon := rfl
  rw [he] at hy hg
  have hne : ¬ ("all" = "diff") := by decide
  simp only [WallDescriber.getWallDescription, hv, hi, hb, hy, hg, decide_True, Bool.and_true,
    Bool.and_false, Bool.true_and, Bool.false_eq_true, if_true, if_false, hne,
    Option.isNone_none, Option.isNone_some, Bool.or_self, WallDescriber.truthy]
  decide

/-- C18 (divergence): with all charges shown and neither balloon inducing charge, for every
wall (so the wall at its default state) and wherever the balloons are, `getWallDescription`
assembles exactly 'At right edge of Play Area. Has zero net charge, many pairs of negative
and positive charges.', but that description is only passed to `console.log`: the function
has no `return` statement, so the call has no value (`undefined`) although the function is
documented with `@return {string}`. -/
theorem wall_description_all_charges_logged_not_returned (sqrt : ℚ → ℚ) (wall : WallModel)
    (yellowBalloon greenBalloon : DescribedBalloon) :
    WallDescriber.getWallDescription ⟨wall, "all"⟩ sqrt
        { yellowBalloon with inducingCharge := false }
        { greenBalloon with inducingCharge := false }
      = { logged := some ("At right edge of Play Area. Has zero net charge, "
            ++ "many pairs of negative and positive charges."),
          returned := none } ∧
    WallDescriber.getWallDescription ⟨exampleWall.reset, "all"⟩ sqrt
        { yellowBalloon with inducingCharge := false }
        { greenBalloon with inducingCharge := false }
      = { logged := some ("At right edge of Play Area. Has zero net charge, "
            ++ "many pairs of negative and positive charges."),
          returned := none } := by
  have h : ∀ w : WallModel,
      WallDescriber.getWallDescription ⟨w, "all"⟩ sqrt
        { yellowBalloon with inducingCharge := false }
        { greenBalloon with inducingCharge := false }
      = { logged := some ("At right edge of Play Area. Has zero net charge, "
            ++ "many pairs of negative and positive charges."),
          returned := none } := by
    intro w
    have hne : ¬ ("all" = "diff") := by decide
    simp only [WallDescriber.getWallDescription, Bool.and_false, Bool.false_and,
      Bool.false_eq_true, if_false, hne, Option.isNone_none, Bool.or_self,
      WallDescriber.truthy]
    decide
  exact ⟨h wall, h exampleWall.reset⟩

/-- C19 (divergence): for every wall and every state of the two balloons, (1) in the mode
'diff' `getWallDescription` assembles exactly 'At right edge of Play Area. Has zero net
charge, showing no charges.'; (2) whenever the wall is hidden or the mode is not 'all' the
assembled description is the one of two balloons that induce no charge, so the
induced-charge clause needs a visible wall and the mode 'all'; (3) a green balloon that is
not inducing charge or not visible changes nothing in the outcome; (4) with a visible wall
and the mode 'all' the clause is there: an inducing yellow balloon next to an inducing but
hidden green balloon gives the clause of the yellow balloon alone, and two visible inducing
balloons give both clauses; and (5) in every case the assembled description is only logged,
the call has no value. -/
theorem wall_description_induced_clause_logged_not_returned (sqrt : ℚ → ℚ) (wall : WallModel)
    (yellowBalloon greenBalloon : DescribedBalloon) :
    WallDescriber.getWallDescription ⟨wall, "diff"⟩ sqrt yellowBalloon greenBalloon
      = { logged := some "At right edge of Play Area. Has zero net charge, showing no charges.",
          returned := none } ∧
    (∀ mode : String, wall.isVisible = false ∨ mode ≠ "all" →
      WallDescriber.getWallDescription ⟨wall, mode⟩ sqrt yellowBalloon greenBalloon
        = WallDescriber.getWallDescription ⟨wall, mode⟩ sqrt
            { yellowBalloon with inducingCharge := false }
            { greenBalloon with inducingCharge := false }) ∧
    (∀ mode : String, greenBalloon.inducingCharge = false ∨ greenBalloon.isVisible = false →
      WallDescriber.getWallDescription ⟨wall, mode⟩ sqrt yellowBalloon greenBalloon
        = WallDescriber.getWallDescription ⟨wall, mode⟩ sqrt yellowBalloon
            { greenBalloon with inducingCharge := false }) ∧
    WallDescriber.getWallDescription ⟨exampleVisibleWall, "all"⟩ exampleSqrt
        exampleInducingBalloon { exampleInducingBalloon with isVisible := false }
      = { logged := some ("At right edge of Play Area. Has zero net charge, "
            ++ "many pairs of negative and positive charges. "
            ++ "Negative charges in upper wall move away from Yellow Balloon a little bit."),
          returned := none } ∧
    WallDescriber.getWallDescription ⟨exampleVisibleWall, "all"⟩ exampleSqrt
        exampleInducingBalloon exampleInducingBalloon
      = { logged := some ("At right edge of Play Area. Has zero net charge, "
            ++ "many pairs of negative and positive charges. "
            ++ "Negative charges in upper wall move away from Yellow Balloon a little bit "
            ++ "Negative charges in upper wall move away from Green Balloon a little bit."),
          returned := none } ∧
    (∀ mode : String,
      (WallDescriber.getWallDescription ⟨wall, mode⟩ sqrt yellowBalloon greenBalloon).returned
        = none) := by
  refine ⟨?_, ?_, ?_, example_wall_description_one_clause,
    example_wall_description_two_clauses, ?_⟩
  · rw [getWallDescription_not_describing wall "diff" sqrt yellowBalloon greenBalloon
      (Or.inr (by decide))]
    rfl
  · intro mode h
    rw [getWallDescription_not_describing wall mode sqrt yellowBalloon greenBalloon h,
      getWallDescription_not_describing wall mode sqrt _ _ h]
  · intro mode h
    have hg : (greenBalloon.inducingCharge && greenBalloon.isVisible) = false := by
      rcases h with h | h
      · simp [h]
      · simp [h]
    simp only [WallDescriber.getWallDescription, hg, Bool.and_false, Bool.false_and,
      Bool.false_eq_true, if_false]
  · intro mode
    exact getWallDescription_returned _ sqrt yellowBalloon greenBalloon

/-- C20 (divergence): in the mode 'none' `getWallDescription` has no case of its own: for
every wall and every state of the two balloons it assembles 'At right edge of Play Area. Has
zero net charge, many pairs of negative and positive charges.', which is not the position
sentence 'At right edge of Play Area.', and the call has no value. -/
theorem wall_description_no_charges_shown_keeps_charge_clause (sqrt : ℚ → ℚ)
    (wall : WallModel) (yellowBalloon greenBalloon : DescribedBalloon) :
    WallDescriber.getWallDescription ⟨wall, "none"⟩ sqrt yellowBalloon greenBalloon
      = { logged := some ("At right edge of Play Area. Has zero net charge, "
            ++ "many pairs of negative and positive charges."),
          returned := none } ∧
    (WallDescriber.getWallDescription ⟨wall, "none"⟩ sqrt yellowBalloon greenBalloon).logged
      ≠ some "At right edge of Play Area." ∧
    (WallDescriber.getWallDescription ⟨wall, "none"⟩ sqrt yellowBalloon greenBalloon).returned
      ≠ some "At right edge of Play Area." := by
  have h := getWallDescription_not_describing wall "none" sqrt yellowBalloon greenBalloon
    (Or.inr (by decide))
  rw [h]
  exact ⟨by decide, by decide, by decide⟩

/-! ## The bands of the play-area map (`PlayAreaMap.js`) -/

/-- In a table of ranges that is ordered (the max of an entry is at most the min of every
later entry) two different entries contain the same value only at an edge they share. -/
theorem shared_edge_of_ordered {table : List (String × Range)}
    (hp : table.Pairwise (fun a b => a.2.max ≤ b.2.min))
    {e1 e2 : String × Range} (h1 : e1 ∈ table) (h2 : e2 ∈ table) (hne : e1 ≠ e2) {v : ℚ}
    (hc1 : e1.2.contains v = true) (hc2 : e2.2.contains v = true) :
    (e1.2.max = v ∧ e2.2.min = v) ∨ (e2.2.max = v ∧ e1.2.min = v) := by
  have hs : table.Pairwise (fun a b => a.2.max ≤ b.2.min ∨ b.2.max ≤ a.2.min) :=
    hp.imp (fun h => Or.inl h)
  have hsym : Symmetric (fun a b : String × Range =>
      a.2.max ≤ b.2.min ∨ b.2.max ≤ a.2.min) := fun a b h => h.symm
  have hor := hs.forall hsym h1 h2 hne
  have b1 := (contains_iff (a := e1.2.min) (b := e1.2.max)).1 hc1
  have b2 := (contains_iff (a := e2.2.min) (b := e2.2.max)).1 hc2
  rcases hor with h | h
  · exact Or.inl ⟨le_antisymm (by linarith [b2.1]) b1.2, le_antisymm b2.1 (by linarith [b1.2])⟩
  · exact Or.inr ⟨le_antisymm (by linarith [b1.1]) b2.2, le_antisymm b1.1 (by linarith [b2.2])⟩

theorem COLUMN_RANGES_ordered :
    PlayAreaMap.COLUMN_RANGES.Pairwise (fun a b => a.2.max ≤ b.2.min) := by
  rw [COLUMN_RANGES_eq]
  norm_num [List.pairwise_cons]

theorem ROW_RANGES_ordered :
    PlayAreaMap.ROW_RANGES.Pairwise (fun a b => a.2.max ≤ b.2.min) := by
  rw [ROW_RANGES_eq]
  norm_num [List.pairwise_cons]

theorem landmark_key_ne {x : ℚ} {k : String}
    (h : lastKeyContaining PlayAreaMap.LANDMARK_RANGES x = some k) :
    k ≠ "RIGHT_EDGE" ∧ k ≠ "WALL" := by
  have hk := mem_keys_of_lastKeyContaining h
  have hall : ∀ k ∈ PlayAreaMap.LANDMARK_RANGES.map Prod.fst, k ≠ "RIGHT_EDGE" ∧ k ≠ "WALL" := by
    decide
  exact hall k hk

theorem getPlayAreaLandmark_eq (location : Vector2) (wallVisible : Bool) :
    PlayAreaMap.getPlayAreaLandmark location wallVisible
      = lastKeyContaining PlayAreaMap.LANDMARK_RANGES location.x := by
  unfold PlayAreaMap.getPlayAreaLandmark
  cases h : lastKeyContaining PlayAreaMap.LANDMARK_RANGES location.x with
  | none => simp
  | some k =>
    have hk := (landmark_key_ne h).1
    simp [hk]

/-- C26, as stated, fails: `Range.contains` includes both ends and every band starts at the
max of the previous one, so `x = 138` is contained in the two different column ranges
`LEFT_ARM` and `LEFT_SIDE_OF_SWEATER`, and `y = 172` in the two different row ranges
`UPPER_PLAY_AREA` and `CENTER_PLAY_AREA`. -/
theorem adjacent_bands_share_their_edge :
    ("LEFT_ARM", PlayAreaMap.leftArmRange) ∈ PlayAreaMap.COLUMN_RANGES ∧
    ("LEFT_SIDE_OF_SWEATER", PlayAreaMap.leftSideOfSweaterRange) ∈ PlayAreaMap.COLUMN_RANGES ∧
    PlayAreaMap.leftArmRange.contains 138 = true ∧
    PlayAreaMap.leftSideOfSweaterRange.contains 138 = true ∧
    ("UPPER_PLAY_AREA", PlayAreaMap.upperPlayAreaRange) ∈ PlayAreaMap.ROW_RANGES ∧
    ("CENTER_PLAY_AREA", PlayAreaMap.centerPlayAreaRowRange) ∈ PlayAreaMap.ROW_RANGES ∧
    PlayAreaMap.upperPlayAreaRange.contains 172 = true ∧
    PlayAreaMap.centerPlayAreaRowRange.contains 172 = true := by
  refine ⟨by simp [PlayAreaMap.COLUMN_RANGES], by simp [PlayAreaMap.COLUMN_RANGES], ?_, ?_,
    by simp [PlayAreaMap.ROW_RANGES], by simp [PlayAreaMap.ROW_RANGES], ?_, ?_⟩ <;>
  norm_num [Range.contains, PlayAreaMap.leftArmRange, PlayAreaMap.leftSideOfSweaterRange,
    PlayAreaMap.upperPlayAreaRange, PlayAreaMap.centerPlayAreaRowRange,
    PlayAreaMap.createNextRange]

/-- C26 (amended): the bands of `COLUMN_RANGES` and of `ROW_RANGES` are ordered (the max of
a band is at most the min of every later band, and equal to the min of the next one), and
two different bands of `table`, one of the two tables, contain the same coordinate `v` only
if `v` is an edge the two share: the max of one and the min of the other. -/
theorem bands_overlap_only_at_shared_edges (table : List (String × Range))
    (htable : table = PlayAreaMap.COLUMN_RANGES ∨ table = PlayAreaMap.ROW_RANGES)
    (e1 e2 : String × Range) (h1 : e1 ∈ table) (h2 : e2 ∈ table) (hne : e1 ≠ e2) (v : ℚ)
    (hc1 : e1.2.contains v = true) (hc2 : e2.2.contains v = true) :
    table.Pairwise (fun a b => a.2.max ≤ b.2.min) ∧
    table.Chain' (fun a b => a.2.max = b.2.min) ∧
    ((e1.2.max = v ∧ e2.2.min = v) ∨ (e2.2.max = v ∧ e1.2.min = v)) ∧
    (table = PlayAreaMap.COLUMN_RANGES → v ∈ [138, 203, 270, 335, 467, 544, 676]) ∧
    (table = PlayAreaMap.ROW_RANGES → v ∈ [172, 326]) := by
  have hp : table.Pairwise (fun a b => a.2.max ≤ b.2.min) := by
    rcases htable with h | h
    · rw [h]; exact COLUMN_RANGES_ordered
    · rw [h]; exact ROW_RANGES_ordered
  have hch : table.Chain' (fun a b => a.2.max = b.2.min) := by
    rcases htable with h | h
    · rw [h, COLUMN_RANGES_eq]; norm_num [List.Chain']
    · rw [h, ROW_RANGES_eq]; norm_num [List.Chain']
  have hedge := shared_edge_of_ordered hp h1 h2 hne hc1 hc2
  refine ⟨hp, hch, hedge, ?_, ?_⟩
  · intro h
    subst h
    rw [COLUMN_RANGES_eq] at h1 h2
    simp only [List.mem_cons, List.mem_singleton, List.not_mem_nil, or_false] at h1 h2
    rcases hedge with ⟨ha, hb⟩ | ⟨ha, hb⟩
    · rcases h1 with rfl | rfl | rfl | rfl | rfl | rfl | rfl | rfl <;>
      rcases h2 with rfl | rfl | rfl | rfl | rfl | rfl | rfl | rfl <;>
      simp only [] at ha hb <;> subst ha <;> norm_num at hb ⊢
    · rcases h1 with rfl | rfl | rfl | rfl | rfl | rfl | rfl | rfl <;>
      rcases h2 with rfl | rfl | rfl | rfl | rfl | rfl | rfl | rfl <;>
      simp only [] at ha hb <;> subst ha <;> norm_num at hb ⊢
  · intro h
    subst h
    rw [ROW_RANGES_eq] at h1 h2
    simp only [List.mem_cons, List.mem_singleton, List.not_mem_nil, or_false] at h1 h2
    rcases hedge with ⟨ha, hb⟩ | ⟨ha, hb⟩
    · rcases h1 with rfl | rfl | rfl <;> rcases h2 with rfl | rfl | rfl <;>
      simp only [] at ha hb <;> subst ha <;> norm_num at hb ⊢
    · rcases h1 with rfl | rfl | rfl <;> rcases h2 with rfl | rfl | rfl <;>
      simp only [] at ha hb <;> subst ha <;> norm_num at hb ⊢

/-- Witness of C26 (amended): the column bands `LEFT_ARM` and `LEFT_SIDE_OF_SWEATER` at
their shared edge `x = 138`. -/
theorem bands_overlap_only_at_shared_edges_witness :
    (("LEFT_ARM", (⟨0, 138⟩ : Range)) ∈ PlayAreaMap.COLUMN_RANGES ∧
      ("LEFT_SIDE_OF_SWEATER", (⟨138, 203⟩ : Range)) ∈ PlayAreaMap.COLUMN_RANGES ∧
      Range.contains ⟨0, 138⟩ 138 = true ∧ Range.contains ⟨138, 203⟩ 138 = true) ∧
    (PlayAreaMap.COLUMN_RANGES.Pairwise (fun a b => a.2.max ≤ b.2.min) ∧
      PlayAreaMap.COLUMN_RANGES.Chain' (fun a b => a.2.max = b.2.min) ∧
      (((138 : ℚ) = 138 ∧ (138 : ℚ) = 138) ∨ ((203 : ℚ) = 138 ∧ (0 : ℚ) = 138)) ∧
      (PlayAreaMap.COLUMN_RANGES = PlayAreaMap.COLUMN_RANGES →
        (138 : ℚ) ∈ [138, 203, 270, 335, 467, 544, 676]) ∧
      (PlayAreaMap.COLUMN_RANGES = PlayAreaMap.ROW_RANGES → (138 : ℚ) ∈ [172, 326])) :=
  have h1 : ("LEFT_ARM", (⟨0, 138⟩ : Range)) ∈ PlayAreaMap.COLUMN_RANGES := by
    rw [COLUMN_RANGES_eq]; simp
  have h2 : ("LEFT_SIDE_OF_SWEATER", (⟨138, 203⟩ : Range)) ∈ PlayAreaMap.COLUMN_RANGES := by
    rw [COLUMN_RANGES_eq]; simp
  have c1 : Range.contains ⟨0, 138⟩ 138 = true := contains_true (by norm_num) (by norm_num)
  have c2 : Range.contains ⟨138, 203⟩ 138 = true := contains_true (by norm_num) (by norm_num)
  ⟨⟨h1, h2, c1, c2⟩,
    bands_overlap_only_at_shared_edges PlayAreaMap.COLUMN_RANGES (Or.inl rfl)
      ("LEFT_ARM", ⟨0, 138⟩) ("LEFT_SIDE_OF_SWEATER", ⟨138, 203⟩) h1 h2 (by decide) 138 c1 c2⟩

/-- C27, as stated, fails: the landmark range `AT_VERY_CLOSE_TO_WALL` is `[606, 620]`, of
width 14 and not 20; the landmark range `AT_VERY_CLOSE_TO_SWEATER`, `[363, 383]`, has the
center 373, which is no value of `X_LOCATIONS`; and the critical x-coordinate `AT_WALL`,
621, has no landmark range: no range of `LANDMARK_RANGES` is `[611, 631]`. -/
theorem landmark_ranges_are_not_all_centered_bands :
    ("AT_VERY_CLOSE_TO_WALL", (⟨606, 620⟩ : Range)) ∈ PlayAreaMap.LANDMARK_RANGES ∧
    (620 : ℚ) - 606 ≠ PlayAreaMap.LANDMARK_WIDTH ∧
    ("AT_VERY_CLOSE_TO_SWEATER", (⟨363, 383⟩ : Range)) ∈ PlayAreaMap.LANDMARK_RANGES ∧
    (∀ e ∈ PlayAreaMap.X_LOCATIONS,
      PlayAreaMap.createLandmarkRange e.2 ≠ ⟨363, 383⟩) ∧
    ("AT_WALL", (621 : ℚ)) ∈ PlayAreaMap.X_LOCATIONS ∧
    (∀ e ∈ PlayAreaMap.LANDMARK_RANGES, e.2 ≠ PlayAreaMap.createLandmarkRange 621) := by
  refine ⟨?_, ?_, ?_, ?_, ?_, ?_⟩
  · rw [LANDMARK_RANGES_eq]; simp
  · norm_num [PlayAreaMap.LANDMARK_WIDTH]
  · rw [LANDMARK_RANGES_eq]; simp
  · intro e he
    rcases location_values (k := e.1) (x := e.2) he with h | h | h | h | h <;>
    · rw [h.2]
      norm_num [PlayAreaMap.createLandmarkRange, PlayAreaMap.HALF_LANDMARK_WIDTH,
        PlayAreaMap.LANDMARK_WIDTH]
  · norm_num [PlayAreaMap.X_LOCATIONS, PlayAreaMap.X_LOCATIONS.AT_WALL]
  · rw [LANDMARK_RANGES_eq]
    norm_num [PlayAreaMap.createLandmarkRange, PlayAreaMap.HALF_LANDMARK_WIDTH,
      PlayAreaMap.LANDMARK_WIDTH]

/-- C27 (amended): the four landmark ranges `AT_NEAR_SWEATER`, `AT_CENTER_PLAY_AREA`,
`AT_NEAR_WALL` and `AT_NEAR_RIGHT_EDGE` are the ranges `[c - 10, c + 10]`, of width 20,
around the critical x-coordinate `c` that `X_LOCATIONS` has under the same key; the other
three landmark ranges are `[363, 383]`, `[606, 620]` and `[686, 700]`, of widths 20, 14 and
14, each starting or ending where one of the four ends or starts; and a critical
x-coordinate of `X_LOCATIONS` has its range `[c - 10, c + 10]` in `LANDMARK_RANGES` if and
only if its key is not `AT_WALL`. -/
theorem landmark_ranges_centered_or_adjoining :
    PlayAreaMap.LANDMARK_RANGES.map Prod.fst
      = [ "AT_NEAR_SWEATER", "AT_CENTER_PLAY_AREA", "AT_NEAR_WALL", "AT_NEAR_RIGHT_EDGE",
          "AT_VERY_CLOSE_TO_SWEATER", "AT_VERY_CLOSE_TO_WALL",
          "AT_VERY_CLOSE_TO_RIGHT_EDGE" ] ∧
    (∀ k ∈ ["AT_NEAR_SWEATER", "AT_CENTER_PLAY_AREA", "AT_NEAR_WALL", "AT_NEAR_RIGHT_EDGE"],
      ∃ c r, (k, c) ∈ PlayAreaMap.X_LOCATIONS ∧ (k, r) ∈ PlayAreaMap.LANDMARK_RANGES ∧
        r = ⟨c - 10, c + 10⟩ ∧ r.max - r.min = 20) ∧
    ("AT_VERY_CLOSE_TO_SWEATER", (⟨363, 383⟩ : Range)) ∈ PlayAreaMap.LANDMARK_RANGES ∧
    ("AT_VERY_CLOSE_TO_WALL", (⟨606, 620⟩ : Range)) ∈ PlayAreaMap.LANDMARK_RANGES ∧
    ("AT_VERY_CLOSE_TO_RIGHT_EDGE", (⟨686, 700⟩ : Range)) ∈ PlayAreaMap.LANDMARK_RANGES ∧
    PlayAreaMap.atVeryCloseToSweaterRange.max = PlayAreaMap.atNearSweaterRange.min ∧
    PlayAreaMap.atVeryCloseToWallRange.min = PlayAreaMap.atNearWallRange.max ∧
    PlayAreaMap.atVeryCloseToRightEdgeRange.min = PlayAreaMap.atNearRightEdgeRange.max ∧
    (∀ e ∈ PlayAreaMap.X_LOCATIONS,
      (∃ l ∈ PlayAreaMap.LANDMARK_RANGES, l.2 = ⟨e.2 - 10, e.2 + 10⟩) ↔ e.1 ≠ "AT_WALL") := by
  have hx : PlayAreaMap.X_LOCATIONS =
      [ ("AT_NEAR_SWEATER", 393), ("AT_CENTER_PLAY_AREA", 507), ("AT_NEAR_WALL", 596),
        ("AT_WALL", 621), ("AT_NEAR_RIGHT_EDGE", 676) ] := rfl
  refine ⟨by decide, ?_, ?_, ?_, ?_, rfl, rfl, rfl, ?_⟩
  · rw [LANDMARK_RANGES_eq, hx]
    intro k hk
    simp only [List.mem_cons, List.mem_singleton, List.not_mem_nil, or_false] at hk
    rcases hk with rfl | rfl | rfl | rfl
    · exact ⟨393, ⟨383, 403⟩, by simp, by simp, by norm_num, by norm_num⟩
    · exact ⟨507, ⟨497, 517⟩, by simp, by simp, by norm_num, by norm_num⟩
    · exact ⟨596, ⟨586, 606⟩, by simp, by simp, by norm_num, by norm_num⟩
    · exact ⟨676, ⟨666, 686⟩, by simp, by simp, by norm_num, by norm_num⟩
  · rw [LANDMARK_RANGES_eq]; simp
  · rw [LANDMARK_RANGES_eq]; simp
  · rw [LANDMARK_RANGES_eq]; simp
  · rw [LANDMARK_RANGES_eq, hx]
    intro e he
    simp only [List.mem_cons, List.mem_singleton, List.not_mem_nil, or_false] at he
    rcases he with rfl | rfl | rfl | rfl | rfl <;> norm_num <;> decide

/-- C28: a position exactly on the edge shared by two adjacent column bands (x = 138, 203,
270, 335, 467, 544, 676) is put by `getPlayAreaColumn`, wall invisible, in the right-hand
band, the later one of `COLUMN_RANGES`; a position exactly on a shared row edge (y = 172,
326) is put by `getPlayAreaRow` in the lower, later row; and the outer edges x = 0 and
y = 0 are put in the first band. The other coordinate plays no part. -/
theorem boundary_positions_resolve_to_the_later_band (x y : ℚ) :
    PlayAreaMap.getPlayAreaColumn ⟨138, y⟩ false = some "LEFT_SIDE_OF_SWEATER" ∧
    PlayAreaMap.getPlayAreaColumn ⟨203, y⟩ false = some "RIGHT_SIDE_OF_SWEATER" ∧
    PlayAreaMap.getPlayAreaColumn ⟨270, y⟩ false = some "RIGHT_ARM" ∧
    PlayAreaMap.getPlayAreaColumn ⟨335, y⟩ false = some "LEFT_PLAY_AREA" ∧
    PlayAreaMap.getPlayAreaColumn ⟨467, y⟩ false = some "CENTER_PLAY_AREA" ∧
    PlayAreaMap.getPlayAreaColumn ⟨544, y⟩ false = some "RIGHT_PLAY_AREA" ∧
    PlayAreaMap.getPlayAreaColumn ⟨676, y⟩ false = some "RIGHT_EDGE" ∧
    PlayAreaMap.getPlayAreaColumn ⟨0, y⟩ false = some "LEFT_ARM" ∧
    PlayAreaMap.getPlayAreaRow ⟨x, 172⟩ = some "CENTER_PLAY_AREA" ∧
    PlayAreaMap.getPlayAreaRow ⟨x, 326⟩ = some "LOWER_PLAY_AREA" ∧
    PlayAreaMap.getPlayAreaRow ⟨x, 0⟩ = some "UPPER_PLAY_AREA" ∧
    PlayAreaMap.COLUMN_RANGES.map (fun e => e.2.max)
      = [138, 203, 270, 335, 467, 544, 676, 1176] ∧
    PlayAreaMap.COLUMN_RANGES.map (fun e => e.2.min)
      = [0, 138, 203, 270, 335, 467, 544, 676] ∧
    PlayAreaMap.ROW_RANGES.map (fun e => e.2.max) = [172, 326, 826] ∧
    PlayAreaMap.ROW_RANGES.map (fun e => e.2.min) = [0, 172, 326] := by
  refine ⟨?_, ?_, ?_, ?_, ?_, ?_, ?_, ?_, ?_, ?_, ?_, ?_, ?_, ?_, ?_⟩
  all_goals first
    | (rw [COLUMN_RANGES_eq]; rfl)
    | (rw [ROW_RANGES_eq]; rfl)
    | norm_num [PlayAreaMap.getPlayAreaColumn, PlayAreaMap.getPlayAreaRow, lastKeyContaining,
        COLUMN_RANGES_eq, ROW_RANGES_eq, Range.contains]

/-- C29: for every location `getPlayAreaLandmark` gives the same result with the wall
visible and with the wall invisible, the result is never `WALL` (no key of
`LANDMARK_RANGES` is `RIGHT_EDGE`, so the relabelling statement never fires), and the
result is not `null` exactly when `inLandmarkColumn( location )` is true. -/
theorem landmark_ignores_wall_visibility (location : Vector2) :
    PlayAreaMap.getPlayAreaLandmark location true
      = PlayAreaMap.getPlayAreaLandmark location false ∧
    (∀ wallVisible : Bool,
      PlayAreaMap.getPlayAreaLandmark location wallVisible ≠ some "WALL") ∧
    (∀ wallVisible : Bool,
      (PlayAreaMap.getPlayAreaLandmark location wallVisible).isSome
        = PlayAreaMap.inLandmarkColumn location) := by
  refine ⟨by rw [getPlayAreaLandmark_eq, getPlayAreaLandmark_eq], ?_, ?_⟩
  · intro wallVisible h
    rw [getPlayAreaLandmark_eq] at h
    exact (landmark_key_ne h).2 rfl
  · intro wallVisible
    rw [getPlayAreaLandmark_eq]
    cases hin : PlayAreaMap.inLandmarkColumn location with
    | true =>
      obtain ⟨e, he, hc⟩ := List.any_eq_true.1 hin
      exact lastKeyContaining_isSome e he hc
    | false =>
      cases hl : lastKeyContaining PlayAreaMap.LANDMARK_RANGES location.x with
      | none => rfl
      | some k =>
        obtain ⟨r, hr, hc⟩ := lastKeyContaining_some hl
        have : PlayAreaMap.inLandmarkColumn location = true :=
          List.any_eq_true.2 ⟨(k, r), hr, hc⟩
        rw [hin] at this
        exact absurd this (by simp)

/-! ## The bands of the induced charge (`WallDescriber.getInducedChargeAmountDescription`) -/

theorem exampleSqrt_100 : exampleSqrt 100 = 10 := by
  have h : Nat.sqrt 100 = 10 := Nat.sqrt_eq 10
  simp [exampleSqrt, h]

theorem exampleBalloonAtBandEdge_displacement :
    exampleBalloonAtBandEdge.closestChargeInWall.getDisplacement exampleSqrt = 10 := by
  have hv : exampleBalloonAtBandEdge.closestChargeInWall.getDisplacement exampleSqrt
      = exampleSqrt 100 := by
    simp only [MovablePointChargeModel.getDisplacement, Vector2.distance,
      exampleBalloonAtBandEdge]
    norm_num
  rw [hv, exampleSqrt_100]

/-- C21: for every balloon whose closest wall charge has a displacement `d` with
`0 <= d` (and `d <= Number.MAX_VALUE`, as every finite number),
`getInducedChargeAmountDescription` returns 'a little bit' if `d < 10`, 'a lot' if
`10 <= d < 20` and 'quite a lot' if `20 <= d`: the edges 10 and 20, which two ranges share,
go to the larger band because the loop keeps the last match, and the result is never
`undefined`. -/
theorem induced_charge_amount_bands (sqrt : ℚ → ℚ) (balloon : DescribedBalloon)
    (h0 : 0 ≤ balloon.closestChargeInWall.getDisplacement sqrt)
    (h1 : balloon.closestChargeInWall.getDisplacement sqrt ≤ Number.MAX_VALUE) :
    WallDescriber.getInducedChargeAmountDescription sqrt balloon
      = some (if balloon.closestChargeInWall.getDisplacement sqrt < 10 then "a little bit"
          else if balloon.closestChargeInWall.getDisplacement sqrt < 20 then "a lot"
          else "quite a lot") := by
  simp only [WallDescriber.getInducedChargeAmountDescription,
    WallDescriber.INDUCED_CHARGE_DESCRIPTION_MAP, List.foldl]
  generalize balloon.closestChargeInWall.getDisplacement sqrt = d at h0 h1 ⊢
  by_cases h10 : d < 10
  · rw [if_neg, if_neg, if_pos (contains_true h0 h10.le), if_pos h10]
    · rfl
    · rw [Bool.not_eq_true]; exact contains_false (Or.inl h10)
    · rw [Bool.not_eq_true]; exact contains_false (Or.inl (by linarith))
  · have h10' : 10 ≤ d := not_lt.1 h10
    by_cases h20 : d < 20
    · rw [if_neg, if_pos (contains_true h10' h20.le), if_neg h10, if_pos h20]
      · rfl
      · rw [Bool.not_eq_true]; exact contains_false (Or.inl h20)
    · have h20' : 20 ≤ d := not_lt.1 h20
      rw [if_pos (contains_true h20' h1), if_neg h10, if_neg h20]
      rfl

/-- Witness of C21 at a displacement of exactly 10, the edge shared by the first two
bands: the description is 'a lot'. -/
theorem induced_charge_amount_bands_witness :
    (0 : ℚ) ≤ exampleBalloonAtBandEdge.closestChargeInWall.getDisplacement exampleSqrt ∧
    exampleBalloonAtBandEdge.closestChargeInWall.getDisplacement exampleSqrt
      ≤ Number.MAX_VALUE ∧
    WallDescriber.getInducedChargeAmountDescription exampleSqrt exampleBalloonAtBandEdge
      = some "a lot" := by
  have hd := exampleBalloonAtBandEdge_displacement
  have h0 : (0 : ℚ)
      ≤ exampleBalloonAtBandEdge.closestChargeInWall.getDisplacement exampleSqrt := by
    rw [hd]; norm_num
  have h1 : exampleBalloonAtBandEdge.closestChargeInWall.getDisplacement exampleSqrt
      ≤ Number.MAX_VALUE := by
    rw [hd]; norm_num [Number.MAX_VALUE]
  refine ⟨h0, h1, ?_⟩
  rw [induced_charge_amount_bands exampleSqrt exampleBalloonAtBandEdge h0 h1, hd]
  norm_num

/-! ## The grid of charges of the wall (`WallModel.js`) -/

theorem roundSymmetric_bounds (value : ℚ) :
    value - 1 / 2 ≤ Utils.roundSymmetric value ∧ Utils.roundSymmetric value ≤ value + 1 / 2 := by
  have hf1 : ((⌊|value| + 1 / 2⌋ : ℤ) : ℚ) ≤ |value| + 1 / 2 := Int.floor_le _
  have hf2 : |value| + 1 / 2 < ((⌊|value| + 1 / 2⌋ : ℤ) : ℚ) + 1 := Int.lt_floor_add_one _
  unfold Utils.roundSymmetric
  by_cases h : value < 0
  · rw [if_pos h]
    rw [abs_of_neg h] at hf1 hf2
    rw [abs_of_neg h]
    constructor <;> linarith
  · rw [if_neg h]
    have h' : 0 ≤ value := not_lt.1 h
    rw [abs_of_nonneg h'] at hf1 hf2
    rw [abs_of_nonneg h']
    constructor <;> linarith

theorem new_dx (x width height : ℚ) :
    (WallModel.new x width height).dx = Utils.roundSymmetric (width / 3 + 2) := by
  simp [WallModel.new]

theorem new_dy (x width height : ℚ) : (WallModel.new x width height).dy = height / 18 := by
  simp [WallModel.new]

theorem calculatePosition_fst (w : WallModel) (i k : Nat) :
    (w.calculatePosition i k).1 = i * w.dx + PointChargeModel.RADIUS + 1 := rfl

theorem calculatePosition_snd (w : WallModel) (i k : Nat) :
    (w.calculatePosition i k).2 = k * w.dy + (if i % 2 = 0 then w.dy / 2 else 1) := rfl

/-- Method `calculatePosition` is injective on all pairs of indices as soon as the two
spacings `dx` and `dy` are not zero. -/
theorem calculatePosition_injective (w : WallModel) (hdx : w.dx ≠ 0) (hdy : w.dy ≠ 0)
    {i k i2 k2 : Nat} (h : w.calculatePosition i k = w.calculatePosition i2 k2) :
    i = i2 ∧ k = k2 := by
  have h1 := congrArg Prod.fst h
  have h2 := congrArg Prod.snd h
  rw [calculatePosition_fst, calculatePosition_fst] at h1
  rw [calculatePosition_snd, calculatePosition_snd] at h2
  have hi : (i : ℚ) = i2 := by
    have : ((i : ℚ) - i2) * w.dx = 0 := by linarith
    rcases mul_eq_zero.1 this with h0 | h0
    · linarith
    · exact absurd h0 hdx
  have hi' : i = i2 := by exact_mod_cast hi
  subst hi'
  have hk : (k : ℚ) = k2 := by
    have : ((k : ℚ) - k2) * w.dy = 0 := by linarith
    rcases mul_eq_zero.1 this with h0 | h0
    · linarith
    · exact absurd h0 hdy
  exact ⟨rfl, by exact_mod_cast hk⟩

/-- C24, as stated, fails: for the wall of width 80 the x distance of adjacent columns is
`dx = roundSymmetric( 80 / 3 + 2 ) = 29`, not `80 / 3`. -/
theorem grid_column_spacing_is_not_width_over_columns :
    ((WallModel.new 688 80 504).calculatePosition 1 0).1
        - ((WallModel.new 688 80 504).calculatePosition 0 0).1 = 29 ∧
    ((WallModel.new 688 80 504).calculatePosition 1 0).1
        - ((WallModel.new 688 80 504).calculatePosition 0 0).1
      ≠ (WallModel.new 688 80 504).width / (WallModel.new 688 80 504).numX := by
  have hdx : (WallModel.new 688 80 504).dx = 29 := by
    rw [new_dx]
    have habs : |(80 : ℚ) / 3 + 2| = 86 / 3 := by
      rw [abs_of_nonneg (by norm_num)]; norm_num
    have hfl : ⌊(86 : ℚ) / 3 + 1 / 2⌋ = 29 := by
      rw [Int.floor_eq_iff]; norm_num
    simp only [Utils.roundSymmetric, habs, hfl]
    norm_num
  have hw : (WallModel.new 688 80 504).width = 80 := rfl
  have hn : (WallModel.new 688 80 504).numX = 3 := rfl
  rw [calculatePosition_fst, calculatePosition_fst, hdx, hw, hn]
  norm_num

/-- C24 (amended): for every wall `WallModel( x, width, height )` and all indices,
adjacent columns have an x distance of exactly
`dx = Utils.roundSymmetric( width / numX + 2 )`, which lies between `width / 3 + 3 / 2` and
`width / 3 + 5 / 2`, and adjacent rows of the same column have a y distance of exactly
`height / numY = height / 18`. -/
theorem grid_spacing (x width height : ℚ) (i k : Nat) :
    ((WallModel.new x width height).calculatePosition (i + 1) k).1
        - ((WallModel.new x width height).calculatePosition i k).1
      = Utils.roundSymmetric (width / 3 + 2) ∧
    width / 3 + 3 / 2 ≤ Utils.roundSymmetric (width / 3 + 2) ∧
    Utils.roundSymmetric (width / 3 + 2) ≤ width / 3 + 5 / 2 ∧
    ((WallModel.new x width height).calculatePosition i (k + 1)).2
        - ((WallModel.new x width height).calculatePosition i k).2
      = height / 18 := by
  have hb := roundSymmetric_bounds (width / 3 + 2)
  refine ⟨?_, by linarith [hb.1], by linarith [hb.2], ?_⟩
  · rw [calculatePosition_fst, calculatePosition_fst, new_dx]
    push_cast
    ring
  · rw [calculatePosition_snd, calculatePosition_snd, new_dy]
    push_cast
    ring

theorem new_minusCharges_initial (x width height : ℚ) :
    (WallModel.new x width height).minusCharges.map (fun c => c.locationProperty.initialValue)
      = (List.product (List.range 3) (List.range 18)).map (fun p =>
          (⟨x + ((WallModel.new x width height).calculatePosition p.1 p.2).1
              - PointChargeModel.RADIUS,
            ((WallModel.new x width height).calculatePosition p.1 p.2).2
              - PointChargeModel.RADIUS⟩ : Vector2)) := by
  simp only [WallModel.new, List.product, List.map_flatMap, List.map_map]
  rfl

theorem new_minusCharges_default (x width height : ℚ) :
    (WallModel.new x width height).minusCharges.map (fun c => c.defaultLocation)
      = (WallModel.new x width height).minusCharges.map
          (fun c => c.locationProperty.initialValue) := by
  simp only [WallModel.new, List.map_flatMap, List.map_map]
  rfl

theorem new_plusCharges_default (x width height : ℚ) :
    (WallModel.new x width height).plusCharges.map (fun c => c.defaultLocation)
      = (List.product (List.range 3) (List.range 18)).map (fun p =>
          (⟨x + ((WallModel.new x width height).calculatePosition p.1 p.2).1,
            ((WallModel.new x width height).calculatePosition p.1 p.2).2⟩ : Vector2)) := by
  simp only [WallModel.new, List.product, List.map_flatMap, List.map_map]
  rfl

theorem nodup_grid : (List.product (List.range 3) (List.range 18)).Nodup :=
  List.Nodup.product (List.nodup_range 3) (List.nodup_range 18)

/-- C25: for every wall `WallModel( x, width, height )` with `width >= 0` and
`height > 0`, `calculatePosition` is injective on all pairs of indices (so on the grid
`i < 3`, `k < 18`); the constructor creates 54 minus charges and 54 plus charges; the
default positions of the minus charges (the initial values of their properties, equal to
their `defaultLocation`) are pairwise distinct, those of the plus charges as well; and
the default position of each minus charge is that of the plus charge created with it,
less the charge radius in x and in y. -/
theorem wall_default_positions_are_distinct (x width height : ℚ) (hw : 0 ≤ width)
    (hh : 0 < height) :
    (∀ i k i2 k2 : Nat,
      (WallModel.new x width height).calculatePosition i k
        = (WallModel.new x width height).calculatePosition i2 k2 → i = i2 ∧ k = k2) ∧
    (WallModel.new x width height).minusCharges.length = 54 ∧
    (WallModel.new x width height).plusCharges.length = 54 ∧
    ((WallModel.new x width height).minusCharges.map
      (fun c => c.locationProperty.initialValue)).Nodup ∧
    ((WallModel.new x width height).minusCharges.map (fun c => c.defaultLocation)).Nodup ∧
    ((WallModel.new x width height).plusCharges.map (fun c => c.defaultLocation)).Nodup ∧
    (WallModel.new x width height).minusCharges.map (fun c => c.defaultLocation)
      = (WallModel.new x width height).plusCharges.map (fun c =>
          (⟨c.defaultLocation.x - PointChargeModel.RADIUS,
            c.defaultLocation.y - PointChargeModel.RADIUS⟩ : Vector2)) := by
  have hb := roundSymmetric_bounds (width / 3 + 2)
  have hdx : (WallModel.new x width height).dx ≠ 0 := by
    rw [new_dx]
    intro h0
    rw [h0] at hb
    linarith [hb.1]
  have hdy : (WallModel.new x width height).dy ≠ 0 := by
    rw [new_dy]
    intro h0
    linarith
  have hinj : ∀ i k i2 k2 : Nat,
      (WallModel.new x width height).calculatePosition i k
        = (WallModel.new x width height).calculatePosition i2 k2 → i = i2 ∧ k = k2 :=
    fun i k i2 k2 h => calculatePosition_injective _ hdx hdy h
  have hminus : ((WallModel.new x width height).minusCharges.map
      (fun c => c.locationProperty.initialValue)).Nodup := by
    rw [new_minusCharges_initial]
    refine List.Nodup.map_on ?_ nodup_grid
    intro p _ q _ hpq
    have h1 : x + ((WallModel.new x width height).calculatePosition p.1 p.2).1
          - PointChargeModel.RADIUS
        = x + ((WallModel.new x width height).calculatePosition q.1 q.2).1
          - PointChargeModel.RADIUS := congrArg Vector2.x hpq
    have h2 : ((WallModel.new x width height).calculatePosition p.1 p.2).2
          - PointChargeModel.RADIUS
        = ((WallModel.new x width height).calculatePosition q.1 q.2).2
          - PointChargeModel.RADIUS := congrArg Vector2.y hpq
    have hcp : (WallModel.new x width height).calculatePosition p.1 p.2
        = (WallModel.new x width height).calculatePosition q.1 q.2 :=
      Prod.ext (by linarith) (by linarith)
    exact Prod.ext (hinj _ _ _ _ hcp).1 (hinj _ _ _ _ hcp).2
  have hplus : ((WallModel.new x width height).plusCharges.map
      (fun c => c.defaultLocation)).Nodup := by
    rw [new_plusCharges_default]
    refine List.Nodup.map_on ?_ nodup_grid
    intro p _ q _ hpq
    have h1 : x + ((WallModel.new x width height).calculatePosition p.1 p.2).1
        = x + ((WallModel.new x width height).calculatePosition q.1 q.2).1 :=
      congrArg Vector2.x hpq
    have h2 : ((WallModel.new x width height).calculatePosition p.1 p.2).2
        = ((WallModel.new x width height).calculatePosition q.1 q.2).2 :=
      congrArg Vector2.y hpq
    have hcp : (WallModel.new x width height).calculatePosition p.1 p.2
        = (WallModel.new x width height).calculatePosition q.1 q.2 :=
      Prod.ext (by linarith) h2
    exact Prod.ext (hinj _ _ _ _ hcp).1 (hinj _ _ _ _ hcp).2
  refine ⟨hinj, ?_, ?_, hminus, ?_, hplus, ?_⟩
  · have := congrArg List.length (new_minusCharges_initial x width height)
    simpa using this
  · have := congrArg List.length (new_plusCharges_default x width height)
    simpa using this
  · rw [new_minusCharges_default]; exact hminus
  · rw [new_minusCharges_default, new_minusCharges_initial]
    have hp := new_plusCharges_default x width height
    have : (WallModel.new x width height).plusCharges.map (fun c =>
          (⟨c.defaultLocation.x - PointChargeModel.RADIUS,
            c.defaultLocation.y - PointChargeModel.RADIUS⟩ : Vector2))
        = ((WallModel.new x width height).plusCharges.map (fun c => c.defaultLocation)).map
            (fun v => (⟨v.x - PointChargeModel.RADIUS, v.y - PointChargeModel.RADIUS⟩ :
              Vector2)) := by
      rw [List.map_map]; rfl
    rw [this, hp, List.map_map]
    rfl

/-- Witness of C25: the wall of the simulation, 80 wide and 504 high, at x = 688. -/
theorem wall_default_positions_are_distinct_witness :
    (0 : ℚ) ≤ 80 ∧ (0 : ℚ) < 504 ∧
    ((WallModel.new 688 80 504).minusCharges.map
      (fun c => c.locationProperty.initialValue)).Nodup ∧
    (WallModel.new 688 80 504).minusCharges.length = 54 :=
  ⟨by norm_num, by norm_num,
    (wall_default_positions_are_distinct 688 80 504 (by norm_num) (by norm_num)).2.2.2.1,
    (wall_default_positions_are_distinct 688 80 504 (by norm_num) (by norm_num)).2.1⟩

/-! ## The closest charge and the induced positions (`WallModel.js`) -/

/-- The loop of `getClosestChargeToBalloon` started from any state of its two variables:
either no charge of the list is closer than the distance so far and the state is kept, or
the state holds a charge of the list that is strictly closer than every charge before it,
at least as close as every charge after it, and strictly closer than the distance the
loop started with. -/
theorem closest_scan (sqrt : ℚ → ℚ) (center : Vector2) (l : List MovablePointChargeModel)
    (scan : ClosestChargeScan) :
    (l.foldl (ClosestChargeScan.step sqrt center) scan = scan ∧
      ∀ c ∈ l, ∃ d, scan.chargeDistance = some d ∧
        d ≤ c.locationProperty.initialValue.distance sqrt center) ∨
    (∃ pre c post, l = pre ++ c :: post ∧
      l.foldl (ClosestChargeScan.step sqrt center) scan
        = { closestCharge := some c,
            chargeDistance := some (c.locationProperty.initialValue.distance sqrt center) } ∧
      (∀ p ∈ pre, c.locationProperty.initialValue.distance sqrt center
        < p.locationProperty.initialValue.distance sqrt center) ∧
      (∀ p ∈ post, c.locationProperty.initialValue.distance sqrt center
        ≤ p.locationProperty.initialValue.distance sqrt center) ∧
      (∀ d, scan.chargeDistance = some d →
        c.locationProperty.initialValue.distance sqrt center < d)) := by
  induction l generalizing scan with
  | nil => exact Or.inl ⟨rfl, fun c hc => absurd hc (List.not_mem_nil _)⟩
  | cons a l ih =>
    simp only [List.foldl_cons]
    by_cases hfire : (match scan.chargeDistance with
        | none => true
        | some chargeDistance =>
          decide (a.locationProperty.initialValue.distance sqrt center < chargeDistance))
        = true
    · have hstep : ClosestChargeScan.step sqrt center scan a
          = { closestCharge := some a,
              chargeDistance := some (a.locationProperty.initialValue.distance sqrt center) } := by
        simp only [ClosestChargeScan.step, hfire, if_true]
      have hlt : ∀ d, scan.chargeDistance = some d →
          a.locationProperty.initialValue.distance sqrt center < d := by
        intro d hd
        rw [hd] at hfire
        simpa using hfire
      rw [hstep]
      right
      have key := ih ⟨some a, some (a.locationProperty.initialValue.distance sqrt center)⟩
      rcases key with ⟨hkeep, hall⟩ | ⟨pre, c, post, hl, hres, hpre, hpost, hd⟩
      · refine ⟨[], a, l, rfl, hkeep, fun p hp => absurd hp (List.not_mem_nil _), ?_, hlt⟩
        intro p hp
        obtain ⟨d, hd, hle⟩ := hall p hp
        simp only [Option.some.injEq] at hd
        rw [hd]
        exact hle
      · have hca := hd _ rfl
        refine ⟨a :: pre, c, post, by rw [hl]; rfl, hres, ?_, hpost, ?_⟩
        · intro p hp
          rcases List.mem_cons.1 hp with rfl | hp
          · exact hca
          · exact hpre p hp
        · intro d hd2
          exact lt_trans hca (hlt d hd2)
    · have hstep : ClosestChargeScan.step sqrt center scan a = scan := by
        simp only [ClosestChargeScan.step, hfire]
        rfl
      have hge : ∃ d, scan.chargeDistance = some d ∧
          d ≤ a.locationProperty.initialValue.distance sqrt center := by
        cases hcd : scan.chargeDistance with
        | none => rw [hcd] at hfire; exact absurd rfl hfire
        | some d =>
          rw [hcd] at hfire
          exact ⟨d, rfl, not_lt.1 (by simpa using hfire)⟩
      rw [hstep]
      rcases ih scan with ⟨hkeep, hall⟩ | ⟨pre, c, post, hl, hres, hpre, hpost, hd⟩
      · left
        refine ⟨hkeep, ?_⟩
        intro p hp
        rcases List.mem_cons.1 hp with rfl | hp
        · exact hge
        · exact hall p hp
      · right
        obtain ⟨d, hd1, hd2⟩ := hge
        refine ⟨a :: pre, c, post, by rw [hl]; rfl, hres, ?_, hpost, hd⟩
        intro p hp
        rcases List.mem_cons.1 hp with rfl | hp
        · exact lt_of_lt_of_le (hd d hd1) hd2
        · exact hpre p hp

/-- The loop of `getClosestChargeToBalloon` reads the initial values only: on charges
whose properties are set to other positions it runs in step. -/
theorem closest_scan_map (sqrt : ℚ → ℚ) (center : Vector2)
    (move : MovablePointChargeModel → Vector2) (l : List MovablePointChargeModel)
    (scan : ClosestChargeScan) :
    (l.map (fun c => { c with locationProperty := c.locationProperty.set (move c) })).foldl
        (ClosestChargeScan.step sqrt center)
        { closestCharge := scan.closestCharge.map
            (fun c => { c with locationProperty := c.locationProperty.set (move c) }),
          chargeDistance := scan.chargeDistance }
      = { closestCharge :=
            (l.foldl (ClosestChargeScan.step sqrt center) scan).closestCharge.map
              (fun c => { c with locationProperty := c.locationProperty.set (move c) }),
          chargeDistance :=
            (l.foldl (ClosestChargeScan.step sqrt center) scan).chargeDistance } := by
  induction l generalizing scan with
  | nil => rfl
  | cons a l ih =>
    simp only [List.map_cons, List.foldl_cons]
    rw [← ih (ClosestChargeScan.step sqrt center scan a)]
    congr 1
    have hiv : (a.locationProperty.set (move a)).initialValue
        = a.locationProperty.initialValue := rfl
    simp only [ClosestChargeScan.step, hiv]
    split_ifs <;> rfl

/-- C22: for every wall with at least one minus charge and every balloon,
`getClosestChargeToBalloon` returns a minus charge `c` of the wall, at the storage index
`pre.length`, whose initial (default) position is at least as close to the charge center of
the balloon as that of every minus charge and strictly closer than that of every minus
charge stored before it; and when the properties of the charges are set to any other
current positions, the same charge (with its new current position) is returned. -/
theorem closest_charge_is_first_nearest_default (sqrt : ℚ → ℚ) (w : WallModel)
    (balloon : WallBalloon) (hne : w.minusCharges ≠ []) :
    ∃ pre c post, w.minusCharges = pre ++ c :: post ∧
      w.minusCharges[pre.length]? = some c ∧
      w.getClosestChargeToBalloon sqrt balloon = some c ∧
      (∀ p ∈ w.minusCharges,
        c.locationProperty.initialValue.distance sqrt balloon.chargeCenter
          ≤ p.locationProperty.initialValue.distance sqrt balloon.chargeCenter) ∧
      (∀ p ∈ pre,
        c.locationProperty.initialValue.distance sqrt balloon.chargeCenter
          < p.locationProperty.initialValue.distance sqrt balloon.chargeCenter) ∧
      (∀ move : MovablePointChargeModel → Vector2,
        WallModel.getClosestChargeToBalloon sqrt
            { w with
              minusCharges :=
                w.minusCharges.map
                  (fun c => { c with locationProperty := c.locationProperty.set (move c) }) }
            balloon
          = some { c with locationProperty := c.locationProperty.set (move c) }) := by
  have key := closest_scan sqrt balloon.chargeCenter w.minusCharges ⟨none, none⟩
  rcases key with ⟨_, hall⟩ | ⟨pre, c, post, hl, hres, hpre, hpost, _⟩
  · obtain ⟨a, ha⟩ := List.exists_mem_of_ne_nil _ hne
    obtain ⟨d, hd, _⟩ := hall a ha
    exact absurd hd (by simp)
  · refine ⟨pre, c, post, hl, ?_, ?_, ?_, hpre, ?_⟩
    · rw [hl, List.getElem?_append_right (le_refl _)]; simp
    · simp only [WallModel.getClosestChargeToBalloon, hres]
    · intro p hp
      rw [hl] at hp
      rcases List.mem_append.1 hp with hp | hp
      · exact (hpre p hp).le
      · rcases List.mem_cons.1 hp with rfl | hp
        · exact le_refl _
        · exact hpost p hp
    · intro move
      have hmap := closest_scan_map sqrt balloon.chargeCenter move w.minusCharges
        ⟨none, none⟩
      simp only [Option.map_none'] at hmap
      simp only [WallModel.getClosestChargeToBalloon, hmap, hres, Option.map_some']

/-- Witness of C22: the wall `exampleWall` with its two displaced minus charges and a
balloon with its charge center at `(680, 20)`. -/
theorem closest_charge_is_first_nearest_default_witness :
    exampleWall.minusCharges ≠ [] ∧
    ∃ pre c post, exampleWall.minusCharges = pre ++ c :: post ∧
      exampleWall.minusCharges[pre.length]? = some c ∧
      exampleWall.getClosestChargeToBalloon exampleSqrt exampleYellowBalloon = some c ∧
      (∀ p ∈ exampleWall.minusCharges,
        c.locationProperty.initialValue.distance exampleSqrt exampleYellowBalloon.chargeCenter
          ≤ p.locationProperty.initialValue.distance exampleSqrt
              exampleYellowBalloon.chargeCenter) ∧
      (∀ p ∈ pre,
        c.locationProperty.initialValue.distance exampleSqrt exampleYellowBalloon.chargeCenter
          < p.locationProperty.initialValue.distance exampleSqrt
              exampleYellowBalloon.chargeCenter) ∧
      (∀ move : MovablePointChargeModel → Vector2,
        WallModel.getClosestChargeToBalloon exampleSqrt
            { exampleWall with
              minusCharges :=
                exampleWall.minusCharges.map
                  (fun c => { c with locationProperty := c.locationProperty.set (move c) }) }
            exampleYellowBalloon
          = some { c with locationProperty := c.locationProperty.set (move c) }) :=
  ⟨by simp [exampleWall],
    closest_charge_is_first_nearest_default exampleSqrt exampleWall exampleYellowBalloon
      (by simp [exampleWall])⟩

/-- C23: after `updateChargePositions`, for every force function, every wall and every
state of the two balloons, (1) the position of every minus charge is its default (initial)
position plus the force of the yellow balloon plus the force of the green balloon, where a
hidden balloon contributes the zero vector; (2) the default positions are kept; (3) the
result does not depend on the positions the charges had before; (4) a second
recomputation with the same balloons changes nothing; and (5) with both balloons hidden
every charge sits at its default position. -/
theorem wall_charge_positions_are_default_plus_visible_forces
    (getForce : Vector2 → Vector2 → ℚ → ℚ → Vector2) (yellowBalloon greenBalloon : WallBalloon)
    (w : WallModel) :
    (w.updateChargePositions getForce yellowBalloon greenBalloon).minusCharges.map
        (fun c => c.locationProperty.value)
      = w.minusCharges.map (fun c =>
          let force : WallBalloon → Vector2 := fun balloon =>
            if balloon.isVisible then
              getForce c.locationProperty.initialValue
                ⟨balloon.chargeCenter.x, balloon.chargeCenter.y - 2 * 8⟩
                (10000 * -1.754 * balloon.charge) 2.35
            else ⟨0, 0⟩
          (⟨c.locationProperty.initialValue.x + (force yellowBalloon).x
              + (force greenBalloon).x,
            c.locationProperty.initialValue.y + (force yellowBalloon).y
              + (force greenBalloon).y⟩ : Vector2)) ∧
    (w.updateChargePositions getForce yellowBalloon greenBalloon).minusCharges.map
        (fun c => c.locationProperty.initialValue)
      = w.minusCharges.map (fun c => c.locationProperty.initialValue) ∧
    (∀ move : MovablePointChargeModel → Vector2,
      WallModel.updateChargePositions getForce yellowBalloon greenBalloon
          { w with
            minusCharges :=
              w.minusCharges.map
                (fun c => { c with locationProperty := c.locationProperty.set (move c) }) }
        = w.updateChargePositions getForce yellowBalloon greenBalloon) ∧
    (w.updateChargePositions getForce yellowBalloon greenBalloon).updateChargePositions
        getForce yellowBalloon greenBalloon
      = w.updateChargePositions getForce yellowBalloon greenBalloon ∧
    (w.updateChargePositions getForce { yellowBalloon with isVisible := false }
        { greenBalloon with isVisible := false }).minusCharges.map
        (fun c => c.locationProperty.value)
      = w.minusCharges.map (fun c => c.locationProperty.initialValue) := by
  refine ⟨?_, ?_, ?_, ?_, ?_⟩
  · simp only [WallModel.updateChargePositions, List.map_map]
    apply List.map_congr_left
    intro c _
    simp only [Function.comp, Vector2Property.set, Vector2.minusXY, PointChargeModel.RADIUS,
      PointChargeModel.CHARGE, sub_zero]
  · simp only [WallModel.updateChargePositions, List.map_map]
    apply List.map_congr_left
    intro c _
    rfl
  · intro move
    simp only [WallModel.updateChargePositions, List.map_map]
    congr 1
  · simp only [WallModel.updateChargePositions, List.map_map]
    congr 1
  · simp only [WallModel.updateChargePositions, List.map_map]
    apply List.map_congr_left
    intro c _
    simp [Vector2Property.set]

/-! ## The iterations of the loops of `stripPlaceholders` -/

/-- With as much fuel as the string has characters, the loop that replaces a pattern by a
shorter replacement ends: it runs `n` iterations, and each of them shortens the string by
the difference of the two lengths. -/
theorem replaceIterations_spec (pattern replacement : List Char)
    (hlen : replacement.length < pattern.length) (fuel : Nat) (s : List Char)
    (hfuel : s.length ≤ fuel) :
    ∃ n r, replaceIterations pattern replacement fuel s = some n ∧
      replaceWhilePresent pattern replacement fuel s = some r ∧
      r.length + n * (pattern.length - replacement.length) = s.length := by
  induction fuel generalizing s with
  | zero =>
    have hs : s = [] := List.length_eq_zero.1 (Nat.le_zero.1 hfuel)
    subst hs
    cases pattern with
    | nil => simp at hlen
    | cons a p => exact ⟨0, [], by simp [replaceIterations, indexOf],
        by simp [replaceWhilePresent, indexOf], by simp⟩
  | succ fuel ih =>
    by_cases hp : (indexOf s pattern).isSome = true
    · have hl := length_replaceFirst s pattern replacement ((indexOf_isSome_iff _ _).1 hp)
      obtain ⟨n, r, hn, hr, hsum⟩ := ih (replaceFirst s pattern replacement) (by omega)
      refine ⟨n + 1, r, ?_, ?_, ?_⟩
      · rw [replaceIterations, if_pos hp, hn]; rfl
      · rw [replaceWhilePresent, if_pos hp, hr]
      · rw [Nat.add_mul, one_mul]
        omega
    · exact ⟨0, s, by rw [replaceIterations, if_neg hp],
        by rw [replaceWhilePresent, if_neg hp], by simp⟩

/-- More fuel does not change a loop that has ended. -/
theorem replaceIterations_succ (pattern replacement : List Char) (fuel : Nat) (s : List Char)
    (n : Nat) (r : List Char) (hn : replaceIterations pattern replacement fuel s = some n)
    (hr : replaceWhilePresent pattern replacement fuel s = some r) :
    replaceIterations pattern replacement (fuel + 1) s = some n ∧
    replaceWhilePresent pattern replacement (fuel + 1) s = some r := by
  induction fuel generalizing s n with
  | zero =>
    rw [replaceIterations] at hn
    rw [replaceWhilePresent] at hr
    by_cases hp : (indexOf s pattern).isSome = true
    · rw [if_pos hp] at hn
      exact absurd hn (by simp)
    · rw [if_neg hp] at hn hr
      exact ⟨by rw [replaceIterations, if_neg hp]; exact hn,
        by rw [replaceWhilePresent, if_neg hp]; exact hr⟩
  | succ fuel ih =>
    rw [replaceIterations] at hn
    rw [replaceWhilePresent] at hr
    by_cases hp : (indexOf s pattern).isSome = true
    · rw [if_pos hp] at hn hr
      cases hm : replaceIterations pattern replacement fuel
          (replaceFirst s pattern replacement) with
      | none => rw [hm] at hn; exact absurd hn (by simp)
      | some m =>
        rw [hm] at hn
        obtain ⟨h1, h2⟩ := ih _ m hm hr
        exact ⟨by rw [replaceIterations, if_pos hp, h1]; exact hn,
          by rw [replaceWhilePresent, if_pos hp, h2]⟩
    · rw [if_neg hp] at hn hr
      exact ⟨by rw [replaceIterations, if_neg hp]; exact hn,
        by rw [replaceWhilePresent, if_neg hp]; exact hr⟩

theorem replaceIterations_add (pattern replacement : List Char) (fuel : Nat) (s : List Char)
    (n : Nat) (r : List Char) (hn : replaceIterations pattern replacement fuel s = some n)
    (hr : replaceWhilePresent pattern replacement fuel s = some r) (extra : Nat) :
    replaceIterations pattern replacement (fuel + extra) s = some n ∧
    replaceWhilePresent pattern replacement (fuel + extra) s = some r := by
  induction extra with
  | zero => exact ⟨hn, hr⟩
  | succ extra ih => exact replaceIterations_succ _ _ _ _ _ _ ih.1 ih.2

/-- Removing the first occurrence of a placeholder does not lengthen the string. -/
theorem length_removePlaceholders (placeholders : List String) (s : List Char) :
    (BASEA11yStrings.removePlaceholders s placeholders).length ≤ s.length := by
  induction placeholders generalizing s with
  | nil => exact le_rfl
  | cons p ps ih =>
    simp only [BASEA11yStrings.removePlaceholders, List.foldl_cons]
    refine le_trans (ih _) ?_
    by_cases hp : (['{', '{'] ++ p.data ++ ['}', '}']) <:+: s
    · have := length_replaceFirst s (['{', '{'] ++ p.data ++ ['}', '}']) [] hp
      simp only [List.length_nil] at this
      omega
    · have hnone : indexOf s (['{', '{'] ++ p.data ++ ['}', '}']) = none :=
        (indexOf_eq_none_iff _ _).2 hp
      have hkeep : ∀ (t pattern : List Char), indexOf t pattern = none →
          replaceFirst t pattern [] = t := by
        intro t pattern
        induction t with
        | nil =>
          intro h
          by_cases he : pattern.isEmpty = true
          · simp [indexOf, he] at h
          · simp [replaceFirst, he]
        | cons c t iht =>
          intro h
          by_cases hpre : pattern.isPrefixOf (c :: t) = true
          · simp [indexOf, hpre] at h
          · have ht : indexOf t pattern = none := by
              simpa [indexOf, hpre] using h
            simp [replaceFirst, hpre, iht ht]
      rw [hkeep s _ hnone]

/-- C30: for every pattern string and every list of placeholders, `stripPlaceholders`
terminates. The placeholder loop does not lengthen the string; an iteration of the first
`while` loop (entered when ' .' occurs) shortens the string by two characters and an
iteration of the second (entered when a double space occurs) by one; the first loop ends
after `n` iterations and the second after `m` iterations with `2 * n + m` (so also
`n + m`) at most the length of the pattern, whatever number of iterations at least the
length of the string is allowed; and the function returns its result. -/
theorem stripPlaceholders_terminates (patternString : String) (placeholders : List String) :
    (BASEA11yStrings.removePlaceholders patternString.data placeholders).length
      ≤ patternString.length ∧
    (∀ s : List Char, (indexOf s [' ', '.']).isSome = true →
      (replaceFirst s [' ', '.'] []).length + 2 = s.length) ∧
    (∀ s : List Char, (indexOf s [' ', ' ']).isSome = true →
      (replaceFirst s [' ', ' '] [' ']).length + 1 = s.length) ∧
    ∃ n noPunctuation m noDoubleSpaces,
      (∀ extra : Nat,
        replaceIterations [' ', '.'] []
            ((BASEA11yStrings.removePlaceholders patternString.data placeholders).length
              + extra)
            (BASEA11yStrings.removePlaceholders patternString.data placeholders) = some n ∧
        replaceWhilePresent [' ', '.'] []
            ((BASEA11yStrings.removePlaceholders patternString.data placeholders).length
              + extra)
            (BASEA11yStrings.removePlaceholders patternString.data placeholders)
          = some noPunctuation) ∧
      (∀ extra : Nat,
        replaceIterations [' ', ' '] [' '] (noPunctuation.length + extra) noPunctuation
          = some m ∧
        replaceWhilePresent [' ', ' '] [' '] (noPunctuation.length + extra) noPunctuation
          = some noDoubleSpaces) ∧
      2 * n + m ≤ patternString.length ∧
      n + m ≤ patternString.length ∧
      BASEA11yStrings.stripPlaceholders patternString placeholders
        = some (String.mk (BASEA11yStrings.removeTrailingSpace noDoubleSpaces)) := by
  have h0 := length_removePlaceholders placeholders patternString.data
  refine ⟨h0, ?_, ?_, ?_⟩
  · intro s hs
    have := length_replaceFirst s [' ', '.'] [] ((indexOf_isSome_iff _ _).1 hs)
    simpa using this
  · intro s hs
    have := length_replaceFirst s [' ', ' '] [' '] ((indexOf_isSome_iff _ _).1 hs)
    simpa using this
  · generalize hs0 : BASEA11yStrings.removePlaceholders patternString.data placeholders = s0
      at h0 ⊢
    obtain ⟨n, s1, hn, h1, hsum1⟩ :=
      replaceIterations_spec [' ', '.'] [] (by simp) s0.length s0 le_rfl
    obtain ⟨m, s2, hm, h2, hsum2⟩ :=
      replaceIterations_spec [' ', ' '] [' '] (by simp) s1.length s1 le_rfl
    simp only [List.length_cons, List.length_nil] at hsum1 hsum2
    have hlen : patternString.length = patternString.data.length := rfl
    refine ⟨n, s1, m, s2, fun extra => replaceIterations_add _ _ _ _ _ _ hn h1 extra,
      fun extra => replaceIterations_add _ _ _ _ _ _ hm h2 extra, by omega, by omega, ?_⟩
    unfold BASEA11yStrings.stripPlaceholders
    simp only
    rw [hs0, h1]
    simp only
    rw [h2]

end BASE
